import Mathlib

/-!
Verification of the campaign-management backend's authorization and
domain-mutation layer (feVttrpgBE).

The definitions below are a shallow embedding of the route handlers in
`src/routes/characters.ts`, `src/routes/maps.ts`, the token routes,
`src/routes/presets.ts`, `src/routes/tilesets.ts`, and the helpers in
`src/utils/auth.ts` and `src/utils/audit.ts`.  The persistent store is
modelled as an explicit `DB` value threaded through each handler; every
handler returns the HTTP reply together with the successor state.
JavaScript truthiness (`if (x)`) and nullish coalescing (`x ?? y`) are
modelled explicitly, as are the zod body validators (a zod parse failure
surfaces as status 400 "Invalid request" via the app's error handler).
-/

/-- Campaign role, `role ∈ {DM, PLAYER}` on a CampaignMember row. -/
inductive Role
  | DM
  | PLAYER
deriving DecidableEq

/-- Character kind, `kind ∈ {PLAYER, NPC, ENEMY}`. -/
inductive Kind
  | PLAYER
  | NPC
  | ENEMY
deriving DecidableEq

/-- Item catalog category. -/
inductive Category
  | WEAPON
  | ITEM
deriving DecidableEq

/-- Dice-roll log type. -/
inductive RollType
  | REGULAR
  | COMBAT
deriving DecidableEq

/-- Audit log entity type. -/
inductive EntityType
  | MAP
  | CHARACTER
deriving DecidableEq

/-- One CampaignMember row: `(userId, campaignId)` unique pair plus role. -/
structure CampaignMember where
  userId : String
  campaignId : String
  role : Role
deriving DecidableEq

/-- A character's `stats` column: either a flat numeric record or the
structured `{baseStats, growths, bonusStats, weaponRanks}` shape; both
are accepted by the zod union `statsSchema`. -/
inductive Stats
  | flat (m : List (String × Int))
  | structured (baseStats : Option (List (String × Int)))
      (growths : Option (List (String × Int)))
      (bonusStats : Option (List (String × Int)))
      (weaponRanks : Option (List (String × String)))
deriving DecidableEq

/-- One Character row. -/
structure Character where
  id : String
  name : String
  stats : Stats
  ownerId : Option String
  kind : Kind
  className : Option String
  level : Int
  exp : Int
  weaponSkills : Option (List (String × String))
  currentHp : Int
  equippedWeaponItemId : Option String
  campaignId : String
deriving DecidableEq

/-- One CharacterItem (inventory) row. -/
structure CharacterItem where
  id : String
  characterId : String
  itemId : String
  sortOrder : Int
  uses : Option Int
  blessed : Bool
deriving DecidableEq

/-- One CharacterSkill join row (`(characterId, skillId)` unique pair). -/
structure CharacterSkill where
  id : String
  characterId : String
  skillId : String
deriving DecidableEq

/-- One Skill catalog row. -/
structure Skill where
  id : String
  name : String
deriving DecidableEq

/-- One Item catalog row; `itemType` embeds the `type` column. -/
structure Item where
  id : String
  name : String
  category : Category
  itemType : Option String
  classRestriction : Option String
  uses : Option Int
deriving DecidableEq

/-- One GameClass catalog row; `skills` is its skill-name list. -/
structure GameClass where
  id : String
  name : String
  skills : List String
deriving DecidableEq

/-- A map's tile grid: 2D array of nullable tile identifiers. -/
abbrev TileGrid := List (List (Option String))

/-- One Map row. -/
structure GameMap where
  id : String
  name : String
  imageUrl : Option String
  gridSizeX : Int
  gridSizeY : Int
  gridOffsetX : Int
  gridOffsetY : Int
  tileCountX : Int
  tileCountY : Int
  tileGrid : Option TileGrid
  campaignId : String
deriving DecidableEq

/-- One Token row (`characterId` carries a unique constraint). -/
structure Token where
  id : String
  mapId : String
  label : String
  x : Int
  y : Int
  color : String
  characterId : String
deriving DecidableEq

/-- One MapRollLog row. -/
structure RollLog where
  mapId : String
  userId : String
  rollType : RollType
  result : Int
deriving DecidableEq

/-- One TileSet row (tiles themselves are not needed by the claims). -/
structure TileSet where
  id : String
  name : String
  imageUrl : String
  tileSizeX : Int
  tileSizeY : Int
  columns : Int
  rows : Int
  campaignId : String
deriving DecidableEq

/-- One TilePreset row. -/
structure TilePreset where
  id : String
  name : String
  tileCountX : Int
  tileCountY : Int
  tileGrid : TileGrid
  campaignId : String
deriving DecidableEq

/-- Opaque before/after snapshot payloads written to the audit log. -/
inductive Snap
  | null
  | char (c : Character)
  | invItem (it : CharacterItem)
  | gmap (m : GameMap)
  | hp (n : Int)
  | equip (o : Option String)
  | ids (l : List String)
deriving DecidableEq

/-- One AuditLog row. -/
structure AuditEntry where
  entityType : EntityType
  entityId : String
  action : String
  before : Snap
  after : Snap
  campaignId : String
  userId : String
deriving DecidableEq

/-- The relational store. -/
structure DB where
  memberships : List CampaignMember
  characters : List Character
  characterItems : List CharacterItem
  characterSkills : List CharacterSkill
  skills : List Skill
  items : List Item
  gameClasses : List GameClass
  maps : List GameMap
  tokens : List Token
  rolls : List RollLog
  tileSets : List TileSet
  presets : List TilePreset
  auditLogs : List AuditEntry
deriving DecidableEq

/-- HTTP reply: success, or `reply.code(status).send({error: msg})`. -/
inductive Reply
  | ok
  | err (status : Nat) (msg : String)
deriving DecidableEq

/-- JavaScript `a ?? b` on two nullable values. -/
def orO {α : Type} : Option α → Option α → Option α
  | some a, _ => some a
  | none, b => b

/-- `findUnique` lookups. -/
def findMembership (db : DB) (userId campaignId : String) : Option CampaignMember :=
  db.memberships.find? (fun m => m.userId == userId && m.campaignId == campaignId)

def findChar (db : DB) (id : String) : Option Character :=
  db.characters.find? (fun c => c.id == id)

def findItem (db : DB) (id : String) : Option Item :=
  db.items.find? (fun i => i.id == id)

def findInvRow (db : DB) (id : String) : Option CharacterItem :=
  db.characterItems.find? (fun it => it.id == id)

def findSkill (db : DB) (id : String) : Option Skill :=
  db.skills.find? (fun s => s.id == id)

def findCharacterSkillPair (db : DB) (characterId skillId : String) : Option CharacterSkill :=
  db.characterSkills.find? (fun cs => cs.characterId == characterId && cs.skillId == skillId)

def findCharacterSkill (db : DB) (id : String) : Option CharacterSkill :=
  db.characterSkills.find? (fun cs => cs.id == id)

def findGameClass (db : DB) (name : String) : Option GameClass :=
  db.gameClasses.find? (fun gc => gc.name == name)

def findMap (db : DB) (id : String) : Option GameMap :=
  db.maps.find? (fun m => m.id == id)

def findToken (db : DB) (id : String) : Option Token :=
  db.tokens.find? (fun t => t.id == id)

def findTokenByCharacter (db : DB) (characterId : String) : Option Token :=
  db.tokens.find? (fun t => t.characterId == characterId)

def findPreset (db : DB) (id : String) : Option TilePreset :=
  db.presets.find? (fun p => p.id == id)

/-- The current inventory rows of a character (`findMany where characterId`). -/
def invOf (db : DB) (characterId : String) : List CharacterItem :=
  db.characterItems.filter (fun it => it.characterId == characterId)

/-- `writeAuditLog` from `src/utils/audit.ts`: appends one AuditLog row. -/
def writeAuditLog (db : DB) (e : AuditEntry) : DB :=
  { db with auditLogs := db.auditLogs ++ [e] }

/-- `getSessionUserId`: `request.session.userId ?? null`. -/
def getSessionUserId (sess : Option String) : Option String :=
  sess

/-- `requireCampaignMember` from `src/utils/auth.ts`.  A falsy userId
(absent, or the empty string) yields 401; a missing CampaignMember row
yields 403 Forbidden; otherwise the membership is returned. -/
def requireCampaignMember (db : DB) (sess : Option String) (campaignId : String) :
    Except Reply CampaignMember :=
  match getSessionUserId sess with
  | none => .error (.err 401 "Unauthorized")
  | some userId =>
    if userId = "" then .error (.err 401 "Unauthorized")
    else
      match findMembership db userId campaignId with
      | none => .error (.err 403 "Forbidden")
      | some m => .ok m

/-- `requireDM` from `src/utils/auth.ts`. -/
def requireDM (db : DB) (sess : Option String) (campaignId : String) :
    Except Reply CampaignMember :=
  match requireCampaignMember db sess campaignId with
  | .error e => .error e
  | .ok m => if m.role ≠ Role.DM then .error (.err 403 "DM role required") else .ok m

/-! ## Character routes (`src/routes/characters.ts`) -/

/-- `normalizeClassSkills`: trim entries and drop empties. -/
def normalizeClassSkills (value : List String) : List String :=
  (value.map (fun entry => entry.trim)).filter (fun entry => decide (0 < entry.length))

/-- `addMissingClassSkills`: grant the character every skill named by its
class that it does not already have (duplicate-safe bulk insert).  The
store-generated ids of the inserted join rows are modelled by the
deterministic surrogate `characterId ++ "/" ++ skillId` (their natural
unique key). -/
def addMissingClassSkills (db : DB) (characterId : String) (className : Option String) : DB :=
  match className with
  | none => db
  | some cn =>
    match findGameClass db cn with
    | none => db
    | some gameClass =>
      let classSkills := normalizeClassSkills gameClass.skills
      if classSkills.isEmpty then db
      else
        let availableSkills := db.skills.filter (fun s => classSkills.contains s.name)
        if availableSkills.isEmpty then db
        else
          let existingIds :=
            (db.characterSkills.filter (fun cs => cs.characterId == characterId)).map
              (fun cs => cs.skillId)
          let toCreate := availableSkills.filter (fun s => !existingIds.contains s.id)
          if toCreate.isEmpty then db
          else
            { db with characterSkills :=
                db.characterSkills ++
                  toCreate.map (fun s => ⟨characterId ++ "/" ++ s.id, characterId, s.id⟩) }

def lookupNum (m : List (String × Int)) (k : String) : Option Int :=
  (m.find? (fun e => e.1 == k)).map (fun e => e.2)

/-- `baseStats?.hp ?? rawStats?.hp ?? 0` on the union-shaped stats value. -/
def baseHpOf : Stats → Int
  | .flat m => (lookupNum m "hp").getD 0
  | .structured baseStats _ _ _ => (baseStats.bind (fun b => lookupNum b "hp")).getD 0

/-- Parsed `characterSchema` body. -/
structure CharacterCreateBody where
  name : String
  stats : Stats
  ownerId : Option String
  kind : Option Kind
  className : Option String
  level : Option Int
  exp : Option Int
  weaponSkills : Option (List (String × String))
  currentHp : Option Int
deriving DecidableEq

/-- zod constraints of `characterSchema`. -/
def CharacterCreateBody.valid (b : CharacterCreateBody) : Bool :=
  decide (2 ≤ b.name.length) && b.level.all (fun l => decide (1 ≤ l)) &&
    b.exp.all (fun e => decide (0 ≤ e)) && b.currentHp.all (fun h => decide (0 ≤ h))

/-- Parsed `updateSchema` body (`Option (Option α)` distinguishes an
absent field from an explicit null for the nullable-optional fields). -/
structure CharacterUpdateBody where
  name : Option String
  stats : Option Stats
  ownerId : Option (Option String)
  kind : Option Kind
  className : Option (Option String)
  level : Option Int
  exp : Option Int
  weaponSkills : Option (List (String × String))
  currentHp : Option Int
deriving DecidableEq

def CharacterUpdateBody.valid (b : CharacterUpdateBody) : Bool :=
  b.name.all (fun n => decide (2 ≤ n.length)) && b.level.all (fun l => decide (1 ≤ l)) &&
    b.exp.all (fun e => decide (0 ≤ e)) && b.currentHp.all (fun h => decide (0 ≤ h))

/-- JavaScript `x ?? e` where `x` is nullable-optional: both `undefined`
and `null` fall back to `e`. -/
def nnCoalesce {α : Type} : Option (Option α) → Option α → Option α
  | some (some v), _ => some v
  | _, e => e

/-- JavaScript `x === undefined ? e : x` on a nullable-optional field:
only an absent field falls back (an explicit null overrides). -/
def undefCoalesce {α : Type} : Option (Option α) → Option α → Option α
  | none, e => e
  | some v, _ => v

/-- JavaScript truthiness chain `character.ownerId && character.ownerId === userId`:
the owner id must be non-null and non-empty and equal the session user id. -/
def ownerTruthyEq (ownerId : Option String) (userId : Option String) : Bool :=
  match ownerId with
  | some o => decide (o ≠ "") && (some o == userId)
  | none => false

/-- GET `/campaigns/:id/characters`. -/
def listCampaignCharacters (db : DB) (sess : Option String) (campaignId : String) : Reply × DB :=
  match requireCampaignMember db sess campaignId with
  | .error e => (e, db)
  | .ok _ => (.ok, db)

/-- POST `/campaigns/:id/characters`. -/
def createCharacter (db : DB) (sess : Option String) (campaignId : String)
    (body : CharacterCreateBody) (newId : String) : Reply × DB :=
  match requireDM db sess campaignId with
  | .error e => (e, db)
  | .ok dm =>
    if !body.valid then (.err 400 "Invalid request", db)
    else
      let kind := body.kind.getD Kind.PLAYER
      let ownerId : Option String :=
        if kind = Kind.PLAYER then some (body.ownerId.getD dm.userId) else none
      let baseHp := baseHpOf body.stats
      let character : Character :=
        { id := newId, name := body.name, stats := body.stats, ownerId := ownerId,
          kind := kind, className := body.className, level := body.level.getD 1,
          exp := body.exp.getD 0, weaponSkills := body.weaponSkills,
          currentHp := body.currentHp.getD baseHp, equippedWeaponItemId := none,
          campaignId := campaignId }
      let db1 := { db with characters := db.characters ++ [character] }
      let db2 := addMissingClassSkills db1 character.id character.className
      let db3 := writeAuditLog db2
        { entityType := .CHARACTER, entityId := character.id, action := "CHARACTER_CREATE",
          before := .null, after := .char character, campaignId := character.campaignId,
          userId := dm.userId }
      (.ok, db3)

/-- GET `/characters/:id`. -/
def getCharacter (db : DB) (sess : Option String) (id : String) : Reply × DB :=
  match findChar db id with
  | none => (.err 404 "Character not found", db)
  | some character =>
    match requireCampaignMember db sess character.campaignId with
    | .error e => (e, db)
    | .ok _ => (.ok, db)

/-- POST `/characters/:id/skills`. -/
def addSkill (db : DB) (sess : Option String) (id : String) (skillId : String)
    (newId : String) : Reply × DB :=
  match findChar db id with
  | none => (.err 404 "Character not found", db)
  | some character =>
    match requireDM db sess character.campaignId with
    | .error e => (e, db)
    | .ok _dm =>
      if !(decide (1 ≤ skillId.length)) then (.err 400 "Invalid request", db)
      else
        match findSkill db skillId with
        | none => (.err 404 "Skill not found", db)
        | some _skill =>
          match findCharacterSkillPair db id skillId with
          | some _ => (.err 400 "Skill already added", db)
          | none =>
            (.ok, { db with characterSkills := db.characterSkills ++ [⟨newId, id, skillId⟩] })

/-- DELETE `/characters/:id/skills/:characterSkillId`. -/
def deleteSkill (db : DB) (sess : Option String) (id characterSkillId : String) : Reply × DB :=
  match findChar db id with
  | none => (.err 404 "Character not found", db)
  | some character =>
    match requireDM db sess character.campaignId with
    | .error e => (e, db)
    | .ok _ =>
      match findCharacterSkill db characterSkillId with
      | none => (.err 404 "Skill not found", db)
      | some existing =>
        if existing.characterId ≠ id then (.err 404 "Skill not found", db)
        else
          (.ok, { db with characterSkills :=
              db.characterSkills.filter (fun cs => cs.id != characterSkillId) })

/-- GET `/characters/:id/inventory`. -/
def getInventory (db : DB) (sess : Option String) (id : String) : Reply × DB :=
  match findChar db id with
  | none => (.err 404 "Character not found", db)
  | some character =>
    match requireCampaignMember db sess character.campaignId with
    | .error e => (e, db)
    | .ok _ => (.ok, db)

structure InventoryAddBody where
  itemId : String
  uses : Option Int
deriving DecidableEq

def InventoryAddBody.valid (b : InventoryAddBody) : Bool :=
  decide (1 ≤ b.itemId.length) && b.uses.all (fun u => decide (0 ≤ u))

/-- `_max.sortOrder` of an aggregate over a row set. -/
def listMax : List Int → Option Int
  | [] => none
  | x :: xs =>
    match listMax xs with
    | none => some x
    | some y => some (max x y)

/-- POST `/characters/:id/inventory`. -/
def addInventory (db : DB) (sess : Option String) (id : String)
    (body : InventoryAddBody) (newId : String) : Reply × DB :=
  match findChar db id with
  | none => (.err 404 "Character not found", db)
  | some character =>
    match requireDM db sess character.campaignId with
    | .error e => (e, db)
    | .ok dm =>
      if !body.valid then (.err 400 "Invalid request", db)
      else
        match findItem db body.itemId with
        | none => (.err 404 "Item not found", db)
        | some item =>
          let count := (invOf db id).length
          if 8 ≤ count then (.err 400 "Inventory is full", db)
          else
            let sortOrder := ((listMax ((invOf db id).map (fun it => it.sortOrder))).getD (-1)) + 1
            let inventoryItem : CharacterItem :=
              { id := newId, characterId := id, itemId := body.itemId,
                sortOrder := sortOrder, uses := orO body.uses item.uses, blessed := false }
            let db1 := { db with characterItems := db.characterItems ++ [inventoryItem] }
            let db2 := writeAuditLog db1
              { entityType := .CHARACTER, entityId := id, action := "INVENTORY_ADD",
                before := .null, after := .invItem inventoryItem,
                campaignId := character.campaignId, userId := dm.userId }
            (.ok, db2)

/-- DELETE `/characters/:id/inventory/:inventoryId`. -/
def deleteInventory (db : DB) (sess : Option String) (id inventoryId : String) : Reply × DB :=
  match findChar db id with
  | none => (.err 404 "Character not found", db)
  | some character =>
    match requireDM db sess character.campaignId with
    | .error e => (e, db)
    | .ok dm =>
      match findInvRow db inventoryId with
      | none => (.err 404 "Inventory item not found", db)
      | some inventoryItem =>
        if inventoryItem.characterId ≠ id then (.err 404 "Inventory item not found", db)
        else
          let db1 := { db with characterItems :=
              db.characterItems.filter (fun it => it.id != inventoryId) }
          let db2 := writeAuditLog db1
            { entityType := .CHARACTER, entityId := id, action := "INVENTORY_REMOVE",
              before := .invItem inventoryItem, after := .null,
              campaignId := character.campaignId, userId := dm.userId }
          (.ok, db2)

structure InventoryUpdateBody where
  uses : Option (Option Int)
  blessed : Option Bool
deriving DecidableEq

def InventoryUpdateBody.valid (b : InventoryUpdateBody) : Bool :=
  match b.uses with
  | some (some u) => decide (0 ≤ u)
  | _ => true

/-- PATCH `/characters/:id/inventory/:inventoryId`. -/
def updateInventoryItem (db : DB) (sess : Option String) (id inventoryId : String)
    (body : InventoryUpdateBody) : Reply × DB :=
  match findChar db id with
  | none => (.err 404 "Character not found", db)
  | some character =>
    match requireCampaignMember db sess character.campaignId with
    | .error e => (e, db)
    | .ok membership =>
      let userId := getSessionUserId sess
      let canEdit := membership.role == Role.DM || ownerTruthyEq character.ownerId userId
      if !canEdit then (.err 403 "Forbidden", db)
      else if !body.valid then (.err 400 "Invalid request", db)
      else
        match findInvRow db inventoryId with
        | none => (.err 404 "Inventory item not found", db)
        | some inventoryItem =>
          if inventoryItem.characterId ≠ id then (.err 404 "Inventory item not found", db)
          else
            let updated : CharacterItem :=
              { inventoryItem with
                uses := undefCoalesce body.uses inventoryItem.uses,
                blessed := body.blessed.getD inventoryItem.blessed }
            let db1 := { db with characterItems :=
                db.characterItems.map (fun it => if it.id == inventoryId then updated else it) }
            let db2 := writeAuditLog db1
              { entityType := .CHARACTER, entityId := id, action := "INVENTORY_UPDATE",
                before := .invItem inventoryItem, after := .invItem updated,
                campaignId := character.campaignId, userId := membership.userId }
            (.ok, db2)

/-- Insertion step of the `orderBy: { sortOrder: "asc" }` read. -/
def insertBySortOrder (it : CharacterItem) : List CharacterItem → List CharacterItem
  | [] => [it]
  | x :: xs =>
    if it.sortOrder ≤ x.sortOrder then it :: x :: xs else x :: insertBySortOrder it xs

/-- The inventory rows sorted ascending by `sortOrder`. -/
def sortBySortOrder : List CharacterItem → List CharacterItem
  | [] => []
  | x :: xs => insertBySortOrder x (sortBySortOrder xs)

/-- The reorder transaction: the sequential `update where id` statements
`orderedIds.map((id, index) => update({where:{id}, data:{sortOrder:index}}))`,
starting at index `k`. -/
def applyOrderFrom (items : List CharacterItem) (ids : List String) (k : Int) :
    List CharacterItem :=
  match ids with
  | [] => items
  | oid :: rest =>
    applyOrderFrom
      (items.map (fun it => if it.id == oid then { it with sortOrder := k } else it))
      rest (k + 1)

def applyOrder (items : List CharacterItem) (ids : List String) : List CharacterItem :=
  applyOrderFrom items ids 0

/-- zod constraints of `inventoryOrderSchema`. -/
def orderBodyValid (orderedIds : List String) : Bool :=
  decide (orderedIds.length ≤ 8) && orderedIds.all (fun s => decide (1 ≤ s.length))

/-- PUT `/characters/:id/inventory/order`. -/
def reorderInventory (db : DB) (sess : Option String) (id : String)
    (orderedIds : List String) : Reply × DB :=
  match findChar db id with
  | none => (.err 404 "Character not found", db)
  | some character =>
    match requireCampaignMember db sess character.campaignId with
    | .error e => (e, db)
    | .ok membership =>
      let userId := getSessionUserId sess
      let canEdit := membership.role == Role.DM || ownerTruthyEq character.ownerId userId
      if !canEdit then (.err 403 "Forbidden", db)
      else if !orderBodyValid orderedIds then (.err 400 "Invalid request", db)
      else
        let inventory := sortBySortOrder (invOf db id)
        if inventory.length ≠ orderedIds.length then
          (.err 400 "Order list does not match inventory", db)
        else if !(orderedIds.all (fun oid => inventory.any (fun it => it.id == oid))) then
          (.err 400 "Order list does not match inventory", db)
        else
          let db1 := { db with characterItems := applyOrder db.characterItems orderedIds }
          let db2 := writeAuditLog db1
            { entityType := .CHARACTER, entityId := id, action := "INVENTORY_REORDER",
              before := .ids (inventory.map (fun it => it.id)), after := .ids orderedIds,
              campaignId := character.campaignId, userId := membership.userId }
          (.ok, db2)

/-- Model of JavaScript `String.prototype.toLowerCase` (ASCII case fold,
written over the character list so that it evaluates in the kernel). -/
def jsToLowerCase (s : String) : String := ⟨s.data.map Char.toLower⟩

/-- The validation chain of PUT `/characters/:id/equipped-weapon` for a
non-null body id: row exists and belongs to the character; the item (a
relation load — its `none` branch corresponds to broken referential
integrity, where the ORM throws, surfaced as 500) is a WEAPON; the laguz
class restriction is enforced for non-DM callers. -/
def equipGuard (db : DB) (membership : CampaignMember) (character : Character)
    (id : String) (inventoryId : Option String) : Except Reply Unit :=
  match inventoryId with
  | none => .ok ()
  | some invId =>
    match findInvRow db invId with
    | none => .error (.err 404 "Inventory item not found")
    | some inventoryItem =>
      if inventoryItem.characterId ≠ id then
        .error (.err 404 "Inventory item not found")
      else
        match findItem db inventoryItem.itemId with
        | none => .error (.err 500 "Internal error")
        | some item =>
          if item.category ≠ Category.WEAPON then
            .error (.err 400 "Only weapons can be equipped")
          else
            let restriction : Option String :=
              if (item.itemType.map (fun t => jsToLowerCase t)) == some "laguz" then
                item.classRestriction
              else none
            match restriction with
            | some r =>
              if decide (r ≠ "") && membership.role != Role.DM &&
                  character.className != some r then
                .error (.err 403 ("Laguz weapons are restricted to class: " ++ r))
              else .ok ()
            | none => .ok ()

/-- PUT `/characters/:id/equipped-weapon`. -/
def setEquippedWeapon (db : DB) (sess : Option String) (id : String)
    (inventoryId : Option String) : Reply × DB :=
  match findChar db id with
  | none => (.err 404 "Character not found", db)
  | some character =>
    match requireCampaignMember db sess character.campaignId with
    | .error e => (e, db)
    | .ok membership =>
      let userId := getSessionUserId sess
      let canEdit := membership.role == Role.DM || ownerTruthyEq character.ownerId userId
      if !canEdit then (.err 403 "Forbidden", db)
      else if !(inventoryId.all (fun s => decide (1 ≤ s.length))) then
        (.err 400 "Invalid request", db)
      else
        match equipGuard db membership character id inventoryId with
        | .error e => (e, db)
        | .ok _ =>
          let db1 := { db with characters :=
              db.characters.map (fun c =>
                if c.id == id then { c with equippedWeaponItemId := inventoryId } else c) }
          let db2 := writeAuditLog db1
            { entityType := .CHARACTER, entityId := id, action := "EQUIPPED_WEAPON_UPDATE",
              before := .equip character.equippedWeaponItemId, after := .equip inventoryId,
              campaignId := character.campaignId, userId := membership.userId }
          (.ok, db2)

/-- PUT `/characters/:id`. -/
def updateCharacter (db : DB) (sess : Option String) (id : String)
    (body : CharacterUpdateBody) : Reply × DB :=
  match findChar db id with
  | none => (.err 404 "Character not found", db)
  | some existing =>
    match requireDM db sess existing.campaignId with
    | .error e => (e, db)
    | .ok dm =>
      if !body.valid then (.err 400 "Invalid request", db)
      else
        let nextKind := body.kind.getD existing.kind
        let nextOwnerId : Option String :=
          if nextKind = Kind.PLAYER then nnCoalesce body.ownerId existing.ownerId else none
        let character : Character :=
          { existing with
            name := body.name.getD existing.name,
            stats := body.stats.getD existing.stats,
            ownerId := nextOwnerId,
            kind := nextKind,
            className := undefCoalesce body.className existing.className,
            level := body.level.getD existing.level,
            exp := body.exp.getD existing.exp,
            weaponSkills := orO body.weaponSkills existing.weaponSkills,
            currentHp := body.currentHp.getD existing.currentHp }
        let db1 := { db with characters :=
            db.characters.map (fun c => if c.id == id then character else c) }
        let db2 := addMissingClassSkills db1 character.id character.className
        let db3 := writeAuditLog db2
          { entityType := .CHARACTER, entityId := character.id, action := "CHARACTER_UPDATE",
            before := .char existing, after := .char character,
            campaignId := character.campaignId, userId := dm.userId }
        (.ok, db3)

/-- PATCH `/characters/:id/hp`. -/
def updateHp (db : DB) (sess : Option String) (id : String) (currentHp : Int) : Reply × DB :=
  match findChar db id with
  | none => (.err 404 "Character not found", db)
  | some character =>
    match requireCampaignMember db sess character.campaignId with
    | .error e => (e, db)
    | .ok membership =>
      let userId := getSessionUserId sess
      let canEdit := membership.role == Role.DM || ownerTruthyEq character.ownerId userId
      if !canEdit then (.err 403 "Forbidden", db)
      else if !(decide (0 ≤ currentHp)) then (.err 400 "Invalid request", db)
      else
        let db1 := { db with characters :=
            db.characters.map (fun c =>
              if c.id == id then { c with currentHp := currentHp } else c) }
        let db2 := writeAuditLog db1
          { entityType := .CHARACTER, entityId := id, action := "HP_UPDATE",
            before := .hp character.currentHp, after := .hp currentHp,
            campaignId := character.campaignId, userId := membership.userId }
        (.ok, db2)

/-! ## Map and roll routes (`src/routes/maps.ts`) -/

/-- `rollDie(sides)`: `Math.floor(Math.random() * sides) + 1`, with the
`Math.random()` draw `r ∈ [0,1)` passed in explicitly. -/
def rollDie (sides : Int) (r : ℚ) : Int :=
  ⌊r * (sides : ℚ)⌋ + 1

/-- JavaScript `Math.round` (round half toward positive infinity). -/
def jsRound (q : ℚ) : Int :=
  ⌊q + 1/2⌋

/-- `buildEmptyGrid(rows, cols)`: a rows×cols array of nulls. -/
def buildEmptyGrid (rows cols : Int) : TileGrid :=
  List.replicate rows.toNat (List.replicate cols.toNat none)

/-- `assertGridSize(grid, rows, cols)` (also duplicated in
`src/routes/presets.ts`). -/
def assertGridSize (grid : TileGrid) (rows cols : Int) : Except String Unit :=
  if (grid.length : Int) ≠ rows then
    .error "Tile grid row count does not match tileCountY"
  else if grid.any (fun row => (row.length : Int) ≠ cols) then
    .error "Tile grid column count does not match tileCountX"
  else .ok ()

/-- Parsed `mapSchema` body (the `.refine` guard is part of `valid`). -/
structure MapCreateBody where
  name : String
  imageUrl : Option String
  tileCountX : Option Int
  tileCountY : Option Int
  tileGrid : Option TileGrid
  gridSizeX : Option Int
  gridSizeY : Option Int
  gridOffsetX : Option Int
  gridOffsetY : Option Int
deriving DecidableEq

def MapCreateBody.valid (b : MapCreateBody) : Bool :=
  decide (2 ≤ b.name.length) && b.imageUrl.all (fun u => decide (1 ≤ u.length)) &&
    b.tileCountX.all (fun n => decide (5 ≤ n) && decide (n ≤ 200)) &&
    b.tileCountY.all (fun n => decide (5 ≤ n) && decide (n ≤ 200)) &&
    b.gridSizeX.all (fun n => decide (10 ≤ n) && decide (n ≤ 200)) &&
    b.gridSizeY.all (fun n => decide (10 ≤ n) && decide (n ≤ 200)) &&
    (b.imageUrl.isSome || b.tileGrid.isSome)

/-- Parsed `mapUpdateSchema` body. -/
structure MapUpdateBody where
  imageUrl : Option String
  tileCountX : Option Int
  tileCountY : Option Int
  tileGrid : Option TileGrid
  gridSizeX : Option Int
  gridSizeY : Option Int
  gridOffsetX : Option Int
  gridOffsetY : Option Int
deriving DecidableEq

def MapUpdateBody.valid (b : MapUpdateBody) : Bool :=
  b.imageUrl.all (fun u => decide (1 ≤ u.length)) &&
    b.tileCountX.all (fun n => decide (5 ≤ n) && decide (n ≤ 200)) &&
    b.tileCountY.all (fun n => decide (5 ≤ n) && decide (n ≤ 200)) &&
    b.gridSizeX.all (fun n => decide (10 ≤ n) && decide (n ≤ 200)) &&
    b.gridSizeY.all (fun n => decide (10 ≤ n) && decide (n ≤ 200))

/-- GET `/campaigns/:id/maps`. -/
def listCampaignMaps (db : DB) (sess : Option String) (campaignId : String) : Reply × DB :=
  match requireCampaignMember db sess campaignId with
  | .error e => (e, db)
  | .ok _ => (.ok, db)

/-- POST `/campaigns/:id/maps`. -/
def createMap (db : DB) (sess : Option String) (campaignId : String)
    (body : MapCreateBody) (newId : String) : Reply × DB :=
  match requireDM db sess campaignId with
  | .error e => (e, db)
  | .ok dm =>
    if !body.valid then (.err 400 "Invalid request", db)
    else
      let gridSizeX := body.gridSizeX.getD 50
      let gridSizeY := body.gridSizeY.getD 50
      let tileCountX := body.tileCountX.getD 10
      let tileCountY := body.tileCountY.getD 10
      let tileGrid := body.tileGrid.getD (buildEmptyGrid tileCountY tileCountX)
      match assertGridSize tileGrid tileCountY tileCountX with
      | .error msg => (.err 400 msg, db)
      | .ok _ =>
        let map : GameMap :=
          { id := newId, name := body.name, imageUrl := body.imageUrl,
            gridSizeX := gridSizeX, gridSizeY := gridSizeY,
            gridOffsetX := body.gridOffsetX.getD 0, gridOffsetY := body.gridOffsetY.getD 0,
            tileCountX := tileCountX, tileCountY := tileCountY,
            tileGrid := some tileGrid, campaignId := campaignId }
        let db1 := { db with maps := db.maps ++ [map] }
        let db2 := writeAuditLog db1
          { entityType := .MAP, entityId := map.id, action := "MAP_CREATE",
            before := .null, after := .gmap map, campaignId := map.campaignId,
            userId := dm.userId }
        (.ok, db2)

/-- GET `/maps/:id`. -/
def getMap (db : DB) (sess : Option String) (id : String) : Reply × DB :=
  match findMap db id with
  | none => (.err 404 "Map not found", db)
  | some map =>
    match requireCampaignMember db sess map.campaignId with
    | .error e => (e, db)
    | .ok _ => (.ok, db)

/-- GET `/maps/:id/rolls`. -/
def listRolls (db : DB) (sess : Option String) (id : String) : Reply × DB :=
  match findMap db id with
  | none => (.err 404 "Map not found", db)
  | some map =>
    match requireCampaignMember db sess map.campaignId with
    | .error e => (e, db)
    | .ok _ => (.ok, db)

/-- POST `/maps/:id/rolls`.  The two `Math.random()` draws are passed in
as `ra`, `rb` (only `ra` is consumed for a REGULAR roll). -/
def createRoll (db : DB) (sess : Option String) (id : String) (rollType : RollType)
    (ra rb : ℚ) : Reply × DB :=
  match findMap db id with
  | none => (.err 404 "Map not found", db)
  | some _map =>
    match requireCampaignMember db sess _map.campaignId with
    | .error e => (e, db)
    | .ok membership =>
      let rollA := rollDie 100 ra
      let rollB : Option Int := if rollType = RollType.COMBAT then some (rollDie 100 rb) else none
      let result : Int :=
        if rollType = RollType.COMBAT then
          jsRound ((((rollA + (rollB.getD 0)) : Int) : ℚ) / 2)
        else rollA
      let roll : RollLog :=
        { mapId := id, userId := membership.userId, rollType := rollType, result := result }
      (.ok, { db with rolls := db.rolls ++ [roll] })

/-- PUT `/maps/:id`. -/
def updateMap (db : DB) (sess : Option String) (id : String)
    (body : MapUpdateBody) : Reply × DB :=
  match findMap db id with
  | none => (.err 404 "Map not found", db)
  | some map =>
    match requireDM db sess map.campaignId with
    | .error e => (e, db)
    | .ok dm =>
      if !body.valid then (.err 400 "Invalid request", db)
      else
        let gridSizeX := body.gridSizeX.getD map.gridSizeX
        let gridSizeY := body.gridSizeY.getD map.gridSizeY
        let tileCountX := body.tileCountX.getD map.tileCountX
        let tileCountY := body.tileCountY.getD map.tileCountY
        let tileGrid : Option TileGrid := orO body.tileGrid map.tileGrid
        let check : Except String Unit :=
          match tileGrid with
          | some grid => assertGridSize grid tileCountY tileCountX
          | none => .ok ()
        match check with
        | .error msg => (.err 400 msg, db)
        | .ok _ =>
          let updated : GameMap :=
            { map with
              imageUrl := orO body.imageUrl map.imageUrl,
              gridSizeX := gridSizeX, gridSizeY := gridSizeY,
              gridOffsetX := body.gridOffsetX.getD map.gridOffsetX,
              gridOffsetY := body.gridOffsetY.getD map.gridOffsetY,
              tileCountX := tileCountX, tileCountY := tileCountY,
              tileGrid := orO tileGrid map.tileGrid }
          let db1 := { db with maps := db.maps.map (fun m => if m.id == id then updated else m) }
          let db2 := writeAuditLog db1
            { entityType := .MAP, entityId := updated.id, action := "MAP_UPDATE",
              before := .gmap map, after := .gmap updated, campaignId := updated.campaignId,
              userId := dm.userId }
          (.ok, db2)

/-! ## Token routes -/

/-- Parsed token create body (`tokenSchema`). -/
structure TokenCreateBody where
  label : String
  x : Int
  y : Int
  color : Option String
  characterId : String
deriving DecidableEq

def TokenCreateBody.valid (b : TokenCreateBody) : Bool :=
  decide (1 ≤ b.label.length) && decide (0 ≤ b.x) && decide (0 ≤ b.y) &&
    decide (1 ≤ b.characterId.length)

/-- Parsed token update body. -/
structure TokenUpdateBody where
  x : Option Int
  y : Option Int
  label : Option String
  color : Option String
  characterId : Option String
deriving DecidableEq

def TokenUpdateBody.valid (b : TokenUpdateBody) : Bool :=
  b.x.all (fun n => decide (0 ≤ n)) && b.y.all (fun n => decide (0 ≤ n)) &&
    b.characterId.all (fun s => decide (1 ≤ s.length))

/-- GET `/maps/:id/tokens`. -/
def listTokens (db : DB) (sess : Option String) (id : String) : Reply × DB :=
  match findMap db id with
  | none => (.err 404 "Map not found", db)
  | some map =>
    match requireCampaignMember db sess map.campaignId with
    | .error e => (e, db)
    | .ok _ => (.ok, db)

/-- POST `/maps/:id/tokens`. -/
def createToken (db : DB) (sess : Option String) (id : String)
    (body : TokenCreateBody) (newId : String) : Reply × DB :=
  match findMap db id with
  | none => (.err 404 "Map not found", db)
  | some map =>
    match requireDM db sess map.campaignId with
    | .error e => (e, db)
    | .ok _dm =>
      if !body.valid then (.err 400 "Invalid request", db)
      else
        match findChar db body.characterId with
        | none => (.err 400 "Character not found in campaign", db)
        | some character =>
          if character.campaignId ≠ map.campaignId then
            (.err 400 "Character not found in campaign", db)
          else
            match findTokenByCharacter db body.characterId with
            | some _ => (.err 400 "Character already has a token", db)
            | none =>
              let token : Token :=
                { id := newId, mapId := id, label := body.label, x := body.x, y := body.y,
                  color := body.color.getD "#f43f5e", characterId := body.characterId }
              (.ok, { db with tokens := db.tokens ++ [token] })

/-- The re-binding validation of PUT `/tokens/:id`: when the body carries
a characterId different from the token's current one, the new character
must exist in the map's campaign and must not already have a token. -/
def rebindGuard (db : DB) (map : GameMap) (existing : Token)
    (bodyCharacterId : Option String) : Except Reply Unit :=
  match bodyCharacterId with
  | some cid =>
    if cid ≠ existing.characterId then
      match findChar db cid with
      | none => .error (.err 400 "Character not found in campaign")
      | some character =>
        if character.campaignId ≠ map.campaignId then
          .error (.err 400 "Character not found in campaign")
        else
          match findTokenByCharacter db cid with
          | some _ => .error (.err 400 "Character already has a token")
          | none => .ok ()
    else .ok ()
  | none => .ok ()

/-- PUT `/tokens/:id`.  The `include: { map: true }` relation load is
modelled by `findMap`; its `none` branch corresponds to broken
referential integrity, where the ORM throws (surfaced as 500). -/
def updateToken (db : DB) (sess : Option String) (id : String)
    (body : TokenUpdateBody) : Reply × DB :=
  match findToken db id with
  | none => (.err 404 "Token not found", db)
  | some existing =>
    match findMap db existing.mapId with
    | none => (.err 500 "Internal error", db)
    | some map =>
      match requireDM db sess map.campaignId with
      | .error e => (e, db)
      | .ok _dm =>
        if !body.valid then (.err 400 "Invalid request", db)
        else
          match rebindGuard db map existing body.characterId with
          | .error e => (e, db)
          | .ok _ =>
            let updated : Token :=
              { existing with
                x := body.x.getD existing.x, y := body.y.getD existing.y,
                label := body.label.getD existing.label,
                color := body.color.getD existing.color,
                characterId := body.characterId.getD existing.characterId }
            (.ok, { db with tokens :=
                db.tokens.map (fun t => if t.id == id then updated else t) })

/-! ## TileSet and preset reads -/

/-- GET `/campaigns/:id/tilesets`. -/
def listTileSets (db : DB) (sess : Option String) (campaignId : String) : Reply × DB :=
  match requireCampaignMember db sess campaignId with
  | .error e => (e, db)
  | .ok _ => (.ok, db)

/-- GET `/campaigns/:id/presets`. -/
def listPresets (db : DB) (sess : Option String) (campaignId : String) : Reply × DB :=
  match requireCampaignMember db sess campaignId with
  | .error e => (e, db)
  | .ok _ => (.ok, db)

/-- GET `/presets/:id`. -/
def getPreset (db : DB) (sess : Option String) (id : String) : Reply × DB :=
  match findPreset db id with
  | none => (.err 404 "Preset not found", db)
  | some preset =>
    match requireCampaignMember db sess preset.campaignId with
    | .error e => (e, db)
    | .ok _ => (.ok, db)

/-! ## Frame lemmas: which tables each handler can touch -/

theorem writeAuditLog_logs (d : DB) (e : AuditEntry) :
    (writeAuditLog d e).auditLogs = d.auditLogs ++ [e] := rfl

theorem addMissingClassSkills_characterItems (db : DB) (cid : String) (cn : Option String) :
    (addMissingClassSkills db cid cn).characterItems = db.characterItems := by
  unfold addMissingClassSkills
  try dsimp only
  repeat' split
  all_goals rfl

theorem addMissingClassSkills_tokens (db : DB) (cid : String) (cn : Option String) :
    (addMissingClassSkills db cid cn).tokens = db.tokens := by
  unfold addMissingClassSkills
  try dsimp only
  repeat' split
  all_goals rfl

theorem addMissingClassSkills_auditLogs (db : DB) (cid : String) (cn : Option String) :
    (addMissingClassSkills db cid cn).auditLogs = db.auditLogs := by
  unfold addMissingClassSkills
  try dsimp only
  repeat' split
  all_goals rfl

theorem addMissingClassSkills_characters (db : DB) (cid : String) (cn : Option String) :
    (addMissingClassSkills db cid cn).characters = db.characters := by
  unfold addMissingClassSkills
  try dsimp only
  repeat' split
  all_goals rfl

theorem listCampaignCharacters_db (db : DB) (sess : Option String) (cid : String) :
    (listCampaignCharacters db sess cid).2 = db := by
  unfold listCampaignCharacters
  repeat' split
  all_goals rfl

theorem getCharacter_db (db : DB) (sess : Option String) (id : String) :
    (getCharacter db sess id).2 = db := by
  unfold getCharacter
  repeat' split
  all_goals rfl

theorem getInventory_db (db : DB) (sess : Option String) (id : String) :
    (getInventory db sess id).2 = db := by
  unfold getInventory
  repeat' split
  all_goals rfl

theorem listCampaignMaps_db (db : DB) (sess : Option String) (cid : String) :
    (listCampaignMaps db sess cid).2 = db := by
  unfold listCampaignMaps
  repeat' split
  all_goals rfl

theorem getMap_db (db : DB) (sess : Option String) (id : String) :
    (getMap db sess id).2 = db := by
  unfold getMap
  repeat' split
  all_goals rfl

theorem listRolls_db (db : DB) (sess : Option String) (id : String) :
    (listRolls db sess id).2 = db := by
  unfold listRolls
  repeat' split
  all_goals rfl

theorem listTokens_db (db : DB) (sess : Option String) (id : String) :
    (listTokens db sess id).2 = db := by
  unfold listTokens
  repeat' split
  all_goals rfl

theorem listTileSets_db (db : DB) (sess : Option String) (cid : String) :
    (listTileSets db sess cid).2 = db := by
  unfold listTileSets
  repeat' split
  all_goals rfl

theorem listPresets_db (db : DB) (sess : Option String) (cid : String) :
    (listPresets db sess cid).2 = db := by
  unfold listPresets
  repeat' split
  all_goals rfl

theorem getPreset_db (db : DB) (sess : Option String) (id : String) :
    (getPreset db sess id).2 = db := by
  unfold getPreset
  repeat' split
  all_goals rfl

theorem createCharacter_characterItems (db : DB) (sess : Option String) (cid : String)
    (body : CharacterCreateBody) (newId : String) :
    ((createCharacter db sess cid body newId).2).characterItems = db.characterItems := by
  unfold createCharacter
  try dsimp only
  repeat' split
  all_goals simp [writeAuditLog, addMissingClassSkills_characterItems]

theorem createCharacter_tokens (db : DB) (sess : Option String) (cid : String)
    (body : CharacterCreateBody) (newId : String) :
    ((createCharacter db sess cid body newId).2).tokens = db.tokens := by
  unfold createCharacter
  try dsimp only
  repeat' split
  all_goals simp [writeAuditLog, addMissingClassSkills_tokens]

theorem updateCharacter_characterItems (db : DB) (sess : Option String) (id : String)
    (body : CharacterUpdateBody) :
    ((updateCharacter db sess id body).2).characterItems = db.characterItems := by
  unfold updateCharacter
  try dsimp only
  repeat' split
  all_goals simp [writeAuditLog, addMissingClassSkills_characterItems]

theorem updateCharacter_tokens (db : DB) (sess : Option String) (id : String)
    (body : CharacterUpdateBody) :
    ((updateCharacter db sess id body).2).tokens = db.tokens := by
  unfold updateCharacter
  try dsimp only
  repeat' split
  all_goals simp [writeAuditLog, addMissingClassSkills_tokens]

theorem addSkill_characterItems (db : DB) (sess : Option String) (id skillId newId : String) :
    ((addSkill db sess id skillId newId).2).characterItems = db.characterItems := by
  unfold addSkill
  try dsimp only
  repeat' split
  all_goals rfl

theorem addSkill_tokens (db : DB) (sess : Option String) (id skillId newId : String) :
    ((addSkill db sess id skillId newId).2).tokens = db.tokens := by
  unfold addSkill
  try dsimp only
  repeat' split
  all_goals rfl

theorem deleteSkill_characterItems (db : DB) (sess : Option String) (id csid : String) :
    ((deleteSkill db sess id csid).2).characterItems = db.characterItems := by
  unfold deleteSkill
  try dsimp only
  repeat' split
  all_goals rfl

theorem deleteSkill_tokens (db : DB) (sess : Option String) (id csid : String) :
    ((deleteSkill db sess id csid).2).tokens = db.tokens := by
  unfold deleteSkill
  try dsimp only
  repeat' split
  all_goals rfl

theorem addInventory_tokens (db : DB) (sess : Option String) (id : String)
    (body : InventoryAddBody) (newId : String) :
    ((addInventory db sess id body newId).2).tokens = db.tokens := by
  unfold addInventory
  try dsimp only
  repeat' split
  all_goals rfl

theorem deleteInventory_tokens (db : DB) (sess : Option String) (id inventoryId : String) :
    ((deleteInventory db sess id inventoryId).2).tokens = db.tokens := by
  unfold deleteInventory
  try dsimp only
  repeat' split
  all_goals rfl

theorem updateInventoryItem_tokens (db : DB) (sess : Option String) (id inventoryId : String)
    (body : InventoryUpdateBody) :
    ((updateInventoryItem db sess id inventoryId body).2).tokens = db.tokens := by
  unfold updateInventoryItem
  try dsimp only
  repeat' split
  all_goals rfl

theorem reorderInventory_tokens (db : DB) (sess : Option String) (id : String)
    (orderedIds : List String) :
    ((reorderInventory db sess id orderedIds).2).tokens = db.tokens := by
  unfold reorderInventory
  try dsimp only
  repeat' split
  all_goals rfl

theorem reorderInventory_characters (db : DB) (sess : Option String) (id : String)
    (orderedIds : List String) :
    ((reorderInventory db sess id orderedIds).2).characters = db.characters := by
  unfold reorderInventory
  try dsimp only
  repeat' split
  all_goals rfl

theorem reorderInventory_memberships (db : DB) (sess : Option String) (id : String)
    (orderedIds : List String) :
    ((reorderInventory db sess id orderedIds).2).memberships = db.memberships := by
  unfold reorderInventory
  try dsimp only
  repeat' split
  all_goals rfl

theorem setEquippedWeapon_characterItems (db : DB) (sess : Option String) (id : String)
    (inventoryId : Option String) :
    ((setEquippedWeapon db sess id inventoryId).2).characterItems = db.characterItems := by
  unfold setEquippedWeapon
  try dsimp only
  repeat' split
  all_goals rfl

theorem setEquippedWeapon_tokens (db : DB) (sess : Option String) (id : String)
    (inventoryId : Option String) :
    ((setEquippedWeapon db sess id inventoryId).2).tokens = db.tokens := by
  unfold setEquippedWeapon
  try dsimp only
  repeat' split
  all_goals rfl

theorem updateHp_characterItems (db : DB) (sess : Option String) (id : String) (hp : Int) :
    ((updateHp db sess id hp).2).characterItems = db.characterItems := by
  unfold updateHp
  try dsimp only
  repeat' split
  all_goals rfl

theorem updateHp_characterSkills (db : DB) (sess : Option String) (id : String) (hp : Int) :
    ((updateHp db sess id hp).2).characterSkills = db.characterSkills := by
  unfold updateHp
  try dsimp only
  repeat' split
  all_goals rfl

theorem updateHp_tokens (db : DB) (sess : Option String) (id : String) (hp : Int) :
    ((updateHp db sess id hp).2).tokens = db.tokens := by
  unfold updateHp
  try dsimp only
  repeat' split
  all_goals rfl

theorem createMap_characterItems (db : DB) (sess : Option String) (cid : String)
    (body : MapCreateBody) (newId : String) :
    ((createMap db sess cid body newId).2).characterItems = db.characterItems := by
  unfold createMap
  try dsimp only
  repeat' split
  all_goals rfl

theorem createMap_tokens (db : DB) (sess : Option String) (cid : String)
    (body : MapCreateBody) (newId : String) :
    ((createMap db sess cid body newId).2).tokens = db.tokens := by
  unfold createMap
  try dsimp only
  repeat' split
  all_goals rfl

theorem updateMap_characterItems (db : DB) (sess : Option String) (id : String)
    (body : MapUpdateBody) :
    ((updateMap db sess id body).2).characterItems = db.characterItems := by
  unfold updateMap
  try dsimp only
  repeat' split
  all_goals rfl

theorem updateMap_tokens (db : DB) (sess : Option String) (id : String)
    (body : MapUpdateBody) :
    ((updateMap db sess id body).2).tokens = db.tokens := by
  unfold updateMap
  try dsimp only
  repeat' split
  all_goals rfl

theorem createRoll_characterItems (db : DB) (sess : Option String) (id : String)
    (rollType : RollType) (ra rb : ℚ) :
    ((createRoll db sess id rollType ra rb).2).characterItems = db.characterItems := by
  unfold createRoll
  try dsimp only
  repeat' split
  all_goals rfl

theorem createRoll_tokens (db : DB) (sess : Option String) (id : String)
    (rollType : RollType) (ra rb : ℚ) :
    ((createRoll db sess id rollType ra rb).2).tokens = db.tokens := by
  unfold createRoll
  try dsimp only
  repeat' split
  all_goals rfl

theorem createToken_characterItems (db : DB) (sess : Option String) (id : String)
    (body : TokenCreateBody) (newId : String) :
    ((createToken db sess id body newId).2).characterItems = db.characterItems := by
  unfold createToken
  try dsimp only
  repeat' split
  all_goals rfl

theorem updateToken_characterItems (db : DB) (sess : Option String) (id : String)
    (body : TokenUpdateBody) :
    ((updateToken db sess id body).2).characterItems = db.characterItems := by
  unfold updateToken
  try dsimp only
  repeat' split
  all_goals rfl

/-! ## Audit log is append-only: every handler only ever appends to it -/

theorem createCharacter_auditSuffix (db : DB) (sess : Option String) (cid : String)
    (body : CharacterCreateBody) (newId : String) :
    ∃ s, ((createCharacter db sess cid body newId).2).auditLogs = db.auditLogs ++ s := by
  unfold createCharacter
  try dsimp only
  repeat' split
  all_goals first
    | exact ⟨[], (List.append_nil _).symm⟩
    | exact ⟨_, rfl⟩
    | exact ⟨_, by rw [writeAuditLog_logs, addMissingClassSkills_auditLogs]⟩

theorem updateCharacter_auditSuffix (db : DB) (sess : Option String) (id : String)
    (body : CharacterUpdateBody) :
    ∃ s, ((updateCharacter db sess id body).2).auditLogs = db.auditLogs ++ s := by
  unfold updateCharacter
  try dsimp only
  repeat' split
  all_goals first
    | exact ⟨[], (List.append_nil _).symm⟩
    | exact ⟨_, rfl⟩
    | exact ⟨_, by rw [writeAuditLog_logs, addMissingClassSkills_auditLogs]⟩

theorem addSkill_auditSuffix (db : DB) (sess : Option String) (id skillId newId : String) :
    ∃ s, ((addSkill db sess id skillId newId).2).auditLogs = db.auditLogs ++ s := by
  unfold addSkill
  try dsimp only
  repeat' split
  all_goals first
    | exact ⟨[], (List.append_nil _).symm⟩
    | exact ⟨_, rfl⟩

theorem deleteSkill_auditSuffix (db : DB) (sess : Option String) (id csid : String) :
    ∃ s, ((deleteSkill db sess id csid).2).auditLogs = db.auditLogs ++ s := by
  unfold deleteSkill
  try dsimp only
  repeat' split
  all_goals first
    | exact ⟨[], (List.append_nil _).symm⟩
    | exact ⟨_, rfl⟩

theorem addInventory_auditSuffix (db : DB) (sess : Option String) (id : String)
    (body : InventoryAddBody) (newId : String) :
    ∃ s, ((addInventory db sess id body newId).2).auditLogs = db.auditLogs ++ s := by
  unfold addInventory
  try dsimp only
  repeat' split
  all_goals first
    | exact ⟨[], (List.append_nil _).symm⟩
    | exact ⟨_, rfl⟩

theorem deleteInventory_auditSuffix (db : DB) (sess : Option String) (id inventoryId : String) :
    ∃ s, ((deleteInventory db sess id inventoryId).2).auditLogs = db.auditLogs ++ s := by
  unfold deleteInventory
  try dsimp only
  repeat' split
  all_goals first
    | exact ⟨[], (List.append_nil _).symm⟩
    | exact ⟨_, rfl⟩

theorem updateInventoryItem_auditSuffix (db : DB) (sess : Option String) (id inventoryId : String)
    (body : InventoryUpdateBody) :
    ∃ s, ((updateInventoryItem db sess id inventoryId body).2).auditLogs = db.auditLogs ++ s := by
  unfold updateInventoryItem
  try dsimp only
  repeat' split
  all_goals first
    | exact ⟨[], (List.append_nil _).symm⟩
    | exact ⟨_, rfl⟩

theorem reorderInventory_auditSuffix (db : DB) (sess : Option String) (id : String)
    (orderedIds : List String) :
    ∃ s, ((reorderInventory db sess id orderedIds).2).auditLogs = db.auditLogs ++ s := by
  unfold reorderInventory
  try dsimp only
  repeat' split
  all_goals first
    | exact ⟨[], (List.append_nil _).symm⟩
    | exact ⟨_, rfl⟩

theorem setEquippedWeapon_auditSuffix (db : DB) (sess : Option String) (id : String)
    (inventoryId : Option String) :
    ∃ s, ((setEquippedWeapon db sess id inventoryId).2).auditLogs = db.auditLogs ++ s := by
  unfold setEquippedWeapon
  try dsimp only
  repeat' split
  all_goals first
    | exact ⟨[], (List.append_nil _).symm⟩
    | exact ⟨_, rfl⟩

theorem updateHp_auditSuffix (db : DB) (sess : Option String) (id : String) (hp : Int) :
    ∃ s, ((updateHp db sess id hp).2).auditLogs = db.auditLogs ++ s := by
  unfold updateHp
  try dsimp only
  repeat' split
  all_goals first
    | exact ⟨[], (List.append_nil _).symm⟩
    | exact ⟨_, rfl⟩

theorem createMap_auditSuffix (db : DB) (sess : Option String) (cid : String)
    (body : MapCreateBody) (newId : String) :
    ∃ s, ((createMap db sess cid body newId).2).auditLogs = db.auditLogs ++ s := by
  unfold createMap
  try dsimp only
  repeat' split
  all_goals first
    | exact ⟨[], (List.append_nil _).symm⟩
    | exact ⟨_, rfl⟩

theorem updateMap_auditSuffix (db : DB) (sess : Option String) (id : String)
    (body : MapUpdateBody) :
    ∃ s, ((updateMap db sess id body).2).auditLogs = db.auditLogs ++ s := by
  unfold updateMap
  try dsimp only
  repeat' split
  all_goals first
    | exact ⟨[], (List.append_nil _).symm⟩
    | exact ⟨_, rfl⟩

theorem createRoll_auditSuffix (db : DB) (sess : Option String) (id : String)
    (rollType : RollType) (ra rb : ℚ) :
    ∃ s, ((createRoll db sess id rollType ra rb).2).auditLogs = db.auditLogs ++ s := by
  unfold createRoll
  try dsimp only
  repeat' split
  all_goals first
    | exact ⟨[], (List.append_nil _).symm⟩
    | exact ⟨_, rfl⟩

theorem createToken_auditSuffix (db : DB) (sess : Option String) (id : String)
    (body : TokenCreateBody) (newId : String) :
    ∃ s, ((createToken db sess id body newId).2).auditLogs = db.auditLogs ++ s := by
  unfold createToken
  try dsimp only
  repeat' split
  all_goals first
    | exact ⟨[], (List.append_nil _).symm⟩
    | exact ⟨_, rfl⟩

theorem updateToken_auditSuffix (db : DB) (sess : Option String) (id : String)
    (body : TokenUpdateBody) :
    ∃ s, ((updateToken db sess id body).2).auditLogs = db.auditLogs ++ s := by
  unfold updateToken
  try dsimp only
  repeat' split
  all_goals first
    | exact ⟨[], (List.append_nil _).symm⟩
    | exact ⟨_, rfl⟩

/-! ## List helper lemmas -/

theorem countP_le_countP {α : Type} (p q : α → Bool) (l : List α)
    (h : ∀ a ∈ l, p a = true → q a = true) : l.countP p ≤ l.countP q := by
  induction l with
  | nil => simp
  | cons x xs ih =>
    rw [List.countP_cons, List.countP_cons]
    have hxs := ih (fun a ha => h a (List.mem_cons_of_mem _ ha))
    by_cases hx : p x = true
    · have hq := h x (List.mem_cons_self _ _) hx
      simp only [hx, hq, if_true]
      omega
    · rw [Bool.not_eq_true] at hx
      simp [hx]
      split <;> omega

theorem countP_congr_mem {α : Type} (p q : α → Bool) (l : List α)
    (h : ∀ a ∈ l, p a = q a) : l.countP p = l.countP q := by
  induction l with
  | nil => simp
  | cons x xs ih =>
    rw [List.countP_cons, List.countP_cons,
      ih (fun a ha => h a (List.mem_cons_of_mem _ ha)), h x (List.mem_cons_self _ _)]

theorem countP_eq_zero_mem {α : Type} (p : α → Bool) (l : List α)
    (h : ∀ a ∈ l, p a = false) : l.countP p = 0 := by
  induction l with
  | nil => simp
  | cons x xs ih =>
    rw [List.countP_cons, ih (fun a ha => h a (List.mem_cons_of_mem _ ha)),
      h x (List.mem_cons_self _ _)]
    simp

theorem eq_of_key_eq_of_nodup {α β : Type} (key : α → β) (l : List α)
    (hnd : (l.map key).Nodup) {t u : α} (ht : t ∈ l) (hu : u ∈ l)
    (hk : key t = key u) : t = u := by
  induction l with
  | nil => cases ht
  | cons x xs ih =>
    rw [List.map_cons, List.nodup_cons] at hnd
    cases ht with
    | head =>
      cases hu with
      | head => rfl
      | tail _ hu' =>
        exact absurd (hk ▸ List.mem_map_of_mem key hu') hnd.1
    | tail _ ht' =>
      cases hu with
      | head => exact absurd (hk ▸ List.mem_map_of_mem key ht') hnd.1
      | tail _ hu' => exact ih hnd.2 ht' hu'

theorem countP_key_le_one {α β : Type} [BEq β] [LawfulBEq β] (key : α → β) (l : List α)
    (hnd : (l.map key).Nodup) (i : β) : l.countP (fun t => key t == i) ≤ 1 := by
  induction l with
  | nil => simp
  | cons x xs ih =>
    rw [List.map_cons, List.nodup_cons] at hnd
    rw [List.countP_cons]
    by_cases hx : (key x == i) = true
    · have hzero : xs.countP (fun t => key t == i) = 0 := by
        apply countP_eq_zero_mem
        intro t htmem
        by_contra hbad
        rw [Bool.not_eq_false] at hbad
        have h1 : key t = i := by simpa using hbad
        have h2 : key x = i := by simpa using hx
        exact hnd.1 (h2 ▸ h1 ▸ List.mem_map_of_mem key htmem)
      simp [hzero, hx]
    · rw [Bool.not_eq_true] at hx
      simp [hx]
      simpa using ih hnd.2

theorem countP_map_eq {α β : Type} (f : α → β) (p : β → Bool) (l : List α) :
    (l.map f).countP p = l.countP (fun a => p (f a)) := by
  induction l with
  | nil => rfl
  | cons x xs ih => rw [List.map_cons, List.countP_cons, List.countP_cons, ih]

theorem map_congr_mem {α β : Type} (l : List α) (f g : α → β)
    (h : ∀ a ∈ l, f a = g a) : l.map f = l.map g := by
  induction l with
  | nil => rfl
  | cons x xs ih =>
    rw [List.map_cons, List.map_cons, h x (List.mem_cons_self _ _),
      ih (fun a ha => h a (List.mem_cons_of_mem _ ha))]

theorem filter_length_map_keyPresv_mem (l : List CharacterItem)
    (f : CharacterItem → CharacterItem)
    (hf : ∀ it ∈ l, (f it).characterId = it.characterId) (c : String) :
    ((l.map f).filter (fun it => it.characterId == c)).length =
      (l.filter (fun it => it.characterId == c)).length := by
  induction l with
  | nil => rfl
  | cons x xs ih =>
    rw [List.map_cons, List.filter_cons, List.filter_cons,
      hf x (List.mem_cons_self _ _)]
    have ihx := ih (fun a ha => hf a (List.mem_cons_of_mem _ ha))
    split
    · simp only [List.length_cons, ihx]
    · exact ihx

/-! ## The inventory-capacity invariant -/

/-- Every character holds at most 8 inventory rows. -/
def Inv8 (db : DB) : Prop :=
  ∀ cid : String, (invOf db cid).length ≤ 8

theorem inv8_of_eq {db db' : DB} (h : db'.characterItems = db.characterItems)
    (h8 : Inv8 db) : Inv8 db' := by
  intro c
  unfold invOf
  rw [h]
  exact h8 c

theorem inv8_append_row (l : List CharacterItem) (row : CharacterItem)
    (h : ∀ c, (l.filter (fun it => it.characterId == c)).length ≤ 8)
    (hrow : (l.filter (fun it => it.characterId == row.characterId)).length < 8) :
    ∀ c, ((l ++ [row]).filter (fun it => it.characterId == c)).length ≤ 8 := by
  intro c
  rw [List.filter_append, List.length_append]
  by_cases hc : row.characterId = c
  · subst hc
    have h1 : List.filter (fun it => it.characterId == row.characterId) [row] = [row] := by
      simp
    rw [h1]
    simp only [List.length_cons, List.length_nil]
    omega
  · have h1 : List.filter (fun it => it.characterId == c) [row] = [] := by
      simp [hc]
    rw [h1]
    simpa using h c

theorem addInventory_inv8 (db : DB) (sess : Option String) (id : String)
    (body : InventoryAddBody) (newId : String) (h8 : Inv8 db) :
    Inv8 ((addInventory db sess id body newId).2) := by
  unfold addInventory
  try dsimp only
  repeat' split
  all_goals try exact h8
  rename_i hfull
  rw [not_le] at hfull
  intro c
  unfold invOf
  simp only [writeAuditLog]
  refine inv8_append_row db.characterItems _ (fun c' => h8 c') ?_ c
  unfold invOf at hfull
  exact hfull

theorem deleteInventory_inv8 (db : DB) (sess : Option String) (id inventoryId : String)
    (h8 : Inv8 db) : Inv8 ((deleteInventory db sess id inventoryId).2) := by
  unfold deleteInventory
  try dsimp only
  repeat' split
  all_goals try exact h8
  intro c
  unfold invOf
  simp only [writeAuditLog]
  exact le_trans
    (List.Sublist.length_le (List.Sublist.filter _ (List.filter_sublist _)))
    (h8 c)

theorem updateInventoryItem_inv8 (db : DB) (sess : Option String) (id inventoryId : String)
    (body : InventoryUpdateBody)
    (hnd : (db.characterItems.map CharacterItem.id).Nodup) (h8 : Inv8 db) :
    Inv8 ((updateInventoryItem db sess id inventoryId body).2) := by
  unfold updateInventoryItem
  try dsimp only
  repeat' split
  all_goals try exact h8
  rename_i invItem hfind hbel
  intro c
  unfold invOf
  simp only [writeAuditLog]
  rw [filter_length_map_keyPresv_mem _ _ ?hf c]
  · exact h8 c
  case hf =>
    intro it hit
    split
    · rename_i hid
      have h1 : it.id = inventoryId := by simpa using hid
      have h2 : invItem.id = inventoryId := by simpa using List.find?_some hfind
      have h3 : it = invItem :=
        eq_of_key_eq_of_nodup CharacterItem.id db.characterItems hnd hit
          (List.mem_of_find?_eq_some hfind) (h1.trans h2.symm)
      rw [h3]
    · rfl

theorem applyOrderFrom_filter_length (ids : List String) (items : List CharacterItem)
    (k : Int) (c : String) :
    ((applyOrderFrom items ids k).filter (fun it => it.characterId == c)).length =
      (items.filter (fun it => it.characterId == c)).length := by
  induction ids generalizing items k with
  | nil => rfl
  | cons oid rest ih =>
    show ((applyOrderFrom _ rest (k + 1)).filter _).length = _
    rw [ih]
    exact filter_length_map_keyPresv_mem items _
      (fun it _ => by split <;> rfl) c

theorem reorderInventory_inv8 (db : DB) (sess : Option String) (id : String)
    (orderedIds : List String) (h8 : Inv8 db) :
    Inv8 ((reorderInventory db sess id orderedIds).2) := by
  unfold reorderInventory
  try dsimp only
  repeat' split
  all_goals try exact h8
  intro c
  unfold invOf
  simp only [writeAuditLog]
  unfold applyOrder
  rw [applyOrderFrom_filter_length]
  exact h8 c

/-! ## The one-token-per-character invariant -/

/-- Token ids are unique (store primary key) and no character has more
than one token anywhere in the system. -/
def OneTokenPerCharacter (db : DB) : Prop :=
  (db.tokens.map Token.id).Nodup ∧
    ∀ c : String, db.tokens.countP (fun t => t.characterId == c) ≤ 1

theorem otp_of_eq {db db' : DB} (h : db'.tokens = db.tokens)
    (hotp : OneTokenPerCharacter db) : OneTokenPerCharacter db' := by
  unfold OneTokenPerCharacter
  rw [h]
  exact hotp

theorem otp_append (l : List Token) (tok : Token)
    (hnd : (l.map Token.id).Nodup)
    (hcnt : ∀ c, l.countP (fun t => t.characterId == c) ≤ 1)
    (hfresh : tok.id ∉ l.map Token.id)
    (hnew : ∀ t ∈ l, (t.characterId == tok.characterId) = false) :
    ((l ++ [tok]).map Token.id).Nodup ∧
      ∀ c, (l ++ [tok]).countP (fun t => t.characterId == c) ≤ 1 := by
  constructor
  · rw [List.map_append]
    rw [List.nodup_append]
    refine ⟨hnd, List.nodup_singleton _, ?_⟩
    intro a ha hb
    rw [List.map_singleton, List.mem_singleton] at hb
    exact hfresh (hb ▸ ha)
  · intro c
    rw [List.countP_append]
    have hsingle : [tok].countP (fun t => t.characterId == c) =
        if (tok.characterId == c) = true then 1 else 0 := by
      rw [List.countP_cons]
      simp
    rw [hsingle]
    by_cases hc : (tok.characterId == c) = true
    · have hzero : l.countP (fun t => t.characterId == c) = 0 := by
        apply countP_eq_zero_mem
        intro t ht
        have : tok.characterId = c := by simpa using hc
        rw [← this]
        exact hnew t ht
      simp [hzero, hc]
    · have h0 : (if (tok.characterId == c) = true then 1 else 0) = 0 := if_neg hc
      rw [h0]
      have := hcnt c
      omega

theorem otp_map_replace (l : List Token) (tid : String) (existing updated : Token)
    (hfind : l.find? (fun t => t.id == tid) = some existing)
    (hnd : (l.map Token.id).Nodup)
    (hcnt : ∀ c, l.countP (fun t => t.characterId == c) ≤ 1)
    (hchar : updated.characterId = existing.characterId ∨
      (∀ t ∈ l, (t.characterId == updated.characterId) = false))
    (hid : updated.id = existing.id) :
    (((l.map (fun t => if t.id == tid then updated else t)).map Token.id).Nodup ∧
      ∀ c, (l.map (fun t => if t.id == tid then updated else t)).countP
        (fun t => t.characterId == c) ≤ 1) := by
  have hexid : existing.id = tid := by simpa using List.find?_some hfind
  have hexmem : existing ∈ l := List.mem_of_find?_eq_some hfind
  have hidmap : (l.map (fun t => if t.id == tid then updated else t)).map Token.id =
      l.map Token.id := by
    rw [List.map_map]
    apply map_congr_mem
    intro t _
    dsimp only [Function.comp]
    split
    · rename_i hmatch
      rw [hid, hexid]
      exact ((by simpa using hmatch : t.id = tid)).symm
    · rfl
  refine ⟨hidmap ▸ hnd, ?_⟩
  intro c
  rw [countP_map_eq]
  rcases hchar with hsame | hnone
  · have hpt : ∀ t ∈ l,
        ((fun t => ((if t.id == tid then updated else t)).characterId == c) t) =
          ((fun t => t.characterId == c) t) := by
      intro t ht
      dsimp only
      split
      · rename_i hmatch
        have h1 : t.id = tid := by simpa using hmatch
        have h2 : t = existing :=
          eq_of_key_eq_of_nodup Token.id l hnd ht hexmem (h1.trans hexid.symm)
        rw [hsame, h2]
      · rfl
    rw [countP_congr_mem _ _ _ hpt]
    exact hcnt c
  · by_cases hc : updated.characterId = c
    · subst hc
      have hle : l.countP
          (fun t => ((if t.id == tid then updated else t)).characterId == updated.characterId) ≤
            l.countP (fun t => t.id == tid) := by
        apply countP_le_countP
        intro t ht hp
        try dsimp only at hp
        by_contra hbad
        rw [Bool.not_eq_true] at hbad
        rw [if_neg (by simp [hbad])] at hp
        rw [hnone t ht] at hp
        cases hp
      exact le_trans hle (countP_key_le_one Token.id l hnd tid)
    · have hle : l.countP
          (fun t => ((if t.id == tid then updated else t)).characterId == c) ≤
            l.countP (fun t => t.characterId == c) := by
        apply countP_le_countP
        intro t ht hp
        try dsimp only at hp
        by_cases htid : (t.id == tid) = true
        · rw [if_pos htid] at hp
          have : updated.characterId = c := by simpa using hp
          exact absurd this hc
        · rwa [if_neg htid] at hp
      exact le_trans hle (hcnt c)

theorem createToken_otp (db : DB) (sess : Option String) (id : String)
    (body : TokenCreateBody) (newId : String)
    (hfresh : newId ∉ db.tokens.map Token.id)
    (hotp : OneTokenPerCharacter db) :
    OneTokenPerCharacter ((createToken db sess id body newId).2) := by
  obtain ⟨hnd, hcnt⟩ := hotp
  unfold createToken
  try dsimp only
  repeat' split
  all_goals try exact ⟨hnd, hcnt⟩
  rename_i hdup
  have hnew : ∀ t ∈ db.tokens, (t.characterId == body.characterId) = false := by
    intro t ht
    have := List.find?_eq_none.mp hdup t ht
    simpa using this
  unfold OneTokenPerCharacter
  exact otp_append db.tokens _ hnd hcnt hfresh hnew

theorem updateToken_otp (db : DB) (sess : Option String) (id : String)
    (body : TokenUpdateBody) (hotp : OneTokenPerCharacter db) :
    OneTokenPerCharacter ((updateToken db sess id body).2) := by
  obtain ⟨hnd, hcnt⟩ := hotp
  unfold updateToken
  cases hfT : findToken db id with
  | none => exact ⟨hnd, hcnt⟩
  | some existing =>
    dsimp only
    cases hfM : findMap db existing.mapId with
    | none => exact ⟨hnd, hcnt⟩
    | some mp =>
      dsimp only
      cases hDM : requireDM db sess mp.campaignId with
      | error e => exact ⟨hnd, hcnt⟩
      | ok dm =>
        by_cases hval : (!body.valid) = true
        · rw [if_pos hval]
          exact ⟨hnd, hcnt⟩
        · rw [if_neg hval]
          dsimp only
          cases hG : rebindGuard db mp existing body.characterId with
          | error e => exact ⟨hnd, hcnt⟩
          | ok u =>
            unfold OneTokenPerCharacter
            refine otp_map_replace db.tokens id existing _ hfT hnd hcnt ?_ rfl
            rcases hbc : body.characterId with _ | cid
            · left
              rfl
            · rw [hbc] at hG
              unfold rebindGuard at hG
              dsimp only at hG
              by_cases hcid : cid = existing.characterId
              · left
                simp [hcid]
              · rw [if_pos hcid] at hG
                right
                cases hfc : findChar db cid with
                | none => rw [hfc] at hG; simp at hG
                | some ch =>
                  rw [hfc] at hG
                  dsimp only at hG
                  by_cases hcamp : ch.campaignId ≠ mp.campaignId
                  · rw [if_pos hcamp] at hG
                    simp at hG
                  · rw [if_neg hcamp] at hG
                    cases hdup : findTokenByCharacter db cid with
                    | some t => rw [hdup] at hG; simp at hG
                    | none =>
                      intro t ht
                      have hnone := List.find?_eq_none.mp hdup t ht
                      simpa using hnone

/-! ## The request-level transition relation -/

/-- One request handled against the store: every modelled handler, with
arbitrary session and payload.  Creation steps take the store-generated
row id; for rows whose id the proofs must distinguish (inventory rows,
tokens) the store's key-uniqueness guarantee is carried as a freshness
side condition. -/
inductive Step : DB → DB → Prop
  | listCampaignCharactersStep (db : DB) (sess : Option String) (cid : String) :
      Step db (listCampaignCharacters db sess cid).2
  | createCharacterStep (db : DB) (sess : Option String) (cid : String)
      (body : CharacterCreateBody) (newId : String) :
      Step db (createCharacter db sess cid body newId).2
  | getCharacterStep (db : DB) (sess : Option String) (id : String) :
      Step db (getCharacter db sess id).2
  | addSkillStep (db : DB) (sess : Option String) (id skillId newId : String) :
      Step db (addSkill db sess id skillId newId).2
  | deleteSkillStep (db : DB) (sess : Option String) (id csid : String) :
      Step db (deleteSkill db sess id csid).2
  | getInventoryStep (db : DB) (sess : Option String) (id : String) :
      Step db (getInventory db sess id).2
  | addInventoryStep (db : DB) (sess : Option String) (id : String)
      (body : InventoryAddBody) (newId : String)
      (hfresh : newId ∉ db.characterItems.map CharacterItem.id) :
      Step db (addInventory db sess id body newId).2
  | deleteInventoryStep (db : DB) (sess : Option String) (id invId : String) :
      Step db (deleteInventory db sess id invId).2
  | updateInventoryItemStep (db : DB) (sess : Option String) (id invId : String)
      (body : InventoryUpdateBody)
      (hwf : (db.characterItems.map CharacterItem.id).Nodup) :
      Step db (updateInventoryItem db sess id invId body).2
  | reorderInventoryStep (db : DB) (sess : Option String) (id : String)
      (orderedIds : List String) :
      Step db (reorderInventory db sess id orderedIds).2
  | setEquippedWeaponStep (db : DB) (sess : Option String) (id : String)
      (invId : Option String) :
      Step db (setEquippedWeapon db sess id invId).2
  | updateCharacterStep (db : DB) (sess : Option String) (id : String)
      (body : CharacterUpdateBody) :
      Step db (updateCharacter db sess id body).2
  | updateHpStep (db : DB) (sess : Option String) (id : String) (hp : Int) :
      Step db (updateHp db sess id hp).2
  | listCampaignMapsStep (db : DB) (sess : Option String) (cid : String) :
      Step db (listCampaignMaps db sess cid).2
  | createMapStep (db : DB) (sess : Option String) (cid : String)
      (body : MapCreateBody) (newId : String) :
      Step db (createMap db sess cid body newId).2
  | getMapStep (db : DB) (sess : Option String) (id : String) :
      Step db (getMap db sess id).2
  | listRollsStep (db : DB) (sess : Option String) (id : String) :
      Step db (listRolls db sess id).2
  | createRollStep (db : DB) (sess : Option String) (id : String)
      (rollType : RollType) (ra rb : ℚ) :
      Step db (createRoll db sess id rollType ra rb).2
  | updateMapStep (db : DB) (sess : Option String) (id : String)
      (body : MapUpdateBody) :
      Step db (updateMap db sess id body).2
  | listTokensStep (db : DB) (sess : Option String) (id : String) :
      Step db (listTokens db sess id).2
  | createTokenStep (db : DB) (sess : Option String) (id : String)
      (body : TokenCreateBody) (newId : String)
      (hfresh : newId ∉ db.tokens.map Token.id) :
      Step db (createToken db sess id body newId).2
  | updateTokenStep (db : DB) (sess : Option String) (id : String)
      (body : TokenUpdateBody) :
      Step db (updateToken db sess id body).2
  | listTileSetsStep (db : DB) (sess : Option String) (cid : String) :
      Step db (listTileSets db sess cid).2
  | listPresetsStep (db : DB) (sess : Option String) (cid : String) :
      Step db (listPresets db sess cid).2
  | getPresetStep (db : DB) (sess : Option String) (id : String) :
      Step db (getPreset db sess id).2

/-- Every modelled operation preserves the 8-item inventory capacity bound. -/
theorem step_preserves_inv8 {db db' : DB} (h : Step db db') (h8 : Inv8 db) : Inv8 db' := by
  cases h with
  | listCampaignCharactersStep sess cid =>
      exact inv8_of_eq (by rw [listCampaignCharacters_db]) h8
  | createCharacterStep sess cid body newId =>
      exact inv8_of_eq (createCharacter_characterItems db sess cid body newId) h8
  | getCharacterStep sess id => exact inv8_of_eq (by rw [getCharacter_db]) h8
  | addSkillStep sess id skillId newId =>
      exact inv8_of_eq (addSkill_characterItems db sess id skillId newId) h8
  | deleteSkillStep sess id csid =>
      exact inv8_of_eq (deleteSkill_characterItems db sess id csid) h8
  | getInventoryStep sess id => exact inv8_of_eq (by rw [getInventory_db]) h8
  | addInventoryStep sess id body newId hfresh =>
      exact addInventory_inv8 db sess id body newId h8
  | deleteInventoryStep sess id invId =>
      exact deleteInventory_inv8 db sess id invId h8
  | updateInventoryItemStep sess id invId body hwf =>
      exact updateInventoryItem_inv8 db sess id invId body hwf h8
  | reorderInventoryStep sess id orderedIds =>
      exact reorderInventory_inv8 db sess id orderedIds h8
  | setEquippedWeaponStep sess id invId =>
      exact inv8_of_eq (setEquippedWeapon_characterItems db sess id invId) h8
  | updateCharacterStep sess id body =>
      exact inv8_of_eq (updateCharacter_characterItems db sess id body) h8
  | updateHpStep sess id hp =>
      exact inv8_of_eq (updateHp_characterItems db sess id hp) h8
  | listCampaignMapsStep sess cid => exact inv8_of_eq (by rw [listCampaignMaps_db]) h8
  | createMapStep sess cid body newId =>
      exact inv8_of_eq (createMap_characterItems db sess cid body newId) h8
  | getMapStep sess id => exact inv8_of_eq (by rw [getMap_db]) h8
  | listRollsStep sess id => exact inv8_of_eq (by rw [listRolls_db]) h8
  | createRollStep sess id rollType ra rb =>
      exact inv8_of_eq (createRoll_characterItems db sess id rollType ra rb) h8
  | updateMapStep sess id body =>
      exact inv8_of_eq (updateMap_characterItems db sess id body) h8
  | listTokensStep sess id => exact inv8_of_eq (by rw [listTokens_db]) h8
  | createTokenStep sess id body newId hfresh =>
      exact inv8_of_eq (createToken_characterItems db sess id body newId) h8
  | updateTokenStep sess id body =>
      exact inv8_of_eq (updateToken_characterItems db sess id body) h8
  | listTileSetsStep sess cid => exact inv8_of_eq (by rw [listTileSets_db]) h8
  | listPresetsStep sess cid => exact inv8_of_eq (by rw [listPresets_db]) h8
  | getPresetStep sess id => exact inv8_of_eq (by rw [getPreset_db]) h8

/-- Every modelled operation preserves one-token-per-character. -/
theorem step_preserves_otp {db db' : DB} (h : Step db db')
    (hotp : OneTokenPerCharacter db) : OneTokenPerCharacter db' := by
  cases h with
  | listCampaignCharactersStep sess cid =>
      exact otp_of_eq (by rw [listCampaignCharacters_db]) hotp
  | createCharacterStep sess cid body newId =>
      exact otp_of_eq (createCharacter_tokens db sess cid body newId) hotp
  | getCharacterStep sess id => exact otp_of_eq (by rw [getCharacter_db]) hotp
  | addSkillStep sess id skillId newId =>
      exact otp_of_eq (addSkill_tokens db sess id skillId newId) hotp
  | deleteSkillStep sess id csid =>
      exact otp_of_eq (deleteSkill_tokens db sess id csid) hotp
  | getInventoryStep sess id => exact otp_of_eq (by rw [getInventory_db]) hotp
  | addInventoryStep sess id body newId hfresh =>
      exact otp_of_eq (addInventory_tokens db sess id body newId) hotp
  | deleteInventoryStep sess id invId =>
      exact otp_of_eq (deleteInventory_tokens db sess id invId) hotp
  | updateInventoryItemStep sess id invId body hwf =>
      exact otp_of_eq (updateInventoryItem_tokens db sess id invId body) hotp
  | reorderInventoryStep sess id orderedIds =>
      exact otp_of_eq (reorderInventory_tokens db sess id orderedIds) hotp
  | setEquippedWeaponStep sess id invId =>
      exact otp_of_eq (setEquippedWeapon_tokens db sess id invId) hotp
  | updateCharacterStep sess id body =>
      exact otp_of_eq (updateCharacter_tokens db sess id body) hotp
  | updateHpStep sess id hp => exact otp_of_eq (updateHp_tokens db sess id hp) hotp
  | listCampaignMapsStep sess cid => exact otp_of_eq (by rw [listCampaignMaps_db]) hotp
  | createMapStep sess cid body newId =>
      exact otp_of_eq (createMap_tokens db sess cid body newId) hotp
  | getMapStep sess id => exact otp_of_eq (by rw [getMap_db]) hotp
  | listRollsStep sess id => exact otp_of_eq (by rw [listRolls_db]) hotp
  | createRollStep sess id rollType ra rb =>
      exact otp_of_eq (createRoll_tokens db sess id rollType ra rb) hotp
  | updateMapStep sess id body =>
      exact otp_of_eq (updateMap_tokens db sess id body) hotp
  | listTokensStep sess id => exact otp_of_eq (by rw [listTokens_db]) hotp
  | createTokenStep sess id body newId hfresh =>
      exact createToken_otp db sess id body newId hfresh hotp
  | updateTokenStep sess id body => exact updateToken_otp db sess id body hotp
  | listTileSetsStep sess cid => exact otp_of_eq (by rw [listTileSets_db]) hotp
  | listPresetsStep sess cid => exact otp_of_eq (by rw [listPresets_db]) hotp
  | getPresetStep sess id => exact otp_of_eq (by rw [getPreset_db]) hotp

/-- Every modelled operation only ever appends to the audit log: existing
records are never updated or deleted. -/
theorem step_audit_append_only {db db' : DB} (h : Step db db') :
    ∃ s, db'.auditLogs = db.auditLogs ++ s := by
  cases h with
  | listCampaignCharactersStep sess cid =>
      exact ⟨[], by rw [listCampaignCharacters_db, List.append_nil]⟩
  | createCharacterStep sess cid body newId =>
      exact createCharacter_auditSuffix db sess cid body newId
  | getCharacterStep sess id => exact ⟨[], by rw [getCharacter_db, List.append_nil]⟩
  | addSkillStep sess id skillId newId => exact addSkill_auditSuffix db sess id skillId newId
  | deleteSkillStep sess id csid => exact deleteSkill_auditSuffix db sess id csid
  | getInventoryStep sess id => exact ⟨[], by rw [getInventory_db, List.append_nil]⟩
  | addInventoryStep sess id body newId hfresh =>
      exact addInventory_auditSuffix db sess id body newId
  | deleteInventoryStep sess id invId => exact deleteInventory_auditSuffix db sess id invId
  | updateInventoryItemStep sess id invId body hwf =>
      exact updateInventoryItem_auditSuffix db sess id invId body
  | reorderInventoryStep sess id orderedIds =>
      exact reorderInventory_auditSuffix db sess id orderedIds
  | setEquippedWeaponStep sess id invId =>
      exact setEquippedWeapon_auditSuffix db sess id invId
  | updateCharacterStep sess id body => exact updateCharacter_auditSuffix db sess id body
  | updateHpStep sess id hp => exact updateHp_auditSuffix db sess id hp
  | listCampaignMapsStep sess cid => exact ⟨[], by rw [listCampaignMaps_db, List.append_nil]⟩
  | createMapStep sess cid body newId => exact createMap_auditSuffix db sess cid body newId
  | getMapStep sess id => exact ⟨[], by rw [getMap_db, List.append_nil]⟩
  | listRollsStep sess id => exact ⟨[], by rw [listRolls_db, List.append_nil]⟩
  | createRollStep sess id rollType ra rb =>
      exact createRoll_auditSuffix db sess id rollType ra rb
  | updateMapStep sess id body => exact updateMap_auditSuffix db sess id body
  | listTokensStep sess id => exact ⟨[], by rw [listTokens_db, List.append_nil]⟩
  | createTokenStep sess id body newId hfresh =>
      exact createToken_auditSuffix db sess id body newId
  | updateTokenStep sess id body => exact updateToken_auditSuffix db sess id body
  | listTileSetsStep sess cid => exact ⟨[], by rw [listTileSets_db, List.append_nil]⟩
  | listPresetsStep sess cid => exact ⟨[], by rw [listPresets_db, List.append_nil]⟩
  | getPresetStep sess id => exact ⟨[], by rw [getPreset_db, List.append_nil]⟩

/-! ## Authorization gate evaluation helpers -/

theorem requireCampaignMember_found (db : DB) (uid cid : String) (m : CampaignMember)
    (h : uid ≠ "") (hm : findMembership db uid cid = some m) :
    requireCampaignMember db (some uid) cid = .ok m := by
  unfold requireCampaignMember getSessionUserId
  dsimp only
  rw [if_neg h, hm]

theorem requireCampaignMember_noMember (db : DB) (uid cid : String)
    (h : uid ≠ "") (hm : findMembership db uid cid = none) :
    requireCampaignMember db (some uid) cid = .error (.err 403 "Forbidden") := by
  unfold requireCampaignMember getSessionUserId
  dsimp only
  rw [if_neg h, hm]

theorem requireDM_noMember (db : DB) (uid cid : String)
    (h : uid ≠ "") (hm : findMembership db uid cid = none) :
    requireDM db (some uid) cid = .error (.err 403 "Forbidden") := by
  unfold requireDM
  rw [requireCampaignMember_noMember db uid cid h hm]

theorem requireDM_found_dm (db : DB) (uid cid : String) (m : CampaignMember)
    (h : uid ≠ "") (hm : findMembership db uid cid = some m) (hrole : m.role = Role.DM) :
    requireDM db (some uid) cid = .ok m := by
  unfold requireDM
  rw [requireCampaignMember_found db uid cid m h hm]
  simp [hrole]

/-! ## Claim theorems -/

/-- **C1**: for every operation scoped to a campaign's entities (character
read, inventory read, map read, roll read/create, token read, tileset
read, preset read, and all the corresponding mutations), if the request
carries a resolvable session identity, the referenced entity id is valid,
and the identity has no CampaignMember row for the entity's owning
campaign, then the operation is rejected with Forbidden (403), not
NotFound, and no state is changed. -/
theorem claim_C1_nonmember_forbidden (db : DB) (uid : String) (huid : uid ≠ "") :
    (∀ cid ch, findChar db cid = some ch →
      findMembership db uid ch.campaignId = none →
      getCharacter db (some uid) cid = (.err 403 "Forbidden", db) ∧
      getInventory db (some uid) cid = (.err 403 "Forbidden", db) ∧
      (∀ skillId newId, addSkill db (some uid) cid skillId newId = (.err 403 "Forbidden", db)) ∧
      (∀ csid, deleteSkill db (some uid) cid csid = (.err 403 "Forbidden", db)) ∧
      (∀ body newId, addInventory db (some uid) cid body newId = (.err 403 "Forbidden", db)) ∧
      (∀ invId, deleteInventory db (some uid) cid invId = (.err 403 "Forbidden", db)) ∧
      (∀ invId body, updateInventoryItem db (some uid) cid invId body =
        (.err 403 "Forbidden", db)) ∧
      (∀ orderedIds, reorderInventory db (some uid) cid orderedIds =
        (.err 403 "Forbidden", db)) ∧
      (∀ invId, setEquippedWeapon db (some uid) cid invId = (.err 403 "Forbidden", db)) ∧
      (∀ body, updateCharacter db (some uid) cid body = (.err 403 "Forbidden", db)) ∧
      (∀ hp, updateHp db (some uid) cid hp = (.err 403 "Forbidden", db))) ∧
    (∀ mid mp, findMap db mid = some mp →
      findMembership db uid mp.campaignId = none →
      getMap db (some uid) mid = (.err 403 "Forbidden", db) ∧
      listRolls db (some uid) mid = (.err 403 "Forbidden", db) ∧
      (∀ rollType ra rb, createRoll db (some uid) mid rollType ra rb =
        (.err 403 "Forbidden", db)) ∧
      (∀ body, updateMap db (some uid) mid body = (.err 403 "Forbidden", db)) ∧
      listTokens db (some uid) mid = (.err 403 "Forbidden", db) ∧
      (∀ body newId, createToken db (some uid) mid body newId = (.err 403 "Forbidden", db))) ∧
    (∀ tid tok mp, findToken db tid = some tok → findMap db tok.mapId = some mp →
      findMembership db uid mp.campaignId = none →
      ∀ body, updateToken db (some uid) tid body = (.err 403 "Forbidden", db)) ∧
    (∀ pid p, findPreset db pid = some p →
      findMembership db uid p.campaignId = none →
      getPreset db (some uid) pid = (.err 403 "Forbidden", db)) ∧
    (∀ cid, findMembership db uid cid = none →
      listCampaignCharacters db (some uid) cid = (.err 403 "Forbidden", db) ∧
      (∀ body newId, createCharacter db (some uid) cid body newId =
        (.err 403 "Forbidden", db)) ∧
      listCampaignMaps db (some uid) cid = (.err 403 "Forbidden", db) ∧
      (∀ body newId, createMap db (some uid) cid body newId = (.err 403 "Forbidden", db)) ∧
      listTileSets db (some uid) cid = (.err 403 "Forbidden", db) ∧
      listPresets db (some uid) cid = (.err 403 "Forbidden", db)) := by
  refine ⟨?_, ?_, ?_, ?_, ?_⟩
  · intro cid ch hfind hnm
    have hrcm := requireCampaignMember_noMember db uid ch.campaignId huid hnm
    have hrdm := requireDM_noMember db uid ch.campaignId huid hnm
    refine ⟨?_, ?_, ?_, ?_, ?_, ?_, ?_, ?_, ?_, ?_, ?_⟩
    · simp only [getCharacter, hfind, hrcm]
    · simp only [getInventory, hfind, hrcm]
    · intro skillId newId
      simp only [addSkill, hfind, hrdm]
    · intro csid
      simp only [deleteSkill, hfind, hrdm]
    · intro body newId
      simp only [addInventory, hfind, hrdm]
    · intro invId
      simp only [deleteInventory, hfind, hrdm]
    · intro invId body
      simp only [updateInventoryItem, hfind, hrcm]
    · intro orderedIds
      simp only [reorderInventory, hfind, hrcm]
    · intro invId
      simp only [setEquippedWeapon, hfind, hrcm]
    · intro body
      simp only [updateCharacter, hfind, hrdm]
    · intro hp
      simp only [updateHp, hfind, hrcm]
  · intro mid mp hfind hnm
    have hrcm := requireCampaignMember_noMember db uid mp.campaignId huid hnm
    have hrdm := requireDM_noMember db uid mp.campaignId huid hnm
    refine ⟨?_, ?_, ?_, ?_, ?_, ?_⟩
    · simp only [getMap, hfind, hrcm]
    · simp only [listRolls, hfind, hrcm]
    · intro rollType ra rb
      simp only [createRoll, hfind, hrcm]
    · intro body
      simp only [updateMap, hfind, hrdm]
    · simp only [listTokens, hfind, hrcm]
    · intro body newId
      simp only [createToken, hfind, hrdm]
  · intro tid tok mp hfT hfM hnm body
    have hrdm := requireDM_noMember db uid mp.campaignId huid hnm
    simp only [updateToken, hfT, hfM, hrdm]
  · intro pid p hfind hnm
    have hrcm := requireCampaignMember_noMember db uid p.campaignId huid hnm
    simp only [getPreset, hfind, hrcm]
  · intro cid hnm
    have hrcm := requireCampaignMember_noMember db uid cid huid hnm
    have hrdm := requireDM_noMember db uid cid huid hnm
    refine ⟨?_, ?_, ?_, ?_, ?_, ?_⟩
    · simp only [listCampaignCharacters, hrcm]
    · intro body newId
      simp only [createCharacter, hrdm]
    · simp only [listCampaignMaps, hrcm]
    · intro body newId
      simp only [createMap, hrdm]
    · simp only [listTileSets, hrcm]
    · simp only [listPresets, hrcm]

/-- Concrete store for the C1 witness: one campaign "C" with a character,
a map, a token and a preset, and no members at all. -/
def chC1 : Character :=
  { id := "c1", name := "Ike", stats := .flat [("hp", 20)], ownerId := some "p",
    kind := .PLAYER, className := none, level := 1, exp := 0, weaponSkills := none,
    currentHp := 20, equippedWeaponItemId := none, campaignId := "C" }

def mapC1 : GameMap :=
  { id := "m1", name := "Field", imageUrl := some "a", gridSizeX := 50, gridSizeY := 50,
    gridOffsetX := 0, gridOffsetY := 0, tileCountX := 10, tileCountY := 10,
    tileGrid := none, campaignId := "C" }

def tokC1 : Token :=
  { id := "t1", mapId := "m1", label := "Ike", x := 0, y := 0, color := "#fff",
    characterId := "c1" }

def preC1 : TilePreset :=
  { id := "p1", name := "Preset", tileCountX := 5, tileCountY := 5, tileGrid := [],
    campaignId := "C" }

def dbC1 : DB :=
  { memberships := [], characters := [chC1], characterItems := [], characterSkills := [],
    skills := [], items := [], gameClasses := [], maps := [mapC1], tokens := [tokC1],
    rolls := [], tileSets := [], presets := [preC1], auditLogs := [] }

/-- Witness for C1 at a concrete store: a resolvable identity "u" with no
membership gets 403 Forbidden and an unchanged store on a character read,
an HP write, a roll creation, a token re-bind, a preset read and a
tileset list, all with valid entity ids. -/
theorem claim_C1_witness :
    getCharacter dbC1 (some "u") "c1" = (.err 403 "Forbidden", dbC1) ∧
    updateHp dbC1 (some "u") "c1" 5 = (.err 403 "Forbidden", dbC1) ∧
    createRoll dbC1 (some "u") "m1" RollType.REGULAR 0 0 = (.err 403 "Forbidden", dbC1) ∧
    updateToken dbC1 (some "u") "t1" ⟨none, none, none, none, none⟩ =
      (.err 403 "Forbidden", dbC1) ∧
    getPreset dbC1 (some "u") "p1" = (.err 403 "Forbidden", dbC1) ∧
    listTileSets dbC1 (some "u") "C" = (.err 403 "Forbidden", dbC1) := by
  have h := claim_C1_nonmember_forbidden dbC1 "u" (by decide)
  exact ⟨(h.1 "c1" chC1 rfl rfl).1,
    (h.1 "c1" chC1 rfl rfl).2.2.2.2.2.2.2.2.2.2 5,
    (h.2.1 "m1" mapC1 rfl rfl).2.2.1 RollType.REGULAR 0 0,
    h.2.2.1 "t1" tokC1 mapC1 rfl rfl rfl ⟨none, none, none, none, none⟩,
    h.2.2.2.1 "p1" preC1 rfl rfl,
    (h.2.2.2.2 "C" rfl).2.2.2.2.1⟩

/-- The spec's derived authorization rule for character mutations:
DM, or the owning player (owner set and equal to the caller). -/
def canEditCharacter (m : CampaignMember) (ch : Character) (uid : String) : Prop :=
  m.role = Role.DM ∨ ch.ownerId = some uid

instance (m : CampaignMember) (ch : Character) (uid : String) :
    Decidable (canEditCharacter m ch uid) := by
  unfold canEditCharacter
  infer_instance

theorem canEditB_true (m : CampaignMember) (ch : Character) (uid : String)
    (huid : uid ≠ "") (h : canEditCharacter m ch uid) :
    (m.role == Role.DM || ownerTruthyEq ch.ownerId (some uid)) = true := by
  rcases h with h | h
  · simp [h]
  · unfold ownerTruthyEq
    rw [h]
    simp [huid]

theorem canEditB_false (m : CampaignMember) (ch : Character) (uid : String)
    (h : ¬ canEditCharacter m ch uid) :
    (m.role == Role.DM || ownerTruthyEq ch.ownerId (some uid)) = false := by
  unfold canEditCharacter at h
  push_neg at h
  obtain ⟨h1, h2⟩ := h
  unfold ownerTruthyEq
  cases hown : ch.ownerId with
  | none => simp [h1]
  | some o =>
    rw [hown] at h2
    have hne : o ≠ uid := fun hx => h2 (by rw [hx])
    simp [h1, hne]

theorem laguzStr_ne (r : String) :
    ("Laguz weapons are restricted to class: " ++ r) ≠ "Forbidden" := by
  intro h
  have hlen := congrArg String.length h
  rw [String.length_append] at hlen
  have h9 : ("Forbidden" : String).length = 9 := by decide
  have h39 : ("Laguz weapons are restricted to class: " : String).length = 39 := by decide
  omega

theorem equipGuard_ne_forbidden (db : DB) (m : CampaignMember) (ch : Character)
    (id : String) (invId : Option String) :
    equipGuard db m ch id invId ≠ .error (.err 403 "Forbidden") := by
  unfold equipGuard
  try dsimp only
  repeat' split
  all_goals intro hbad
  all_goals try cases hbad
  all_goals try simp at hbad
  all_goals exact laguzStr_ne _ hbad

/-- **C2**: HP updates, inventory reorders, inventory field updates
(uses/blessed), and equip-weapon changes are permitted exactly when the
acting member is DM or the character's ownerId is non-null and equals the
acting user's id; otherwise the request is rejected 403 Forbidden with
the state unchanged.  The same decision rule governs all four endpoints. -/
theorem claim_C2_canEdit_rule (db : DB) (uid cid : String) (ch : Character)
    (m : CampaignMember) (huid : uid ≠ "")
    (hch : findChar db cid = some ch)
    (hm : findMembership db uid ch.campaignId = some m) :
    (¬ canEditCharacter m ch uid →
      (∀ invId body, updateInventoryItem db (some uid) cid invId body =
        (.err 403 "Forbidden", db)) ∧
      (∀ orderedIds, reorderInventory db (some uid) cid orderedIds =
        (.err 403 "Forbidden", db)) ∧
      (∀ invId, setEquippedWeapon db (some uid) cid invId = (.err 403 "Forbidden", db)) ∧
      (∀ hp, updateHp db (some uid) cid hp = (.err 403 "Forbidden", db))) ∧
    (canEditCharacter m ch uid →
      (∀ invId body, (updateInventoryItem db (some uid) cid invId body).1 ≠
        .err 403 "Forbidden") ∧
      (∀ orderedIds, (reorderInventory db (some uid) cid orderedIds).1 ≠
        .err 403 "Forbidden") ∧
      (∀ invId, (setEquippedWeapon db (some uid) cid invId).1 ≠ .err 403 "Forbidden") ∧
      (∀ hp, (updateHp db (some uid) cid hp).1 ≠ .err 403 "Forbidden")) := by
  have hrcm := requireCampaignMember_found db uid ch.campaignId m huid hm
  constructor
  · intro hce
    have hb := canEditB_false m ch uid hce
    refine ⟨?_, ?_, ?_, ?_⟩
    · intro invId body
      simp [updateInventoryItem, hch, hrcm, getSessionUserId, hb]
    · intro orderedIds
      simp [reorderInventory, hch, hrcm, getSessionUserId, hb]
    · intro invId
      simp [setEquippedWeapon, hch, hrcm, getSessionUserId, hb]
    · intro hp
      simp [updateHp, hch, hrcm, getSessionUserId, hb]
  · intro hce
    have hb := canEditB_true m ch uid huid hce
    refine ⟨?_, ?_, ?_, ?_⟩
    · intro invId body
      simp only [updateInventoryItem, hch, hrcm, getSessionUserId, hb, Bool.not_true]
      try dsimp only
      repeat' split
      all_goals simp_all
    · intro orderedIds
      simp only [reorderInventory, hch, hrcm, getSessionUserId, hb, Bool.not_true]
      try dsimp only
      repeat' split
      all_goals simp_all
    · intro invId
      simp only [setEquippedWeapon, hch, hrcm, getSessionUserId, hb, Bool.not_true]
      try dsimp only
      by_cases hv : (!(invId.all fun s => decide (1 ≤ s.length))) = true
      · rw [if_pos hv]
        simp
      · rw [if_neg hv]
        cases heg : equipGuard db m ch cid invId with
        | error e =>
          try dsimp only
          intro hbad
          rw [show e = Reply.err 403 "Forbidden" from hbad] at heg
          exact equipGuard_ne_forbidden _ _ _ _ _ heg
        | ok u =>
          try dsimp only
          simp
    · intro hp
      simp only [updateHp, hch, hrcm, getSessionUserId, hb, Bool.not_true]
      try dsimp only
      repeat' split
      all_goals simp_all

/-- Concrete store for the C2 witness: campaign "C" with DM "d", owning
player "p", unrelated player "o", and a character owned by "p". -/
def chC2 : Character :=
  { id := "c1", name := "Ike", stats := .flat [("hp", 20)], ownerId := some "p",
    kind := .PLAYER, className := none, level := 1, exp := 0, weaponSkills := none,
    currentHp := 20, equippedWeaponItemId := none, campaignId := "C" }

def dbC2 : DB :=
  { memberships := [⟨"d", "C", .DM⟩, ⟨"p", "C", .PLAYER⟩, ⟨"o", "C", .PLAYER⟩],
    characters := [chC2], characterItems := [], characterSkills := [], skills := [],
    items := [], gameClasses := [], maps := [], tokens := [], rolls := [],
    tileSets := [], presets := [], auditLogs := [] }

/-- Witness for C2: the unrelated member "o" gets 403 on an HP update
with the store unchanged, while the owning player "p" and the DM "d" are
not rejected by the ownership gate. -/
theorem claim_C2_witness :
    updateHp dbC2 (some "o") "c1" 5 = (.err 403 "Forbidden", dbC2) ∧
    (updateHp dbC2 (some "p") "c1" 5).1 ≠ .err 403 "Forbidden" ∧
    (updateHp dbC2 (some "d") "c1" 5).1 ≠ .err 403 "Forbidden" :=
  ⟨((claim_C2_canEdit_rule dbC2 "o" "c1" chC2 ⟨"o", "C", .PLAYER⟩ (by decide) rfl rfl).1
      (by decide)).2.2.2 5,
    ((claim_C2_canEdit_rule dbC2 "p" "c1" chC2 ⟨"p", "C", .PLAYER⟩ (by decide) rfl rfl).2
      (by decide)).2.2.2 5,
    ((claim_C2_canEdit_rule dbC2 "d" "c1" chC2 ⟨"d", "C", .DM⟩ (by decide) rfl rfl).2
      (by decide)).2.2.2 5⟩

theorem find?_map_replace {α : Type} (key : α → String) (k : String) (g : α → α)
    (hg : ∀ x, key (g x) = key x) :
    ∀ (l : List α) (a : α), l.find? (fun x => key x == k) = some a →
      (l.map (fun x => if key x == k then g x else x)).find? (fun x => key x == k) =
        some (g a) := by
  intro l
  induction l with
  | nil => intro a h; cases h
  | cons x xs ih =>
    intro a h
    rw [List.map_cons]
    by_cases hx : (key x == k) = true
    · rw [List.find?_cons_of_pos (p := fun y => key y == k) _ hx] at h
      injection h with h
      subst h
      rw [if_pos hx]
      exact List.find?_cons_of_pos (p := fun y => key y == k) _
        (by show (key (g x) == k) = true; rw [hg]; exact hx)
    · rw [List.find?_cons_of_neg (p := fun y => key y == k) _ hx] at h
      rw [if_neg hx]
      rw [List.find?_cons_of_neg (p := fun y => key y == k) _ hx]
      exact ih a h

theorem equipGuard_nonweapon (db : DB) (m : CampaignMember) (ch : Character)
    (cid invId : String) (row : CharacterItem) (item : Item)
    (hrow : findInvRow db invId = some row) (hbel : row.characterId = cid)
    (hitem : findItem db row.itemId = some item)
    (hcat : item.category ≠ Category.WEAPON) :
    equipGuard db m ch cid (some invId) =
      .error (.err 400 "Only weapons can be equipped") := by
  unfold equipGuard
  dsimp only
  rw [hrow]
  dsimp only
  rw [if_neg (by simp [hbel]), hitem]
  dsimp only
  rw [if_pos hcat]

theorem equipGuard_laguz_forbidden (db : DB) (m : CampaignMember) (ch : Character)
    (cid invId : String) (row : CharacterItem) (item : Item) (t r : String)
    (hrow : findInvRow db invId = some row) (hbel : row.characterId = cid)
    (hitem : findItem db row.itemId = some item)
    (hcat : item.category = Category.WEAPON)
    (ht : item.itemType = some t) (htl : jsToLowerCase t = "laguz")
    (hr : item.classRestriction = some r) (hrne : r ≠ "")
    (hdm : m.role ≠ Role.DM) (hcl : ch.className ≠ some r) :
    equipGuard db m ch cid (some invId) =
      .error (.err 403 ("Laguz weapons are restricted to class: " ++ r)) := by
  unfold equipGuard
  dsimp only
  rw [hrow]
  dsimp only
  rw [if_neg (by simp [hbel]), hitem]
  dsimp only
  rw [if_neg (by simp [hcat])]
  have hcond : ((item.itemType.map (fun t => jsToLowerCase t)) == some "laguz") = true := by
    rw [ht]
    simp [htl]
  rw [if_pos hcond, hr]
  dsimp only
  rw [if_pos (by simp [hrne, hdm, hcl])]

theorem equipGuard_ok_dm (db : DB) (m : CampaignMember) (ch : Character)
    (cid invId : String) (row : CharacterItem) (item : Item)
    (hrow : findInvRow db invId = some row) (hbel : row.characterId = cid)
    (hitem : findItem db row.itemId = some item)
    (hcat : item.category = Category.WEAPON)
    (hdm : m.role = Role.DM) :
    equipGuard db m ch cid (some invId) = .ok () := by
  unfold equipGuard
  dsimp only
  rw [hrow]
  dsimp only
  rw [if_neg (by simp [hbel]), hitem]
  dsimp only
  rw [if_neg (by simp [hcat])]
  cases hres : (if ((item.itemType.map (fun t => jsToLowerCase t)) == some "laguz") = true then
      item.classRestriction else none) with
  | none => rfl
  | some r =>
    dsimp only
    rw [if_neg (by simp [hdm])]

theorem equipGuard_ok_classMatch (db : DB) (m : CampaignMember) (ch : Character)
    (cid invId : String) (row : CharacterItem) (item : Item) (r : String)
    (hrow : findInvRow db invId = some row) (hbel : row.characterId = cid)
    (hitem : findItem db row.itemId = some item)
    (hcat : item.category = Category.WEAPON)
    (hr : item.classRestriction = some r) (hcl : ch.className = some r) :
    equipGuard db m ch cid (some invId) = .ok () := by
  unfold equipGuard
  dsimp only
  rw [hrow]
  dsimp only
  rw [if_neg (by simp [hbel]), hitem]
  dsimp only
  rw [if_neg (by simp [hcat])]
  cases hres : (if ((item.itemType.map (fun t => jsToLowerCase t)) == some "laguz") = true then
      item.classRestriction else none) with
  | none => rfl
  | some r' =>
    have hrr : r' = r := by
      by_cases hcond : ((item.itemType.map (fun t => jsToLowerCase t)) == some "laguz") = true
      · rw [if_pos hcond, hr] at hres
        injection hres with h
        exact h.symm
      · rw [if_neg hcond] at hres
        cases hres
    dsimp only
    rw [if_neg (by simp [hrr, hcl])]

/-- Evaluation of PUT equipped-weapon for an authorized caller past the
zod guard: the result is decided by `equipGuard`, and on success the
character's `equippedWeaponItemId` is set and one audit entry written. -/
theorem setEquippedWeapon_eval (db : DB) (uid cid : String) (ch : Character)
    (m : CampaignMember) (invId : Option String)
    (huid : uid ≠ "") (hch : findChar db cid = some ch)
    (hm : findMembership db uid ch.campaignId = some m)
    (hce : canEditCharacter m ch uid)
    (hv : (invId.all (fun s => decide (1 ≤ s.length))) = true) :
    setEquippedWeapon db (some uid) cid invId =
      match equipGuard db m ch cid invId with
      | .error e => (e, db)
      | .ok _ =>
        (.ok, writeAuditLog
          { db with characters := db.characters.map (fun c =>
              if c.id == cid then { c with equippedWeaponItemId := invId } else c) }
          { entityType := .CHARACTER, entityId := cid, action := "EQUIPPED_WEAPON_UPDATE",
            before := .equip ch.equippedWeaponItemId, after := .equip invId,
            campaignId := ch.campaignId, userId := m.userId }) := by
  have hrcm := requireCampaignMember_found db uid ch.campaignId m huid hm
  have hb := canEditB_true m ch uid huid hce
  simp only [setEquippedWeapon, hch, hrcm, getSessionUserId, hb, Bool.not_true, hv]
  try dsimp only
  simp

theorem strLen_pos_of_ne_empty (s : String) (h : s ≠ "") : 1 ≤ s.length := by
  cases s with
  | mk data =>
    cases data with
    | nil => exact absurd rfl h
    | cons c cs =>
      simp [String.length]

/-- **C4**: for an authorized equip-weapon request with a non-null
inventory id: a non-WEAPON item is always rejected regardless of role; a
laguz item carrying a class restriction is rejected 403 for a non-DM whose
class does not match exactly, while a DM succeeds regardless of class and
a matching-class caller succeeds; a null inventory id un-equips. -/
theorem claim_C4_equip_weapon (db : DB) (uid cid : String) (ch : Character)
    (m : CampaignMember) (huid : uid ≠ "")
    (hch : findChar db cid = some ch)
    (hm : findMembership db uid ch.campaignId = some m)
    (hce : canEditCharacter m ch uid) :
    (∀ invId row item, invId ≠ "" → findInvRow db invId = some row →
      row.characterId = cid → findItem db row.itemId = some item →
      item.category ≠ Category.WEAPON →
      setEquippedWeapon db (some uid) cid (some invId) =
        (.err 400 "Only weapons can be equipped", db)) ∧
    (∀ invId row item t r, invId ≠ "" → findInvRow db invId = some row →
      row.characterId = cid → findItem db row.itemId = some item →
      item.category = Category.WEAPON → item.itemType = some t → jsToLowerCase t = "laguz" →
      item.classRestriction = some r → r ≠ "" → m.role ≠ Role.DM →
      ch.className ≠ some r →
      setEquippedWeapon db (some uid) cid (some invId) =
        (.err 403 ("Laguz weapons are restricted to class: " ++ r), db)) ∧
    (∀ invId row item, invId ≠ "" → findInvRow db invId = some row →
      row.characterId = cid → findItem db row.itemId = some item →
      item.category = Category.WEAPON → m.role = Role.DM →
      (setEquippedWeapon db (some uid) cid (some invId)).1 = .ok ∧
      findChar (setEquippedWeapon db (some uid) cid (some invId)).2 cid =
        some { ch with equippedWeaponItemId := some invId }) ∧
    (∀ invId row item r, invId ≠ "" → findInvRow db invId = some row →
      row.characterId = cid → findItem db row.itemId = some item →
      item.category = Category.WEAPON → item.classRestriction = some r →
      ch.className = some r →
      (setEquippedWeapon db (some uid) cid (some invId)).1 = .ok ∧
      findChar (setEquippedWeapon db (some uid) cid (some invId)).2 cid =
        some { ch with equippedWeaponItemId := some invId }) ∧
    ((setEquippedWeapon db (some uid) cid none).1 = .ok ∧
      findChar (setEquippedWeapon db (some uid) cid none).2 cid =
        some { ch with equippedWeaponItemId := none }) := by
  refine ⟨?_, ?_, ?_, ?_, ?_⟩
  · intro invId row item hne hrow hbel hitem hcat
    have hv : ((some invId).all fun s => decide (1 ≤ s.length)) = true := by
      simp [strLen_pos_of_ne_empty invId hne]
    rw [setEquippedWeapon_eval db uid cid ch m (some invId) huid hch hm hce hv,
      equipGuard_nonweapon db m ch cid invId row item hrow hbel hitem hcat]
  · intro invId row item t r hne hrow hbel hitem hcat ht htl hr hrne hdm hcl
    have hv : ((some invId).all fun s => decide (1 ≤ s.length)) = true := by
      simp [strLen_pos_of_ne_empty invId hne]
    rw [setEquippedWeapon_eval db uid cid ch m (some invId) huid hch hm hce hv,
      equipGuard_laguz_forbidden db m ch cid invId row item t r hrow hbel hitem hcat
        ht htl hr hrne hdm hcl]
  · intro invId row item hne hrow hbel hitem hcat hdm
    have hv : ((some invId).all fun s => decide (1 ≤ s.length)) = true := by
      simp [strLen_pos_of_ne_empty invId hne]
    rw [setEquippedWeapon_eval db uid cid ch m (some invId) huid hch hm hce hv,
      equipGuard_ok_dm db m ch cid invId row item hrow hbel hitem hcat hdm]
    refine ⟨rfl, ?_⟩
    unfold findChar writeAuditLog
    exact find?_map_replace Character.id cid
      (fun c => { c with equippedWeaponItemId := some invId }) (fun c => rfl)
      db.characters ch hch
  · intro invId row item r hne hrow hbel hitem hcat hr hcl
    have hv : ((some invId).all fun s => decide (1 ≤ s.length)) = true := by
      simp [strLen_pos_of_ne_empty invId hne]
    rw [setEquippedWeapon_eval db uid cid ch m (some invId) huid hch hm hce hv,
      equipGuard_ok_classMatch db m ch cid invId row item r hrow hbel hitem hcat hr hcl]
    refine ⟨rfl, ?_⟩
    unfold findChar writeAuditLog
    exact find?_map_replace Character.id cid
      (fun c => { c with equippedWeaponItemId := some invId }) (fun c => rfl)
      db.characters ch hch
  · have hv : ((none : Option String).all fun s => decide (1 ≤ s.length)) = true := rfl
    rw [setEquippedWeapon_eval db uid cid ch m none huid hch hm hce hv]
    refine ⟨rfl, ?_⟩
    unfold findChar writeAuditLog
    exact find?_map_replace Character.id cid
      (fun c => { c with equippedWeaponItemId := none }) (fun c => rfl)
      db.characters ch hch

/-- Concrete store for the C4 witness: a vulnerary (non-weapon), a
laguz-restricted weapon, a Cat-class and a Wolf-class character of player
"p", and a DM "d". -/
def chC4a : Character :=
  { id := "c1", name := "Ranulf", stats := .flat [("hp", 30)], ownerId := some "p",
    kind := .PLAYER, className := some "Cat", level := 1, exp := 0, weaponSkills := none,
    currentHp := 30, equippedWeaponItemId := none, campaignId := "C" }

def chC4b : Character :=
  { id := "c2", name := "Volug", stats := .flat [("hp", 35)], ownerId := some "p",
    kind := .PLAYER, className := some "Wolf", level := 1, exp := 0, weaponSkills := none,
    currentHp := 35, equippedWeaponItemId := none, campaignId := "C" }

def itmC4a : Item :=
  { id := "i1", name := "Vulnerary", category := .ITEM, itemType := none,
    classRestriction := none, uses := some 3 }

def itmC4b : Item :=
  { id := "i2", name := "Wolf Fang", category := .WEAPON, itemType := some "laguz",
    classRestriction := some "Wolf", uses := none }

def dbC4 : DB :=
  { memberships := [⟨"d", "C", .DM⟩, ⟨"p", "C", .PLAYER⟩],
    characters := [chC4a, chC4b],
    characterItems := [⟨"r1", "c1", "i1", 0, some 3, false⟩,
      ⟨"r2", "c1", "i2", 1, none, false⟩, ⟨"r3", "c2", "i2", 0, none, false⟩],
    characterSkills := [], skills := [], items := [itmC4a, itmC4b], gameClasses := [],
    maps := [], tokens := [], rolls := [], tileSets := [], presets := [],
    auditLogs := [] }

/-- Witness for C4 at a concrete store: equipping a non-weapon fails 400
even for the DM; the Cat-class player is rejected 403 on the Wolf-restricted
laguz weapon; the DM equips it anyway; the Wolf-class player equips it;
and a null id un-equips. -/
theorem claim_C4_witness :
    setEquippedWeapon dbC4 (some "d") "c1" (some "r1") =
      (.err 400 "Only weapons can be equipped", dbC4) ∧
    setEquippedWeapon dbC4 (some "p") "c1" (some "r2") =
      (.err 403 "Laguz weapons are restricted to class: Wolf", dbC4) ∧
    (setEquippedWeapon dbC4 (some "d") "c1" (some "r2")).1 = .ok ∧
    (setEquippedWeapon dbC4 (some "p") "c2" (some "r3")).1 = .ok ∧
    (setEquippedWeapon dbC4 (some "p") "c1" none).1 = .ok := by
  have hd := claim_C4_equip_weapon dbC4 "d" "c1" chC4a ⟨"d", "C", .DM⟩
    (by decide) rfl rfl (by decide)
  have hp := claim_C4_equip_weapon dbC4 "p" "c1" chC4a ⟨"p", "C", .PLAYER⟩
    (by decide) rfl rfl (by decide)
  have hp2 := claim_C4_equip_weapon dbC4 "p" "c2" chC4b ⟨"p", "C", .PLAYER⟩
    (by decide) rfl rfl (by decide)
  refine ⟨?_, ?_, ?_, ?_, ?_⟩
  · exact hd.1 "r1" ⟨"r1", "c1", "i1", 0, some 3, false⟩ itmC4a (by decide) rfl rfl rfl
      (by decide)
  · exact hp.2.1 "r2" ⟨"r2", "c1", "i2", 1, none, false⟩ itmC4b "laguz" "Wolf"
      (by decide) rfl rfl rfl rfl rfl (by decide) rfl (by decide) (by decide) (by decide)
  · exact (hd.2.2.1 "r2" ⟨"r2", "c1", "i2", 1, none, false⟩ itmC4b (by decide) rfl rfl rfl
      rfl rfl).1
  · exact (hp2.2.2.2.1 "r3" ⟨"r3", "c2", "i2", 0, none, false⟩ itmC4b "Wolf" (by decide)
      rfl rfl rfl rfl rfl rfl).1
  · exact hp.2.2.2.2.1

/-- Evaluation of PATCH hp for an authorized caller and a non-negative
value: `currentHp` is replaced on the stored row and one audit entry is
written. -/
theorem updateHp_eval (db : DB) (uid cid : String) (ch : Character)
    (m : CampaignMember) (hp : Int) (huid : uid ≠ "")
    (hch : findChar db cid = some ch)
    (hm : findMembership db uid ch.campaignId = some m)
    (hce : canEditCharacter m ch uid) (hhp : 0 ≤ hp) :
    updateHp db (some uid) cid hp =
      (.ok, writeAuditLog
        { db with characters := db.characters.map (fun c =>
            if c.id == cid then { c with currentHp := hp } else c) }
        { entityType := .CHARACTER, entityId := cid, action := "HP_UPDATE",
          before := .hp ch.currentHp, after := .hp hp,
          campaignId := ch.campaignId, userId := m.userId }) := by
  have hrcm := requireCampaignMember_found db uid ch.campaignId m huid hm
  have hb := canEditB_true m ch uid huid hce
  simp only [updateHp, hch, hrcm, getSessionUserId, hb, Bool.not_true]
  simp [hhp]

/-- **C10**: a successful HP update sets exactly `currentHp` to the
submitted value; every other field of the character, every other
character, and the character's inventory rows and skill links are
unchanged. -/
theorem claim_C10_hp_frame (db : DB) (uid cid : String) (ch : Character)
    (m : CampaignMember) (hp : Int) (huid : uid ≠ "")
    (hch : findChar db cid = some ch)
    (hm : findMembership db uid ch.campaignId = some m)
    (hce : canEditCharacter m ch uid) (hhp : 0 ≤ hp) :
    (updateHp db (some uid) cid hp).1 = .ok ∧
    findChar (updateHp db (some uid) cid hp).2 cid = some { ch with currentHp := hp } ∧
    (updateHp db (some uid) cid hp).2.characters =
      db.characters.map (fun c => if c.id == cid then { c with currentHp := hp } else c) ∧
    (∀ c : Character, ({ c with currentHp := hp } : Character).name = c.name ∧
      ({ c with currentHp := hp } : Character).stats = c.stats ∧
      ({ c with currentHp := hp } : Character).ownerId = c.ownerId ∧
      ({ c with currentHp := hp } : Character).kind = c.kind ∧
      ({ c with currentHp := hp } : Character).className = c.className ∧
      ({ c with currentHp := hp } : Character).level = c.level ∧
      ({ c with currentHp := hp } : Character).exp = c.exp ∧
      ({ c with currentHp := hp } : Character).weaponSkills = c.weaponSkills ∧
      ({ c with currentHp := hp } : Character).equippedWeaponItemId =
        c.equippedWeaponItemId ∧
      ({ c with currentHp := hp } : Character).campaignId = c.campaignId ∧
      ({ c with currentHp := hp } : Character).currentHp = hp) ∧
    (updateHp db (some uid) cid hp).2.characterItems = db.characterItems ∧
    (updateHp db (some uid) cid hp).2.characterSkills = db.characterSkills := by
  have heval := updateHp_eval db uid cid ch m hp huid hch hm hce hhp
  refine ⟨by rw [heval], ?_, by rw [heval]; rfl, ?_, ?_, ?_⟩
  · rw [heval]
    unfold findChar writeAuditLog
    exact find?_map_replace Character.id cid
      (fun c => { c with currentHp := hp }) (fun c => rfl) db.characters ch hch
  · intro c
    exact ⟨rfl, rfl, rfl, rfl, rfl, rfl, rfl, rfl, rfl, rfl, rfl⟩
  · exact updateHp_characterItems db (some uid) cid hp
  · exact updateHp_characterSkills db (some uid) cid hp

/-- Concrete store for the C10 witness. -/
def chC10 : Character :=
  { id := "c1", name := "Ike", stats := .flat [("hp", 20)], ownerId := some "p",
    kind := .PLAYER, className := none, level := 3, exp := 10, weaponSkills := none,
    currentHp := 20, equippedWeaponItemId := none, campaignId := "C" }

def dbC10 : DB :=
  { memberships := [⟨"p", "C", .PLAYER⟩], characters := [chC10],
    characterItems := [⟨"r1", "c1", "i1", 0, some 3, false⟩], characterSkills := [],
    skills := [], items := [], gameClasses := [], maps := [], tokens := [], rolls := [],
    tileSets := [], presets := [], auditLogs := [] }

/-- Witness for C10 at a concrete store. -/
theorem claim_C10_witness :
    (updateHp dbC10 (some "p") "c1" 7).1 = .ok ∧
    findChar (updateHp dbC10 (some "p") "c1" 7).2 "c1" =
      some { chC10 with currentHp := 7 } ∧
    (updateHp dbC10 (some "p") "c1" 7).2.characterItems = dbC10.characterItems ∧
    (updateHp dbC10 (some "p") "c1" 7).2.characterSkills = dbC10.characterSkills := by
  have h := claim_C10_hp_frame dbC10 "p" "c1" chC10 ⟨"p", "C", .PLAYER⟩ 7
    (by decide) rfl rfl (by decide) (by decide)
  exact ⟨h.1, h.2.1, h.2.2.2.2.1, h.2.2.2.2.2⟩

/-! ## Dice arithmetic -/

theorem rollDie_ge_one (r : ℚ) (h0 : 0 ≤ r) : 1 ≤ rollDie 100 r := by
  unfold rollDie
  have : (0:ℤ) ≤ ⌊r * ((100:ℤ):ℚ)⌋ := Int.floor_nonneg.mpr (by positivity)
  omega

theorem rollDie_le_hundred (r : ℚ) (h1 : r < 1) : rollDie 100 r ≤ 100 := by
  unfold rollDie
  have : ⌊r * ((100:ℤ):ℚ)⌋ < 100 := by
    apply Int.floor_lt.mpr
    push_cast
    nlinarith
  omega

theorem jsRound_mean_bounds (a b : ℤ) (ha1 : 1 ≤ a) (ha2 : a ≤ 100)
    (hb1 : 1 ≤ b) (hb2 : b ≤ 100) :
    1 ≤ jsRound (((a + b : ℤ) : ℚ) / 2) ∧ jsRound (((a + b : ℤ) : ℚ) / 2) ≤ 100 := by
  unfold jsRound
  constructor
  · apply Int.le_floor.mpr
    qify at ha1 ha2 hb1 hb2
    push_cast
    linarith
  · have : ⌊(((a + b : ℤ) : ℚ) / 2 + 1/2)⌋ < 101 := by
      apply Int.floor_lt.mpr
      qify at ha1 ha2 hb1 hb2
      push_cast
      linarith
    omega

/-- **C9**: a REGULAR roll persists a single d100 value in [1,100]; a
COMBAT roll persists round((a+b)/2) (round-half-up) of its two
independent d100 draws, also in [1,100]; the derived result is always
persisted in the created MapRollLog row. -/
theorem claim_C9_roll_result (db : DB) (uid mid : String) (mp : GameMap)
    (m : CampaignMember) (ra rb : ℚ)
    (huid : uid ≠ "") (hmap : findMap db mid = some mp)
    (hm : findMembership db uid mp.campaignId = some m)
    (hra0 : 0 ≤ ra) (hra1 : ra < 1) (hrb0 : 0 ≤ rb) (hrb1 : rb < 1) :
    ((createRoll db (some uid) mid RollType.REGULAR ra rb).1 = .ok ∧
      (createRoll db (some uid) mid RollType.REGULAR ra rb).2.rolls =
        db.rolls ++ [{ mapId := mid, userId := m.userId, rollType := .REGULAR,
                       result := rollDie 100 ra }] ∧
      1 ≤ rollDie 100 ra ∧ rollDie 100 ra ≤ 100) ∧
    ((createRoll db (some uid) mid RollType.COMBAT ra rb).1 = .ok ∧
      (createRoll db (some uid) mid RollType.COMBAT ra rb).2.rolls =
        db.rolls ++ [{ mapId := mid, userId := m.userId, rollType := .COMBAT,
                       result := jsRound (((rollDie 100 ra + rollDie 100 rb : ℤ) : ℚ) / 2) }] ∧
      1 ≤ jsRound (((rollDie 100 ra + rollDie 100 rb : ℤ) : ℚ) / 2) ∧
      jsRound (((rollDie 100 ra + rollDie 100 rb : ℤ) : ℚ) / 2) ≤ 100) := by
  have hrcm := requireCampaignMember_found db uid mp.campaignId m huid hm
  have hbound := jsRound_mean_bounds (rollDie 100 ra) (rollDie 100 rb)
    (rollDie_ge_one ra hra0) (rollDie_le_hundred ra hra1)
    (rollDie_ge_one rb hrb0) (rollDie_le_hundred rb hrb1)
  refine ⟨⟨?_, ?_, rollDie_ge_one ra hra0, rollDie_le_hundred ra hra1⟩,
    ⟨?_, ?_, hbound.1, hbound.2⟩⟩
  · simp [createRoll, hmap, hrcm]
  · simp [createRoll, hmap, hrcm]
  · simp [createRoll, hmap, hrcm]
  · simp [createRoll, hmap, hrcm]

/-- Concrete store for the C9 witness. -/
def mapC9 : GameMap :=
  { id := "m1", name := "Field", imageUrl := some "a", gridSizeX := 50, gridSizeY := 50,
    gridOffsetX := 0, gridOffsetY := 0, tileCountX := 10, tileCountY := 10,
    tileGrid := none, campaignId := "C" }

def dbC9 : DB :=
  { memberships := [⟨"u", "C", .PLAYER⟩], characters := [], characterItems := [],
    characterSkills := [], skills := [], items := [], gameClasses := [], maps := [mapC9],
    tokens := [], rolls := [], tileSets := [], presets := [], auditLogs := [] }

/-- Witness for C9 at a concrete store and concrete random draws. -/
theorem claim_C9_witness :
    (createRoll dbC9 (some "u") "m1" RollType.REGULAR (1/2) (9/10)).1 = .ok ∧
    (createRoll dbC9 (some "u") "m1" RollType.COMBAT (1/2) (9/10)).2.rolls =
      dbC9.rolls ++ [{ mapId := "m1", userId := "u", rollType := .COMBAT,
                       result := jsRound (((rollDie 100 (1/2) + rollDie 100 (9/10) : ℤ) : ℚ) / 2) }] ∧
    1 ≤ jsRound (((rollDie 100 (1/2) + rollDie 100 (9/10) : ℤ) : ℚ) / 2) ∧
    jsRound (((rollDie 100 (1/2) + rollDie 100 (9/10) : ℤ) : ℚ) / 2) ≤ 100 := by
  have h := claim_C9_roll_result dbC9 "u" "m1" mapC9 ⟨"u", "C", .PLAYER⟩ (1/2) (9/10)
    (by decide) rfl rfl (by norm_num) (by norm_num) (by norm_num) (by norm_num)
  exact ⟨h.1.1, h.2.2.1, h.2.2.2.1, h.2.2.2.2⟩

theorem assertGridSize_ok_iff (g : TileGrid) (r c : Int) :
    assertGridSize g r c = .ok () ↔
      ((g.length : Int) = r ∧ ∀ row ∈ g, (row.length : Int) = c) := by
  unfold assertGridSize
  constructor
  · intro h
    split at h
    · cases h
    · split at h
      · cases h
      · rename_i h1 h2
        push_neg at h1
        refine ⟨h1, ?_⟩
        intro row hrow
        by_contra hne
        exact h2 (List.any_eq_true.mpr ⟨row, hrow, by simpa using hne⟩)
  · rintro ⟨h1, h2⟩
    have hA : ¬(g.any (fun row => decide ((row.length : Int) ≠ c)) = true) := by
      intro hany
      rw [List.any_eq_true] at hany
      obtain ⟨row, hrow, hne⟩ := hany
      exact (by simpa using hne : (row.length : Int) ≠ c) (h2 row hrow)
    rw [if_neg (by simp [h1]), if_neg hA]

theorem assertGridSize_buildEmpty (r c : Int) (hr : 0 ≤ r) (hc : 0 ≤ c) :
    assertGridSize (buildEmptyGrid r c) r c = .ok () := by
  rw [assertGridSize_ok_iff]
  unfold buildEmptyGrid
  constructor
  · rw [List.length_replicate]
    exact Int.toNat_of_nonneg hr
  · intro row hrow
    rw [List.eq_of_mem_replicate hrow, List.length_replicate]
    exact Int.toNat_of_nonneg hc

/-- **C7**: a map create or update whose effective tile grid (submitted,
or on update the stored one) disagrees with the effective tileCountY /
tileCountX is rejected with a 400 and no record written or changed; a
create with no grid supplied synthesizes an all-null tileCountY ×
tileCountX grid, with counts defaulting to 10×10 and cell size 50×50. -/
theorem claim_C7_map_grid (db : DB) (uid : String) (m : CampaignMember) (huid : uid ≠ "") :
    (∀ g r c, assertGridSize g r c = .ok () ↔
      ((g.length : Int) = r ∧ ∀ row ∈ g, (row.length : Int) = c)) ∧
    (∀ cid (body : MapCreateBody) newId e, findMembership db uid cid = some m →
      m.role = Role.DM → body.valid = true →
      assertGridSize (body.tileGrid.getD
          (buildEmptyGrid (body.tileCountY.getD 10) (body.tileCountX.getD 10)))
        (body.tileCountY.getD 10) (body.tileCountX.getD 10) = .error e →
      createMap db (some uid) cid body newId = (.err 400 e, db)) ∧
    (∀ mid mp (body : MapUpdateBody) e g, findMap db mid = some mp →
      findMembership db uid mp.campaignId = some m → m.role = Role.DM →
      body.valid = true → orO body.tileGrid mp.tileGrid = some g →
      assertGridSize g (body.tileCountY.getD mp.tileCountY)
        (body.tileCountX.getD mp.tileCountX) = .error e →
      updateMap db (some uid) mid body = (.err 400 e, db)) ∧
    (∀ cid (body : MapCreateBody) newId, findMembership db uid cid = some m →
      m.role = Role.DM → body.valid = true → body.tileGrid = none →
      (createMap db (some uid) cid body newId).1 = .ok ∧
      (createMap db (some uid) cid body newId).2.maps = db.maps ++
        [{ id := newId, name := body.name, imageUrl := body.imageUrl,
           gridSizeX := body.gridSizeX.getD 50, gridSizeY := body.gridSizeY.getD 50,
           gridOffsetX := body.gridOffsetX.getD 0, gridOffsetY := body.gridOffsetY.getD 0,
           tileCountX := body.tileCountX.getD 10, tileCountY := body.tileCountY.getD 10,
           tileGrid := some (buildEmptyGrid (body.tileCountY.getD 10)
             (body.tileCountX.getD 10)),
           campaignId := cid }]) ∧
    buildEmptyGrid 10 10 = List.replicate 10 (List.replicate 10 none) := by
  refine ⟨fun g r c => assertGridSize_ok_iff g r c, ?_, ?_, ?_, rfl⟩
  · intro cid body newId e hm hrole hval herr
    have hrdm := requireDM_found_dm db uid cid m huid hm hrole
    simp only [createMap, hrdm, hval, Bool.not_true]
    try dsimp only
    simp [herr]
  · intro mid mp body e g hmap hm hrole hval horO herr
    have hrdm := requireDM_found_dm db uid mp.campaignId m huid hm hrole
    simp only [updateMap, hmap, hrdm, hval, Bool.not_true]
    try dsimp only
    simp [horO, herr]
  · intro cid body newId hm hrole hval hnog
    have hrdm := requireDM_found_dm db uid cid m huid hm hrole
    have hy : 0 ≤ body.tileCountY.getD 10 := by
      unfold MapCreateBody.valid at hval
      simp only [Bool.and_eq_true] at hval
      obtain ⟨⟨⟨⟨⟨⟨_, _⟩, _⟩, hcy⟩, _⟩, _⟩, _⟩ := hval
      cases hby : body.tileCountY with
      | none => norm_num
      | some n =>
        rw [hby] at hcy
        simp at hcy
        rw [Option.getD_some]
        omega
    have hx : 0 ≤ body.tileCountX.getD 10 := by
      unfold MapCreateBody.valid at hval
      simp only [Bool.and_eq_true] at hval
      obtain ⟨⟨⟨⟨⟨⟨_, _⟩, hcx⟩, _⟩, _⟩, _⟩, _⟩ := hval
      cases hbx : body.tileCountX with
      | none => norm_num
      | some n =>
        rw [hbx] at hcx
        simp at hcx
        rw [Option.getD_some]
        omega
    have hok := assertGridSize_buildEmpty (body.tileCountY.getD 10)
      (body.tileCountX.getD 10) hy hx
    simp only [createMap, hrdm, hval, Bool.not_true, hnog, Option.getD_none]
    try dsimp only
    simp only [hok]
    exact ⟨rfl, rfl⟩

/-- Concrete store for the C7 witness. -/
def mapC7 : GameMap :=
  { id := "m1", name := "Field", imageUrl := none, gridSizeX := 50, gridSizeY := 50,
    gridOffsetX := 0, gridOffsetY := 0, tileCountX := 10, tileCountY := 10,
    tileGrid := some (buildEmptyGrid 10 10), campaignId := "C" }

def dbC7 : DB :=
  { memberships := [⟨"d", "C", .DM⟩], characters := [], characterItems := [],
    characterSkills := [], skills := [], items := [], gameClasses := [], maps := [mapC7],
    tokens := [], rolls := [], tileSets := [], presets := [], auditLogs := [] }

def bodyC7bad : MapCreateBody :=
  { name := "Map01", imageUrl := some "a", tileCountX := none, tileCountY := none,
    tileGrid := some [[none]], gridSizeX := none, gridSizeY := none,
    gridOffsetX := none, gridOffsetY := none }

def bodyC7upd : MapUpdateBody :=
  { imageUrl := none, tileCountX := none, tileCountY := some 12, tileGrid := none,
    gridSizeX := none, gridSizeY := none, gridOffsetX := none, gridOffsetY := none }

def bodyC7ok : MapCreateBody :=
  { name := "Map02", imageUrl := some "a", tileCountX := none, tileCountY := none,
    tileGrid := none, gridSizeX := none, gridSizeY := none,
    gridOffsetX := none, gridOffsetY := none }

/-- Witness for C7 at a concrete store: a 1×1 grid against the default
10×10 counts is rejected on create; raising tileCountY to 12 with the
stored 10×10 grid is rejected on update; a gridless create synthesizes
the default 10×10 all-null grid with 50×50 cell size. -/
theorem claim_C7_witness :
    createMap dbC7 (some "d") "C" bodyC7bad "m2" =
      (.err 400 "Tile grid row count does not match tileCountY", dbC7) ∧
    updateMap dbC7 (some "d") "m1" bodyC7upd =
      (.err 400 "Tile grid row count does not match tileCountY", dbC7) ∧
    (createMap dbC7 (some "d") "C" bodyC7ok "m3").1 = .ok ∧
    (createMap dbC7 (some "d") "C" bodyC7ok "m3").2.maps = dbC7.maps ++
      [{ id := "m3", name := "Map02", imageUrl := some "a",
         gridSizeX := 50, gridSizeY := 50, gridOffsetX := 0, gridOffsetY := 0,
         tileCountX := 10, tileCountY := 10,
         tileGrid := some (buildEmptyGrid 10 10), campaignId := "C" }] := by
  have h := claim_C7_map_grid dbC7 "d" ⟨"d", "C", .DM⟩ (by decide)
  have hok := h.2.2.2.1 "C" bodyC7ok "m3" rfl rfl (by decide) rfl
  refine ⟨h.2.1 "C" bodyC7bad "m2" "Tile grid row count does not match tileCountY"
      rfl rfl (by decide) rfl,
    h.2.2.1 "m1" mapC7 bodyC7upd "Tile grid row count does not match tileCountY"
      (buildEmptyGrid 10 10) rfl rfl rfl (by decide) rfl rfl,
    hok.1, hok.2⟩

/-- **C5**: no character ever holds more than 8 inventory rows — an add
at 8 rows is rejected with the capacity error and an unchanged store,
every other modelled operation preserves the bound, and a successful add
appends a row whose sortOrder is one past the current maximum (or 0 when
the inventory is empty). -/
theorem claim_C5_inventory_cap (db : DB) (uid cid : String) (ch : Character)
    (m : CampaignMember) (huid : uid ≠ "")
    (hch : findChar db cid = some ch)
    (hm : findMembership db uid ch.campaignId = some m) (hrole : m.role = Role.DM) :
    (∀ db1 db2, Step db1 db2 → Inv8 db1 → Inv8 db2) ∧
    (∀ (body : InventoryAddBody) item newId, body.valid = true →
      findItem db body.itemId = some item → (invOf db cid).length = 8 →
      addInventory db (some uid) cid body newId = (.err 400 "Inventory is full", db)) ∧
    (∀ (body : InventoryAddBody) item newId, body.valid = true →
      findItem db body.itemId = some item → (invOf db cid).length < 8 →
      (addInventory db (some uid) cid body newId).1 = .ok ∧
      (addInventory db (some uid) cid body newId).2.characterItems =
        db.characterItems ++
          [{ id := newId, characterId := cid, itemId := body.itemId,
             sortOrder :=
               (listMax ((invOf db cid).map (fun it => it.sortOrder))).getD (-1) + 1,
             uses := orO body.uses item.uses, blessed := false }] ∧
      (invOf db cid = [] →
        (listMax ((invOf db cid).map (fun it => it.sortOrder))).getD (-1) + 1 = 0)) := by
  have hrdm := requireDM_found_dm db uid ch.campaignId m huid hm hrole
  refine ⟨fun db1 db2 hstep h8 => step_preserves_inv8 hstep h8, ?_, ?_⟩
  · intro body item newId hval hitem hcount
    simp only [addInventory, hch, hrdm, hval, Bool.not_true]
    try dsimp only
    simp [hitem, hcount]
  · intro body item newId hval hitem hcount
    simp only [addInventory, hch, hrdm, hval, Bool.not_true]
    try dsimp only
    simp only [hitem]
    rw [if_neg (by simp), if_neg (by omega)]
    exact ⟨rfl, rfl, fun h => by rw [h]; decide⟩

/-- Concrete store for the C5 witness: character "c1" already holds 8
rows, character "c2" holds none. -/
def chC5a : Character :=
  { id := "c1", name := "Ike", stats := .flat [("hp", 20)], ownerId := none,
    kind := .NPC, className := none, level := 1, exp := 0, weaponSkills := none,
    currentHp := 20, equippedWeaponItemId := none, campaignId := "C" }

def chC5b : Character :=
  { id := "c2", name := "Soren", stats := .flat [("hp", 18)], ownerId := none,
    kind := .NPC, className := none, level := 1, exp := 0, weaponSkills := none,
    currentHp := 18, equippedWeaponItemId := none, campaignId := "C" }

def itmC5 : Item :=
  { id := "i1", name := "Vulnerary", category := .ITEM, itemType := none,
    classRestriction := none, uses := some 3 }

def dbC5 : DB :=
  { memberships := [⟨"d", "C", .DM⟩], characters := [chC5a, chC5b],
    characterItems := [⟨"r1", "c1", "i1", 0, none, false⟩, ⟨"r2", "c1", "i1", 1, none, false⟩,
      ⟨"r3", "c1", "i1", 2, none, false⟩, ⟨"r4", "c1", "i1", 3, none, false⟩,
      ⟨"r5", "c1", "i1", 4, none, false⟩, ⟨"r6", "c1", "i1", 5, none, false⟩,
      ⟨"r7", "c1", "i1", 6, none, false⟩, ⟨"r8", "c1", "i1", 7, none, false⟩],
    characterSkills := [], skills := [], items := [itmC5], gameClasses := [], maps := [],
    tokens := [], rolls := [], tileSets := [], presets := [], auditLogs := [] }

/-- Witness for C5 at a concrete store: the ninth add on "c1" is rejected
with the capacity error and an unchanged store, while an add on the empty
inventory of "c2" succeeds. -/
theorem claim_C5_witness :
    addInventory dbC5 (some "d") "c1" ⟨"i1", none⟩ "r9" =
      (.err 400 "Inventory is full", dbC5) ∧
    (addInventory dbC5 (some "d") "c2" ⟨"i1", none⟩ "r9").1 = .ok ∧
    (addInventory dbC5 (some "d") "c2" ⟨"i1", none⟩ "r9").2.characterItems =
      dbC5.characterItems ++
        [{ id := "r9", characterId := "c2", itemId := "i1",
           sortOrder :=
             (listMax ((invOf dbC5 "c2").map (fun it => it.sortOrder))).getD (-1) + 1,
           uses := orO none itmC5.uses, blessed := false }] := by
  have h1 := claim_C5_inventory_cap dbC5 "d" "c1" chC5a ⟨"d", "C", .DM⟩
    (by decide) rfl rfl rfl
  have h2 := claim_C5_inventory_cap dbC5 "d" "c2" chC5b ⟨"d", "C", .DM⟩
    (by decide) rfl rfl rfl
  have hfull := h1.2.1 ⟨"i1", none⟩ itmC5 "r9" (by decide) rfl (by decide)
  have hokk := h2.2.2 ⟨"i1", none⟩ itmC5 "r9" (by decide) rfl (by decide)
  exact ⟨hfull, hokk.1, hokk.2.1⟩

/-- C6: at most one token per character.  Every modelled operation preserves
the one-token-per-character invariant; a token create whose character already
has a token anywhere is rejected with no mutation, as is a create whose
character belongs to a different campaign than the map; and a token update
that re-binds to a different character re-validates both conditions (same
campaign, no existing token) before mutating. -/
theorem claim_C6_one_token_per_character (db : DB) (uid : String) (huid : uid ≠ "") :
    (∀ db1 db2 : DB, Step db1 db2 → OneTokenPerCharacter db1 → OneTokenPerCharacter db2) ∧
    (∀ (id : String) (body : TokenCreateBody) (newId : String) (mp : GameMap)
        (m : CampaignMember) (ch : Character),
      findMap db id = some mp →
      findMembership db uid mp.campaignId = some m → m.role = Role.DM →
      body.valid = true →
      findChar db body.characterId = some ch →
      (ch.campaignId ≠ mp.campaignId →
        createToken db (some uid) id body newId =
          (.err 400 "Character not found in campaign", db)) ∧
      (ch.campaignId = mp.campaignId →
        ∀ t, findTokenByCharacter db body.characterId = some t →
          createToken db (some uid) id body newId =
            (.err 400 "Character already has a token", db))) ∧
    (∀ (id : String) (body : TokenUpdateBody) (existing : Token) (mp : GameMap)
        (m : CampaignMember) (cid : String),
      findToken db id = some existing →
      findMap db existing.mapId = some mp →
      findMembership db uid mp.campaignId = some m → m.role = Role.DM →
      body.valid = true →
      body.characterId = some cid → cid ≠ existing.characterId →
      (findChar db cid = none →
        updateToken db (some uid) id body =
          (.err 400 "Character not found in campaign", db)) ∧
      (∀ ch, findChar db cid = some ch →
        (ch.campaignId ≠ mp.campaignId →
          updateToken db (some uid) id body =
            (.err 400 "Character not found in campaign", db)) ∧
        (ch.campaignId = mp.campaignId →
          ∀ t, findTokenByCharacter db cid = some t →
            updateToken db (some uid) id body =
              (.err 400 "Character already has a token", db)))) := by
  refine ⟨fun db1 db2 hstep hotp => step_preserves_otp hstep hotp, ?_, ?_⟩
  · intro id body newId mp m ch hmap hm hrole hval hch
    have hrdm := requireDM_found_dm db uid mp.campaignId m huid hm hrole
    constructor
    · intro hne
      simp only [createToken, hmap, hrdm, hval, Bool.not_true]
      try dsimp only
      simp [hch, hne]
    · intro heq t ht
      simp only [createToken, hmap, hrdm, hval, Bool.not_true]
      try dsimp only
      simp [hch, heq, ht]
  · intro id body existing mp m cid hft hfm hm hrole hval hbc hcid
    have hrdm := requireDM_found_dm db uid mp.campaignId m huid hm hrole
    constructor
    · intro hnone
      simp only [updateToken, hft, hfm, hrdm, hval, Bool.not_true]
      try dsimp only
      simp [rebindGuard, hbc, hcid, hnone]
    · intro ch hch
      constructor
      · intro hne
        simp only [updateToken, hft, hfm, hrdm, hval, Bool.not_true]
        try dsimp only
        simp [rebindGuard, hbc, hcid, hch, hne]
      · intro heq t ht
        simp only [updateToken, hft, hfm, hrdm, hval, Bool.not_true]
        try dsimp only
        simp [rebindGuard, hbc, hcid, hch, heq, ht]

/-- Concrete store for the C6 witness: map "m1" in campaign "C"; characters
"c1" and "c2" in "C" (each already bearing a token) and "c3" in campaign "X". -/
def chC6a : Character :=
  { id := "c1", name := "Ike", stats := .flat [("hp", 20)], ownerId := none,
    kind := .NPC, className := none, level := 1, exp := 0, weaponSkills := none,
    currentHp := 20, equippedWeaponItemId := none, campaignId := "C" }

def chC6b : Character :=
  { id := "c2", name := "Soren", stats := .flat [("hp", 18)], ownerId := none,
    kind := .NPC, className := none, level := 1, exp := 0, weaponSkills := none,
    currentHp := 18, equippedWeaponItemId := none, campaignId := "C" }

def chC6c : Character :=
  { id := "c3", name := "Mist", stats := .flat [("hp", 16)], ownerId := none,
    kind := .NPC, className := none, level := 1, exp := 0, weaponSkills := none,
    currentHp := 16, equippedWeaponItemId := none, campaignId := "X" }

def mpC6 : GameMap :=
  { id := "m1", name := "Plains", imageUrl := none, gridSizeX := 50, gridSizeY := 50,
    gridOffsetX := 0, gridOffsetY := 0, tileCountX := 10, tileCountY := 10,
    tileGrid := none, campaignId := "C" }

def tC6a : Token :=
  { id := "t1", mapId := "m1", label := "Ike", x := 0, y := 0,
    color := "#f43f5e", characterId := "c1" }

def tC6b : Token :=
  { id := "t2", mapId := "m1", label := "Soren", x := 1, y := 1,
    color := "#f43f5e", characterId := "c2" }

def dbC6 : DB :=
  { memberships := [⟨"d", "C", .DM⟩], characters := [chC6a, chC6b, chC6c],
    characterItems := [], characterSkills := [], skills := [], items := [],
    gameClasses := [], maps := [mpC6], tokens := [tC6a, tC6b], rolls := [],
    tileSets := [], presets := [], auditLogs := [] }

/-- Witness for C6 at a concrete store: the invariant survives a step; a
create for the already-tokened "c1" and for the out-of-campaign "c3" are
rejected; a rebind of "t1" to "c3" (wrong campaign) and to "c2" (already
tokened) are rejected, all leaving the store unchanged. -/
theorem claim_C6_witness :
    OneTokenPerCharacter (getCharacter dbC6 (some "d") "c1").2 ∧
    createToken dbC6 (some "d") "m1" ⟨"tok", 0, 0, none, "c1"⟩ "t9" =
      (.err 400 "Character already has a token", dbC6) ∧
    createToken dbC6 (some "d") "m1" ⟨"tok", 0, 0, none, "c3"⟩ "t9" =
      (.err 400 "Character not found in campaign", dbC6) ∧
    updateToken dbC6 (some "d") "t1" ⟨none, none, none, none, some "c3"⟩ =
      (.err 400 "Character not found in campaign", dbC6) ∧
    updateToken dbC6 (some "d") "t1" ⟨none, none, none, none, some "c2"⟩ =
      (.err 400 "Character already has a token", dbC6) := by
  have hC := claim_C6_one_token_per_character dbC6 "d" (by decide)
  have hotp : OneTokenPerCharacter dbC6 :=
    ⟨by decide, fun c => countP_key_le_one Token.characterId dbC6.tokens (by decide) c⟩
  refine ⟨?_, ?_, ?_, ?_, ?_⟩
  · exact hC.1 dbC6 _ (Step.getCharacterStep dbC6 (some "d") "c1") hotp
  · exact (hC.2.1 "m1" ⟨"tok", 0, 0, none, "c1"⟩ "t9" mpC6 ⟨"d", "C", .DM⟩ chC6a
      rfl rfl rfl (by decide) rfl).2 rfl tC6a rfl
  · exact (hC.2.1 "m1" ⟨"tok", 0, 0, none, "c3"⟩ "t9" mpC6 ⟨"d", "C", .DM⟩ chC6c
      rfl rfl rfl (by decide) rfl).1 (by decide)
  · exact ((hC.2.2 "t1" ⟨none, none, none, none, some "c3"⟩ tC6a mpC6 ⟨"d", "C", .DM⟩ "c3"
      rfl rfl rfl rfl (by decide) rfl (by decide)).2 chC6c rfl).1 (by decide)
  · exact ((hC.2.2 "t1" ⟨none, none, none, none, some "c2"⟩ tC6a mpC6 ⟨"d", "C", .DM⟩ "c2"
      rfl rfl rfl rfl (by decide) rfl (by decide)).2 chC6b rfl).2 rfl tC6b rfl

theorem requireCampaignMember_error_ne_ok (db : DB) (sess : Option String) (cid : String)
    (e : Reply) (h : requireCampaignMember db sess cid = .error e) : e ≠ .ok := by
  intro hok
  subst hok
  unfold requireCampaignMember at h
  repeat' split at h
  all_goals simp at h

theorem requireDM_error_ne_ok (db : DB) (sess : Option String) (cid : String)
    (e : Reply) (h : requireDM db sess cid = .error e) : e ≠ .ok := by
  intro hok
  subst hok
  unfold requireDM at h
  split at h
  · rename_i e2 heq
    injection h with h2
    subst h2
    exact absurd rfl (requireCampaignMember_error_ne_ok db sess cid _ heq)
  · split at h
    · simp at h
    · simp at h

theorem equipGuard_error_ne_ok (db : DB) (m : CampaignMember) (ch : Character)
    (id : String) (invId : Option String) (e : Reply)
    (h : equipGuard db m ch id invId = .error e) : e ≠ .ok := by
  intro hok
  subst hok
  unfold equipGuard at h
  try dsimp only at h
  repeat' split at h
  all_goals simp at h

/-- Concrete store refuting C8 as stated: character "c1" in campaign "C"
with DM "d"; skill "s1" is grantable and link "cs1" (to skill "s0") is
deletable. -/
def chC8 : Character :=
  { id := "c1", name := "Ike", stats := .flat [("hp", 20)], ownerId := none,
    kind := .NPC, className := none, level := 1, exp := 0, weaponSkills := none,
    currentHp := 20, equippedWeaponItemId := none, campaignId := "C" }

def dbC8 : DB :=
  { memberships := [⟨"d", "C", .DM⟩], characters := [chC8],
    characterItems := [], characterSkills := [⟨"cs1", "c1", "s0"⟩],
    skills := [⟨"s0", "Parry"⟩, ⟨"s1", "Counter"⟩], items := [], gameClasses := [],
    maps := [], tokens := [], rolls := [], tileSets := [], presets := [],
    auditLogs := [] }

/-- Counterexample to C8 as stated: the skill add and skill delete routes
are DM-gated mutations of a Character — both succeed here and change the
skill links — yet neither writes any audit record. -/
theorem claim_C8_counterexample :
    (addSkill dbC8 (some "d") "c1" "s1" "cs9").1 = .ok ∧
    (addSkill dbC8 (some "d") "c1" "s1" "cs9").2.characterSkills ≠ dbC8.characterSkills ∧
    (addSkill dbC8 (some "d") "c1" "s1" "cs9").2.auditLogs = dbC8.auditLogs ∧
    (deleteSkill dbC8 (some "d") "c1" "cs1").1 = .ok ∧
    (deleteSkill dbC8 (some "d") "c1" "cs1").2.characterSkills ≠ dbC8.characterSkills ∧
    (deleteSkill dbC8 (some "d") "c1" "cs1").2.auditLogs = dbC8.auditLogs := by
  refine ⟨rfl, by decide, rfl, rfl, by decide, rfl⟩

/-- The 0-based index of `x` in `ids` (0 when absent): the position that
the reorder transaction assigns, read off the spec's wording "each row's
sortOrder is set to its index in the input list". -/
def posOf (x : String) : List String → Int
  | [] => 0
  | y :: ys => if y == x then 0 else posOf x ys + 1

theorem posOf_cons (x y : String) (ys : List String) :
    posOf x (y :: ys) = if y == x then 0 else posOf x ys + 1 := rfl

/-- Spec-side description of one reorder pass starting at index `k`:
every row whose id occurs in `ids` has its sortOrder set to `k` plus its
index in `ids`; other rows are untouched. -/
def orderSpecF (ids : List String) (k : Int) (it : CharacterItem) : CharacterItem :=
  if it.id ∈ ids then { it with sortOrder := k + posOf it.id ids } else it

def orderSpec (items : List CharacterItem) (ids : List String) (k : Int) :
    List CharacterItem :=
  items.map (orderSpecF ids k)

theorem applyOrderFrom_eq_orderSpec (ids : List String) (items : List CharacterItem)
    (k : Int) (hnd : ids.Nodup) :
    applyOrderFrom items ids k = orderSpec items ids k := by
  induction ids generalizing items k with
  | nil =>
    unfold applyOrderFrom orderSpec orderSpecF
    simp
  | cons oid rest ih =>
    rw [List.nodup_cons] at hnd
    unfold applyOrderFrom
    rw [ih _ _ hnd.2]
    unfold orderSpec
    rw [List.map_map]
    congr 1
    funext it
    simp only [Function.comp_apply]
    by_cases hid : it.id = oid
    · rw [if_pos (by simpa using hid)]
      unfold orderSpecF
      try dsimp only
      have hnr : it.id ∉ rest := by
        rw [hid]
        exact hnd.1
      rw [if_neg hnr]
      rw [if_pos (by rw [hid]; exact List.mem_cons_self _ _)]
      rw [posOf_cons, if_pos (by simpa using hid.symm)]
      simp
    · rw [if_neg (by simpa using hid)]
      unfold orderSpecF
      try dsimp only
      have hpos : posOf it.id (oid :: rest) = posOf it.id rest + 1 := by
        rw [posOf_cons, if_neg (by simpa using fun hcon => hid hcon.symm)]
      rw [hpos]
      by_cases hmem : it.id ∈ rest
      · rw [if_pos hmem, if_pos (List.mem_cons_of_mem _ hmem)]
        have harith : k + (posOf it.id rest + 1) = k + 1 + posOf it.id rest := by ring
        rw [harith]
      · rw [if_neg hmem, if_neg (fun hconc => by
          rcases List.mem_cons.mp hconc with h1 | h2
          · exact hid h1
          · exact hmem h2)]

theorem insertBySortOrder_perm (it : CharacterItem) (l : List CharacterItem) :
    (insertBySortOrder it l).Perm (it :: l) := by
  induction l with
  | nil => exact List.Perm.refl _
  | cons x xs ih =>
    unfold insertBySortOrder
    split
    · exact List.Perm.refl _
    · exact (List.Perm.cons x ih).trans (List.Perm.swap it x xs)

theorem sortBySortOrder_perm (l : List CharacterItem) : (sortBySortOrder l).Perm l := by
  induction l with
  | nil => exact List.Perm.refl _
  | cons x xs ih =>
    unfold sortBySortOrder
    exact (insertBySortOrder_perm x (sortBySortOrder xs)).trans (List.Perm.cons x ih)

theorem posOf_map_self (ids : List String) (hnd : ids.Nodup) :
    ids.map (fun x => posOf x ids) = (List.range ids.length).map Int.ofNat := by
  induction ids with
  | nil => rfl
  | cons oid rest ih =>
    rw [List.nodup_cons] at hnd
    rw [List.map_cons]
    have h0 : posOf oid (oid :: rest) = 0 := by
      rw [posOf_cons, if_pos (by simp)]
    have hrest : rest.map (fun x => posOf x (oid :: rest)) =
        rest.map (fun x => posOf x rest + 1) := by
      apply map_congr_mem
      intro a ha
      rw [posOf_cons, if_neg (by
        simp only [beq_iff_eq]
        intro hcon
        exact hnd.1 (by rw [hcon]; exact ha))]
    rw [h0, hrest]
    have hmm : rest.map (fun x => posOf x rest + 1) =
        (rest.map (fun x => posOf x rest)).map (fun v => v + 1) := by
      rw [List.map_map]
      rfl
    rw [hmm, ih hnd.2, List.map_map]
    simp only [List.length_cons, List.range_succ_eq_map, List.map_cons, List.map_map]
    congr 1

theorem perm_of_nodup_subset_length (l1 l2 : List String) (hnd : l1.Nodup)
    (hsub : ∀ x ∈ l1, x ∈ l2) (hlen : l1.length = l2.length) : l1.Perm l2 := by
  have hsp : l1.Subperm l2 := List.subperm_of_subset hnd hsub
  obtain ⟨l3, hperm, hsl⟩ := hsp
  have hl3 : l3.length = l2.length := by
    rw [← hlen, hperm.length_eq]
  rw [hsl.eq_of_length hl3] at hperm
  exact hperm.symm

theorem filter_map_presv {α : Type} (l : List α) (f : α → α) (p : α → Bool)
    (hf : ∀ x ∈ l, p (f x) = p x) : (l.map f).filter p = (l.filter p).map f := by
  induction l with
  | nil => rfl
  | cons x xs ih =>
    rw [List.map_cons, List.filter_cons, List.filter_cons, hf x (List.mem_cons_self _ _)]
    have ihx := ih (fun a ha => hf a (List.mem_cons_of_mem _ ha))
    split
    · rw [List.map_cons, ihx]
    · exact ihx

theorem orderSpecF_idem (ids : List String) (k : Int) (it : CharacterItem) :
    orderSpecF ids k (orderSpecF ids k it) = orderSpecF ids k it := by
  unfold orderSpecF
  by_cases hmem : it.id ∈ ids
  · rw [if_pos hmem]
    try dsimp only
    rw [if_pos hmem]
  · rw [if_neg hmem, if_neg hmem]

theorem orderSpecF_id (ids : List String) (k : Int) (it : CharacterItem) :
    (orderSpecF ids k it).id = it.id := by
  unfold orderSpecF
  split
  all_goals rfl

theorem orderSpecF_characterId (ids : List String) (k : Int) (it : CharacterItem) :
    (orderSpecF ids k it).characterId = it.characterId := by
  unfold orderSpecF
  split
  all_goals rfl

theorem orderSpec_idem (items : List CharacterItem) (ids : List String) (k : Int) :
    orderSpec (orderSpec items ids k) ids k = orderSpec items ids k := by
  unfold orderSpec
  rw [List.map_map]
  apply map_congr_mem
  intro a ha
  simp only [Function.comp_apply]
  exact orderSpecF_idem ids k a

theorem reorderInventory_eval (db : DB) (uid cid : String) (ch : Character)
    (m : CampaignMember) (orderedIds : List String) (huid : uid ≠ "")
    (hch : findChar db cid = some ch)
    (hm : findMembership db uid ch.campaignId = some m)
    (hce : canEditCharacter m ch uid)
    (hval : orderBodyValid orderedIds = true)
    (hlen : (sortBySortOrder (invOf db cid)).length = orderedIds.length)
    (hmemall : (orderedIds.all (fun oid =>
      (sortBySortOrder (invOf db cid)).any (fun it => it.id == oid))) = true) :
    reorderInventory db (some uid) cid orderedIds =
      (.ok, writeAuditLog
        { db with characterItems := applyOrder db.characterItems orderedIds }
        { entityType := .CHARACTER, entityId := cid, action := "INVENTORY_REORDER",
          before := .ids ((sortBySortOrder (invOf db cid)).map (fun it => it.id)),
          after := .ids orderedIds,
          campaignId := ch.campaignId, userId := m.userId }) := by
  have hrcm := requireCampaignMember_found db uid ch.campaignId m huid hm
  have hb := canEditB_true m ch uid huid hce
  simp only [reorderInventory, hch, hrcm, getSessionUserId, hb, Bool.not_true, hval]
  simp [hlen, hmemall]

theorem reorderInventory_guardFail (db : DB) (uid cid : String) (ch : Character)
    (m : CampaignMember) (orderedIds : List String) (huid : uid ≠ "")
    (hch : findChar db cid = some ch)
    (hm : findMembership db uid ch.campaignId = some m)
    (hce : canEditCharacter m ch uid)
    (hval : orderBodyValid orderedIds = true)
    (hfail : (sortBySortOrder (invOf db cid)).length ≠ orderedIds.length ∨
      ¬ (orderedIds.all (fun oid =>
        (sortBySortOrder (invOf db cid)).any (fun it => it.id == oid))) = true) :
    reorderInventory db (some uid) cid orderedIds =
      (.err 400 "Order list does not match inventory", db) := by
  have hrcm := requireCampaignMember_found db uid ch.campaignId m huid hm
  have hb := canEditB_true m ch uid huid hce
  simp only [reorderInventory, hch, hrcm, getSessionUserId, hb, Bool.not_true, hval]
  rcases hfail with hf | hf
  · simp [hf]
  · by_cases hlen2 : (sortBySortOrder (invOf db cid)).length = orderedIds.length
    · simp [hlen2, hf]
    · simp [hlen2]

theorem applyOrder_eq_orderSpec (items : List CharacterItem) (ids : List String)
    (hnd : ids.Nodup) : applyOrder items ids = orderSpec items ids 0 :=
  applyOrderFrom_eq_orderSpec ids items 0 hnd

/-- **C3** (amended): the reorder guard is weaker than set equality — it
checks only that the submitted list has the inventory's length and that
every submitted id names some current row; under that guard the request is
rejected with no mutation.  When the guard passes the transaction runs the
sequential per-id updates (applyOrder); when the submitted list is
duplicate-free the guard does coincide with set equality (the input is a
permutation of the current id set), every row's sortOrder becomes its index
in the input, the resulting sortOrder values are exactly a permutation of
0..N-1, and re-running the same reorder leaves the rows unchanged. -/
theorem claim_C3_reorder (db : DB) (uid cid : String) (ch : Character)
    (m : CampaignMember) (orderedIds : List String) (huid : uid ≠ "")
    (hch : findChar db cid = some ch)
    (hm : findMembership db uid ch.campaignId = some m)
    (hce : canEditCharacter m ch uid)
    (hval : orderBodyValid orderedIds = true) :
    ((invOf db cid).length ≠ orderedIds.length ∨
        (∃ oid ∈ orderedIds, oid ∉ (invOf db cid).map (fun it => it.id)) →
      reorderInventory db (some uid) cid orderedIds =
        (.err 400 "Order list does not match inventory", db)) ∧
    ((invOf db cid).length = orderedIds.length →
      (∀ oid ∈ orderedIds, oid ∈ (invOf db cid).map (fun it => it.id)) →
      (reorderInventory db (some uid) cid orderedIds).1 = .ok ∧
      (reorderInventory db (some uid) cid orderedIds).2.characterItems =
        applyOrder db.characterItems orderedIds ∧
      (orderedIds.Nodup →
        (reorderInventory db (some uid) cid orderedIds).2.characterItems =
          orderSpec db.characterItems orderedIds 0 ∧
        orderedIds.Perm ((invOf db cid).map (fun it => it.id)) ∧
        ((invOf (reorderInventory db (some uid) cid orderedIds).2 cid).map
            (fun it => it.sortOrder)).Perm
          ((List.range orderedIds.length).map Int.ofNat) ∧
        (reorderInventory (reorderInventory db (some uid) cid orderedIds).2
            (some uid) cid orderedIds).2.characterItems =
          (reorderInventory db (some uid) cid orderedIds).2.characterItems)) := by
  have hperm : (sortBySortOrder (invOf db cid)).Perm (invOf db cid) :=
    sortBySortOrder_perm _
  constructor
  · intro hfail
    apply reorderInventory_guardFail db uid cid ch m orderedIds huid hch hm hce hval
    rcases hfail with hf | ⟨oid, hoin, hnot⟩
    · left
      rw [hperm.length_eq]
      exact hf
    · right
      intro hall
      rw [List.all_eq_true] at hall
      have hany := hall oid hoin
      rw [List.any_eq_true] at hany
      obtain ⟨it, hit, hbeq⟩ := hany
      have hids : it.id = oid := by simpa using hbeq
      exact hnot (List.mem_map.mpr ⟨it, hperm.mem_iff.mp hit, hids⟩)
  · intro hlen hsub
    have hlen' : (sortBySortOrder (invOf db cid)).length = orderedIds.length := by
      rw [hperm.length_eq]
      exact hlen
    have hmemall : (orderedIds.all (fun oid =>
        (sortBySortOrder (invOf db cid)).any (fun it => it.id == oid))) = true := by
      rw [List.all_eq_true]
      intro oid hoin
      rw [List.any_eq_true]
      obtain ⟨it, hitmem, hitid⟩ := List.mem_map.mp (hsub oid hoin)
      exact ⟨it, hperm.mem_iff.mpr hitmem, by simpa using hitid⟩
    have heval := reorderInventory_eval db uid cid ch m orderedIds huid hch hm hce
      hval hlen' hmemall
    have hitems : (reorderInventory db (some uid) cid orderedIds).2.characterItems =
        applyOrder db.characterItems orderedIds := by
      rw [heval]
      rfl
    refine ⟨by rw [heval], hitems, ?_⟩
    intro hnd
    have hos : applyOrder db.characterItems orderedIds =
        orderSpec db.characterItems orderedIds 0 :=
      applyOrder_eq_orderSpec db.characterItems orderedIds hnd
    have hperm2 : orderedIds.Perm ((invOf db cid).map (fun it => it.id)) := by
      apply perm_of_nodup_subset_length _ _ hnd hsub
      rw [List.length_map]
      exact hlen.symm
    have hinv2 : invOf (reorderInventory db (some uid) cid orderedIds).2 cid =
        (invOf db cid).map (orderSpecF orderedIds 0) := by
      unfold invOf
      rw [hitems, hos]
      unfold orderSpec
      rw [filter_map_presv _ _ _ (fun x hx => by rw [orderSpecF_characterId])]
    have hso : ((invOf db cid).map (orderSpecF orderedIds 0)).map (fun it => it.sortOrder) =
        ((invOf db cid).map (fun it => it.id)).map (fun x => posOf x orderedIds) := by
      rw [List.map_map, List.map_map]
      apply map_congr_mem
      intro a ha
      simp only [Function.comp_apply]
      have haid : a.id ∈ orderedIds := hperm2.mem_iff.mpr (List.mem_map.mpr ⟨a, ha, rfl⟩)
      unfold orderSpecF
      rw [if_pos haid]
      try dsimp only
      rw [zero_add]
    refine ⟨hitems.trans hos, hperm2, ?_, ?_⟩
    · rw [hinv2, hso]
      have hmp := (hperm2.symm).map (fun x => posOf x orderedIds)
      rw [posOf_map_self orderedIds hnd] at hmp
      exact hmp
    · have hch2 : findChar (reorderInventory db (some uid) cid orderedIds).2 cid =
          some ch := by
        unfold findChar
        rw [reorderInventory_characters]
        exact hch
      have hm2 : findMembership (reorderInventory db (some uid) cid orderedIds).2 uid
          ch.campaignId = some m := by
        unfold findMembership
        rw [reorderInventory_memberships]
        exact hm
      have hlen2 : (sortBySortOrder
          (invOf (reorderInventory db (some uid) cid orderedIds).2 cid)).length =
          orderedIds.length := by
        rw [(sortBySortOrder_perm _).length_eq, hinv2, List.length_map]
        exact hlen
      have hmem2 : (orderedIds.all (fun oid =>
          (sortBySortOrder
            (invOf (reorderInventory db (some uid) cid orderedIds).2 cid)).any
            (fun it => it.id == oid))) = true := by
        rw [List.all_eq_true]
        intro oid hoin
        rw [List.any_eq_true]
        obtain ⟨it, hitmem, hitid⟩ := List.mem_map.mp (hsub oid hoin)
        refine ⟨orderSpecF orderedIds 0 it, ?_, ?_⟩
        · apply (sortBySortOrder_perm _).mem_iff.mpr
          rw [hinv2]
          exact List.mem_map.mpr ⟨it, hitmem, rfl⟩
        · rw [orderSpecF_id]
          simpa using hitid
      have heval2 := reorderInventory_eval
        (reorderInventory db (some uid) cid orderedIds).2 uid cid ch m orderedIds
        huid hch2 hm2 hce hval hlen2 hmem2
      calc (reorderInventory (reorderInventory db (some uid) cid orderedIds).2
              (some uid) cid orderedIds).2.characterItems
          = applyOrder (reorderInventory db (some uid) cid orderedIds).2.characterItems
              orderedIds := by
              rw [heval2]
              rfl
        _ = orderSpec (reorderInventory db (some uid) cid orderedIds).2.characterItems
              orderedIds 0 :=
            applyOrder_eq_orderSpec _ _ hnd
        _ = orderSpec (orderSpec db.characterItems orderedIds 0) orderedIds 0 := by
            rw [hitems, hos]
        _ = orderSpec db.characterItems orderedIds 0 := orderSpec_idem _ _ _
        _ = (reorderInventory db (some uid) cid orderedIds).2.characterItems :=
            (hitems.trans hos).symm

/-- Concrete store for C3: DM "d"; character "c1" holds rows "a" and "b"
with sortOrders 0 and 1. -/
def chC3 : Character :=
  { id := "c1", name := "Ike", stats := .flat [("hp", 20)], ownerId := none,
    kind := .NPC, className := none, level := 1, exp := 0, weaponSkills := none,
    currentHp := 20, equippedWeaponItemId := none, campaignId := "C" }

def dbC3 : DB :=
  { memberships := [⟨"d", "C", .DM⟩], characters := [chC3],
    characterItems := [⟨"a", "c1", "i1", 0, none, false⟩, ⟨"b", "c1", "i1", 1, none, false⟩],
    characterSkills := [], skills := [], items := [], gameClasses := [], maps := [],
    tokens := [], rolls := [], tileSets := [], presets := [], auditLogs := [] }

/-- Counterexample to C3 as stated: the duplicated list ["a", "a"] is not
the current inventory id set, yet the reorder is accepted, and the
resulting sortOrder values are [1, 1] — not the contiguous sequence 0..1. -/
theorem claim_C3_counterexample :
    (reorderInventory dbC3 (some "d") "c1" ["a", "a"]).1 = .ok ∧
    ¬ (["a", "a"] : List String).Perm ((invOf dbC3 "c1").map (fun it => it.id)) ∧
    ((invOf (reorderInventory dbC3 (some "d") "c1" ["a", "a"]).2 "c1").map
        (fun it => it.sortOrder)) = [1, 1] ∧
    ¬ ((invOf (reorderInventory dbC3 (some "d") "c1" ["a", "a"]).2 "c1").map
        (fun it => it.sortOrder)).Perm
      ((List.range (["a", "a"] : List String).length).map Int.ofNat) := by
  refine ⟨rfl, by decide, rfl, by decide⟩

/-- Witness for the amended C3 at a concrete store: a list naming a
foreign id is rejected with the store unchanged; the duplicate-free
permutation ["b", "a"] is accepted, yields sortOrders that are a
permutation of 0..1, and re-running it changes nothing. -/
theorem claim_C3_witness :
    reorderInventory dbC3 (some "d") "c1" ["a", "x"] =
      (.err 400 "Order list does not match inventory", dbC3) ∧
    (reorderInventory dbC3 (some "d") "c1" ["b", "a"]).1 = .ok ∧
    ((invOf (reorderInventory dbC3 (some "d") "c1" ["b", "a"]).2 "c1").map
        (fun it => it.sortOrder)).Perm ((List.range 2).map Int.ofNat) ∧
    (reorderInventory (reorderInventory dbC3 (some "d") "c1" ["b", "a"]).2
        (some "d") "c1" ["b", "a"]).2.characterItems =
      (reorderInventory dbC3 (some "d") "c1" ["b", "a"]).2.characterItems := by
  have hC1 := claim_C3_reorder dbC3 "d" "c1" chC3 ⟨"d", "C", .DM⟩ ["a", "x"]
    (by decide) rfl rfl (Or.inl rfl) (by decide)
  have hC2 := claim_C3_reorder dbC3 "d" "c1" chC3 ⟨"d", "C", .DM⟩ ["b", "a"]
    (by decide) rfl rfl (Or.inl rfl) (by decide)
  refine ⟨?_, ?_, ?_, ?_⟩
  · exact hC1.1 (Or.inr ⟨"x", by decide, by decide⟩)
  · exact (hC2.2 (by decide) (by decide)).1
  · exact ((hC2.2 (by decide) (by decide)).2.2 (by decide)).2.2.1
  · exact ((hC2.2 (by decide) (by decide)).2.2 (by decide)).2.2.2

theorem writeAuditLog_characters (d : DB) (e : AuditEntry) :
    (writeAuditLog d e).characters = d.characters := rfl

theorem writeAuditLog_maps (d : DB) (e : AuditEntry) :
    (writeAuditLog d e).maps = d.maps := rfl

theorem createCharacter_eval (db : DB) (uid cid : String) (m : CampaignMember)
    (body : CharacterCreateBody) (newId : String) (huid : uid ≠ "")
    (hm : findMembership db uid cid = some m) (hrole : m.role = Role.DM)
    (hval : body.valid = true) :
    ∃ c : Character,
      (createCharacter db (some uid) cid body newId).2.characters =
        db.characters ++ [c] ∧
      c.id = newId ∧ c.campaignId = cid ∧
      (createCharacter db (some uid) cid body newId).1 = .ok ∧
      (createCharacter db (some uid) cid body newId).2.auditLogs = db.auditLogs ++
        [{ entityType := .CHARACTER, entityId := newId, action := "CHARACTER_CREATE",
           before := .null, after := .char c, campaignId := cid, userId := m.userId }] := by
  have hrdm := requireDM_found_dm db uid cid m huid hm hrole
  simp only [createCharacter, hrdm, hval, Bool.not_true]
  try dsimp only
  rw [if_neg (by simp)]
  refine ⟨{ id := newId, name := body.name, stats := body.stats,
            ownerId := if body.kind.getD Kind.PLAYER = Kind.PLAYER
              then some (body.ownerId.getD m.userId) else none,
            kind := body.kind.getD Kind.PLAYER, className := body.className,
            level := body.level.getD 1, exp := body.exp.getD 0,
            weaponSkills := body.weaponSkills,
            currentHp := body.currentHp.getD (baseHpOf body.stats),
            equippedWeaponItemId := none, campaignId := cid }, ?_, rfl, rfl, rfl, ?_⟩
  · rw [writeAuditLog_characters, addMissingClassSkills_characters]
  · rw [writeAuditLog_logs, addMissingClassSkills_auditLogs]

theorem updateCharacter_eval (db : DB) (uid id : String) (existing : Character)
    (m : CampaignMember) (body : CharacterUpdateBody) (huid : uid ≠ "")
    (hch : findChar db id = some existing)
    (hm : findMembership db uid existing.campaignId = some m) (hrole : m.role = Role.DM)
    (hval : body.valid = true) :
    ∃ c : Character,
      (updateCharacter db (some uid) id body).2.characters =
        db.characters.map (fun x => if x.id == id then c else x) ∧
      c.id = existing.id ∧ c.campaignId = existing.campaignId ∧
      (updateCharacter db (some uid) id body).1 = .ok ∧
      (updateCharacter db (some uid) id body).2.auditLogs = db.auditLogs ++
        [{ entityType := .CHARACTER, entityId := existing.id, action := "CHARACTER_UPDATE",
           before := .char existing, after := .char c,
           campaignId := existing.campaignId, userId := m.userId }] := by
  have hrdm := requireDM_found_dm db uid existing.campaignId m huid hm hrole
  simp only [updateCharacter, hch, hrdm, hval, Bool.not_true]
  try dsimp only
  rw [if_neg (by simp)]
  refine ⟨{ existing with
            name := body.name.getD existing.name,
            stats := body.stats.getD existing.stats,
            ownerId := if body.kind.getD existing.kind = Kind.PLAYER
              then nnCoalesce body.ownerId existing.ownerId else none,
            kind := body.kind.getD existing.kind,
            className := undefCoalesce body.className existing.className,
            level := body.level.getD existing.level, exp := body.exp.getD existing.exp,
            weaponSkills := orO body.weaponSkills existing.weaponSkills,
            currentHp := body.currentHp.getD existing.currentHp }, ?_, rfl, rfl, rfl, ?_⟩
  · rw [writeAuditLog_characters, addMissingClassSkills_characters]
  · rw [writeAuditLog_logs, addMissingClassSkills_auditLogs]

theorem addInventory_eval (db : DB) (uid id : String) (ch : Character)
    (m : CampaignMember) (body : InventoryAddBody) (item : Item) (newId : String)
    (huid : uid ≠ "") (hch : findChar db id = some ch)
    (hm : findMembership db uid ch.campaignId = some m) (hrole : m.role = Role.DM)
    (hval : body.valid = true) (hitem : findItem db body.itemId = some item)
    (hcount : (invOf db id).length < 8) :
    addInventory db (some uid) id body newId =
      (.ok, writeAuditLog
        { db with characterItems := db.characterItems ++
            [{ id := newId, characterId := id, itemId := body.itemId,
               sortOrder :=
                 (listMax ((invOf db id).map (fun it => it.sortOrder))).getD (-1) + 1,
               uses := orO body.uses item.uses, blessed := false }] }
        { entityType := .CHARACTER, entityId := id, action := "INVENTORY_ADD",
          before := .null,
          after := .invItem { id := newId, characterId := id, itemId := body.itemId,
                              sortOrder :=
                                (listMax ((invOf db id).map
                                  (fun it => it.sortOrder))).getD (-1) + 1,
                              uses := orO body.uses item.uses, blessed := false },
          campaignId := ch.campaignId, userId := m.userId }) := by
  have hrdm := requireDM_found_dm db uid ch.campaignId m huid hm hrole
  simp only [addInventory, hch, hrdm, hval, Bool.not_true]
  try dsimp only
  simp only [hitem]
  rw [if_neg (by simp), if_neg (by omega)]

theorem deleteInventory_eval (db : DB) (uid id invId : String) (ch : Character)
    (m : CampaignMember) (row : CharacterItem)
    (huid : uid ≠ "") (hch : findChar db id = some ch)
    (hm : findMembership db uid ch.campaignId = some m) (hrole : m.role = Role.DM)
    (hrow : findInvRow db invId = some row) (hrowc : row.characterId = id) :
    deleteInventory db (some uid) id invId =
      (.ok, writeAuditLog
        { db with characterItems := db.characterItems.filter (fun it => it.id != invId) }
        { entityType := .CHARACTER, entityId := id, action := "INVENTORY_REMOVE",
          before := .invItem row, after := .null,
          campaignId := ch.campaignId, userId := m.userId }) := by
  have hrdm := requireDM_found_dm db uid ch.campaignId m huid hm hrole
  simp only [deleteInventory, hch, hrdm, hrow]
  try dsimp only
  simp [hrowc]

theorem updateInventoryItem_eval (db : DB) (uid id invId : String) (ch : Character)
    (m : CampaignMember) (body : InventoryUpdateBody) (row : CharacterItem)
    (huid : uid ≠ "") (hch : findChar db id = some ch)
    (hm : findMembership db uid ch.campaignId = some m)
    (hce : canEditCharacter m ch uid) (hval : body.valid = true)
    (hrow : findInvRow db invId = some row) (hrowc : row.characterId = id) :
    updateInventoryItem db (some uid) id invId body =
      (.ok, writeAuditLog
        { db with characterItems := db.characterItems.map (fun it =>
            if it.id == invId then
              { row with uses := undefCoalesce body.uses row.uses,
                         blessed := body.blessed.getD row.blessed } else it) }
        { entityType := .CHARACTER, entityId := id, action := "INVENTORY_UPDATE",
          before := .invItem row,
          after := .invItem { row with uses := undefCoalesce body.uses row.uses,
                                       blessed := body.blessed.getD row.blessed },
          campaignId := ch.campaignId, userId := m.userId }) := by
  have hrcm := requireCampaignMember_found db uid ch.campaignId m huid hm
  have hb := canEditB_true m ch uid huid hce
  simp only [updateInventoryItem, hch, hrcm, getSessionUserId, hb, Bool.not_true, hval]
  try dsimp only
  simp only [hrow]
  simp [hrowc]

theorem createMap_eval (db : DB) (uid cid : String) (m : CampaignMember)
    (body : MapCreateBody) (newId : String) (huid : uid ≠ "")
    (hm : findMembership db uid cid = some m) (hrole : m.role = Role.DM)
    (hval : body.valid = true)
    (hgrid : assertGridSize
      (body.tileGrid.getD (buildEmptyGrid (body.tileCountY.getD 10) (body.tileCountX.getD 10)))
      (body.tileCountY.getD 10) (body.tileCountX.getD 10) = .ok ()) :
    ∃ mp : GameMap,
      (createMap db (some uid) cid body newId).2.maps = db.maps ++ [mp] ∧
      mp.id = newId ∧ mp.campaignId = cid ∧
      (createMap db (some uid) cid body newId).1 = .ok ∧
      (createMap db (some uid) cid body newId).2.auditLogs = db.auditLogs ++
        [{ entityType := .MAP, entityId := newId, action := "MAP_CREATE",
           before := .null, after := .gmap mp, campaignId := cid, userId := m.userId }] := by
  have hrdm := requireDM_found_dm db uid cid m huid hm hrole
  simp only [createMap, hrdm, hval, Bool.not_true]
  try dsimp only
  rw [if_neg (by simp)]
  simp only [hgrid]
  first
    | exact ⟨_, rfl, rfl, rfl, trivial, rfl⟩
    | exact ⟨_, rfl, rfl, rfl, rfl, rfl⟩

theorem updateMap_eval (db : DB) (uid id : String) (mp : GameMap) (m : CampaignMember)
    (body : MapUpdateBody) (huid : uid ≠ "") (hmap : findMap db id = some mp)
    (hm : findMembership db uid mp.campaignId = some m) (hrole : m.role = Role.DM)
    (hval : body.valid = true)
    (hgrid : ∀ grid, orO body.tileGrid mp.tileGrid = some grid →
      assertGridSize grid (body.tileCountY.getD mp.tileCountY)
        (body.tileCountX.getD mp.tileCountX) = .ok ()) :
    ∃ u : GameMap,
      (updateMap db (some uid) id body).2.maps =
        db.maps.map (fun x => if x.id == id then u else x) ∧
      u.id = mp.id ∧ u.campaignId = mp.campaignId ∧
      (updateMap db (some uid) id body).1 = .ok ∧
      (updateMap db (some uid) id body).2.auditLogs = db.auditLogs ++
        [{ entityType := .MAP, entityId := mp.id, action := "MAP_UPDATE",
           before := .gmap mp, after := .gmap u,
           campaignId := mp.campaignId, userId := m.userId }] := by
  have hrdm := requireDM_found_dm db uid mp.campaignId m huid hm hrole
  simp only [updateMap, hmap, hrdm, hval, Bool.not_true]
  try dsimp only
  rw [if_neg (by simp)]
  rcases horO : orO body.tileGrid mp.tileGrid with _ | grid
  · simp only [horO]
    first
      | exact ⟨_, rfl, rfl, rfl, trivial, rfl⟩
      | exact ⟨_, rfl, rfl, rfl, rfl, rfl⟩
  · simp only [horO, hgrid grid horO]
    first
      | exact ⟨_, rfl, rfl, rfl, trivial, rfl⟩
      | exact ⟨_, rfl, rfl, rfl, rfl, rfl⟩

/-- **C8** (amended): the audit store is append-only under every modelled
operation, and each audited DM-gated mutation path — character create and
update, inventory add/remove/update/reorder, equip-weapon, HP update, map
create and update — appends exactly one record on success, capturing all
seven documented fields: the entity type, the entity id, the action tag,
the before snapshot, the after snapshot, the campaign, and the acting
user.  The two skill endpoints, although DM-gated character mutations,
never touch the audit store. -/
theorem claim_C8_audit_coverage :
    (∀ db1 db2 : DB, Step db1 db2 → ∃ s, db2.auditLogs = db1.auditLogs ++ s) ∧
    (∀ (db : DB) (uid cid : String) (m : CampaignMember) (body : CharacterCreateBody)
        (newId : String), uid ≠ "" → findMembership db uid cid = some m →
      m.role = Role.DM → body.valid = true →
      ∃ c : Character,
        (createCharacter db (some uid) cid body newId).2.characters =
          db.characters ++ [c] ∧
        c.id = newId ∧ c.campaignId = cid ∧
        (createCharacter db (some uid) cid body newId).1 = .ok ∧
        (createCharacter db (some uid) cid body newId).2.auditLogs = db.auditLogs ++
          [{ entityType := .CHARACTER, entityId := newId, action := "CHARACTER_CREATE",
             before := .null, after := .char c, campaignId := cid,
             userId := m.userId }]) ∧
    (∀ (db : DB) (uid id : String) (existing : Character) (m : CampaignMember)
        (body : CharacterUpdateBody), uid ≠ "" → findChar db id = some existing →
      findMembership db uid existing.campaignId = some m → m.role = Role.DM →
      body.valid = true →
      ∃ c : Character,
        (updateCharacter db (some uid) id body).2.characters =
          db.characters.map (fun x => if x.id == id then c else x) ∧
        c.id = existing.id ∧ c.campaignId = existing.campaignId ∧
        (updateCharacter db (some uid) id body).1 = .ok ∧
        (updateCharacter db (some uid) id body).2.auditLogs = db.auditLogs ++
          [{ entityType := .CHARACTER, entityId := existing.id,
             action := "CHARACTER_UPDATE", before := .char existing, after := .char c,
             campaignId := existing.campaignId, userId := m.userId }]) ∧
    (∀ (db : DB) (uid id : String) (ch : Character) (m : CampaignMember)
        (body : InventoryAddBody) (item : Item) (newId : String), uid ≠ "" →
      findChar db id = some ch → findMembership db uid ch.campaignId = some m →
      m.role = Role.DM → body.valid = true → findItem db body.itemId = some item →
      (invOf db id).length < 8 →
      addInventory db (some uid) id body newId =
        (.ok, writeAuditLog
          { db with characterItems := db.characterItems ++
              [{ id := newId, characterId := id, itemId := body.itemId,
                 sortOrder :=
                   (listMax ((invOf db id).map (fun it => it.sortOrder))).getD (-1) + 1,
                 uses := orO body.uses item.uses, blessed := false }] }
          { entityType := .CHARACTER, entityId := id, action := "INVENTORY_ADD",
            before := .null,
            after := .invItem { id := newId, characterId := id, itemId := body.itemId,
                                sortOrder :=
                                  (listMax ((invOf db id).map
                                    (fun it => it.sortOrder))).getD (-1) + 1,
                                uses := orO body.uses item.uses, blessed := false },
            campaignId := ch.campaignId, userId := m.userId })) ∧
    (∀ (db : DB) (uid id invId : String) (ch : Character) (m : CampaignMember)
        (row : CharacterItem), uid ≠ "" → findChar db id = some ch →
      findMembership db uid ch.campaignId = some m → m.role = Role.DM →
      findInvRow db invId = some row → row.characterId = id →
      deleteInventory db (some uid) id invId =
        (.ok, writeAuditLog
          { db with characterItems :=
              db.characterItems.filter (fun it => it.id != invId) }
          { entityType := .CHARACTER, entityId := id, action := "INVENTORY_REMOVE",
            before := .invItem row, after := .null,
            campaignId := ch.campaignId, userId := m.userId })) ∧
    (∀ (db : DB) (uid id invId : String) (ch : Character) (m : CampaignMember)
        (body : InventoryUpdateBody) (row : CharacterItem), uid ≠ "" →
      findChar db id = some ch → findMembership db uid ch.campaignId = some m →
      canEditCharacter m ch uid → body.valid = true →
      findInvRow db invId = some row → row.characterId = id →
      updateInventoryItem db (some uid) id invId body =
        (.ok, writeAuditLog
          { db with characterItems := db.characterItems.map (fun it =>
              if it.id == invId then
                { row with uses := undefCoalesce body.uses row.uses,
                           blessed := body.blessed.getD row.blessed } else it) }
          { entityType := .CHARACTER, entityId := id, action := "INVENTORY_UPDATE",
            before := .invItem row,
            after := .invItem { row with uses := undefCoalesce body.uses row.uses,
                                         blessed := body.blessed.getD row.blessed },
            campaignId := ch.campaignId, userId := m.userId })) ∧
    (∀ (db : DB) (uid cid : String) (ch : Character) (m : CampaignMember)
        (orderedIds : List String), uid ≠ "" → findChar db cid = some ch →
      findMembership db uid ch.campaignId = some m → canEditCharacter m ch uid →
      orderBodyValid orderedIds = true →
      (sortBySortOrder (invOf db cid)).length = orderedIds.length →
      (orderedIds.all (fun oid =>
        (sortBySortOrder (invOf db cid)).any (fun it => it.id == oid))) = true →
      reorderInventory db (some uid) cid orderedIds =
        (.ok, writeAuditLog
          { db with characterItems := applyOrder db.characterItems orderedIds }
          { entityType := .CHARACTER, entityId := cid, action := "INVENTORY_REORDER",
            before := .ids ((sortBySortOrder (invOf db cid)).map (fun it => it.id)),
            after := .ids orderedIds,
            campaignId := ch.campaignId, userId := m.userId })) ∧
    (∀ (db : DB) (uid cid : String) (ch : Character) (m : CampaignMember)
        (invId : Option String), uid ≠ "" → findChar db cid = some ch →
      findMembership db uid ch.campaignId = some m → canEditCharacter m ch uid →
      (invId.all (fun s => decide (1 ≤ s.length))) = true →
      equipGuard db m ch cid invId = .ok () →
      setEquippedWeapon db (some uid) cid invId =
        (.ok, writeAuditLog
          { db with characters := db.characters.map (fun c =>
              if c.id == cid then { c with equippedWeaponItemId := invId } else c) }
          { entityType := .CHARACTER, entityId := cid,
            action := "EQUIPPED_WEAPON_UPDATE",
            before := .equip ch.equippedWeaponItemId, after := .equip invId,
            campaignId := ch.campaignId, userId := m.userId })) ∧
    (∀ (db : DB) (uid cid : String) (ch : Character) (m : CampaignMember) (hp : Int),
      uid ≠ "" → findChar db cid = some ch →
      findMembership db uid ch.campaignId = some m → canEditCharacter m ch uid →
      0 ≤ hp →
      updateHp db (some uid) cid hp =
        (.ok, writeAuditLog
          { db with characters := db.characters.map (fun c =>
              if c.id == cid then { c with currentHp := hp } else c) }
          { entityType := .CHARACTER, entityId := cid, action := "HP_UPDATE",
            before := .hp ch.currentHp, after := .hp hp,
            campaignId := ch.campaignId, userId := m.userId })) ∧
    (∀ (db : DB) (uid cid : String) (m : CampaignMember) (body : MapCreateBody)
        (newId : String), uid ≠ "" → findMembership db uid cid = some m →
      m.role = Role.DM → body.valid = true →
      assertGridSize
        (body.tileGrid.getD (buildEmptyGrid (body.tileCountY.getD 10)
          (body.tileCountX.getD 10)))
        (body.tileCountY.getD 10) (body.tileCountX.getD 10) = .ok () →
      ∃ mp : GameMap,
        (createMap db (some uid) cid body newId).2.maps = db.maps ++ [mp] ∧
        mp.id = newId ∧ mp.campaignId = cid ∧
        (createMap db (some uid) cid body newId).1 = .ok ∧
        (createMap db (some uid) cid body newId).2.auditLogs = db.auditLogs ++
          [{ entityType := .MAP, entityId := newId, action := "MAP_CREATE",
             before := .null, after := .gmap mp, campaignId := cid,
             userId := m.userId }]) ∧
    (∀ (db : DB) (uid id : String) (mp : GameMap) (m : CampaignMember)
        (body : MapUpdateBody), uid ≠ "" → findMap db id = some mp →
      findMembership db uid mp.campaignId = some m → m.role = Role.DM →
      body.valid = true →
      (∀ grid, orO body.tileGrid mp.tileGrid = some grid →
        assertGridSize grid (body.tileCountY.getD mp.tileCountY)
          (body.tileCountX.getD mp.tileCountX) = .ok ()) →
      ∃ u : GameMap,
        (updateMap db (some uid) id body).2.maps =
          db.maps.map (fun x => if x.id == id then u else x) ∧
        u.id = mp.id ∧ u.campaignId = mp.campaignId ∧
        (updateMap db (some uid) id body).1 = .ok ∧
        (updateMap db (some uid) id body).2.auditLogs = db.auditLogs ++
          [{ entityType := .MAP, entityId := mp.id, action := "MAP_UPDATE",
             before := .gmap mp, after := .gmap u,
             campaignId := mp.campaignId, userId := m.userId }]) ∧
    (∀ (db : DB) (sess : Option String) (cid : String) (body : CharacterCreateBody)
        (newId : String), (createCharacter db sess cid body newId).1 = .ok →
      ∃ e : AuditEntry, (createCharacter db sess cid body newId).2.auditLogs =
          db.auditLogs ++ [e] ∧
        e.entityType = .CHARACTER ∧ e.entityId = newId ∧
        e.action = "CHARACTER_CREATE" ∧ e.campaignId = cid) ∧
    (∀ (db : DB) (sess : Option String) (id : String) (body : CharacterUpdateBody),
      (updateCharacter db sess id body).1 = .ok →
      ∃ e : AuditEntry, (updateCharacter db sess id body).2.auditLogs =
          db.auditLogs ++ [e] ∧
        e.entityType = .CHARACTER ∧ e.entityId = id ∧ e.action = "CHARACTER_UPDATE") ∧
    (∀ (db : DB) (sess : Option String) (id : String) (body : InventoryAddBody)
        (newId : String), (addInventory db sess id body newId).1 = .ok →
      ∃ e : AuditEntry, (addInventory db sess id body newId).2.auditLogs =
          db.auditLogs ++ [e] ∧
        e.entityType = .CHARACTER ∧ e.entityId = id ∧ e.action = "INVENTORY_ADD") ∧
    (∀ (db : DB) (sess : Option String) (id invId : String),
      (deleteInventory db sess id invId).1 = .ok →
      ∃ e : AuditEntry, (deleteInventory db sess id invId).2.auditLogs =
          db.auditLogs ++ [e] ∧
        e.entityType = .CHARACTER ∧ e.entityId = id ∧ e.action = "INVENTORY_REMOVE") ∧
    (∀ (db : DB) (sess : Option String) (id invId : String) (body : InventoryUpdateBody),
      (updateInventoryItem db sess id invId body).1 = .ok →
      ∃ e : AuditEntry, (updateInventoryItem db sess id invId body).2.auditLogs =
          db.auditLogs ++ [e] ∧
        e.entityType = .CHARACTER ∧ e.entityId = id ∧ e.action = "INVENTORY_UPDATE") ∧
    (∀ (db : DB) (sess : Option String) (id : String) (orderedIds : List String),
      (reorderInventory db sess id orderedIds).1 = .ok →
      ∃ e : AuditEntry, (reorderInventory db sess id orderedIds).2.auditLogs =
          db.auditLogs ++ [e] ∧
        e.entityType = .CHARACTER ∧ e.entityId = id ∧ e.action = "INVENTORY_REORDER") ∧
    (∀ (db : DB) (sess : Option String) (id : String) (invId : Option String),
      (setEquippedWeapon db sess id invId).1 = .ok →
      ∃ e : AuditEntry, (setEquippedWeapon db sess id invId).2.auditLogs =
          db.auditLogs ++ [e] ∧
        e.entityType = .CHARACTER ∧ e.entityId = id ∧
        e.action = "EQUIPPED_WEAPON_UPDATE") ∧
    (∀ (db : DB) (sess : Option String) (id : String) (hp : Int),
      (updateHp db sess id hp).1 = .ok →
      ∃ e : AuditEntry, (updateHp db sess id hp).2.auditLogs = db.auditLogs ++ [e] ∧
        e.entityType = .CHARACTER ∧ e.entityId = id ∧ e.action = "HP_UPDATE") ∧
    (∀ (db : DB) (sess : Option String) (cid : String) (body : MapCreateBody)
        (newId : String), (createMap db sess cid body newId).1 = .ok →
      ∃ e : AuditEntry, (createMap db sess cid body newId).2.auditLogs =
          db.auditLogs ++ [e] ∧
        e.entityType = .MAP ∧ e.entityId = newId ∧ e.action = "MAP_CREATE" ∧
        e.campaignId = cid) ∧
    (∀ (db : DB) (sess : Option String) (id : String) (body : MapUpdateBody),
      (updateMap db sess id body).1 = .ok →
      ∃ e : AuditEntry, (updateMap db sess id body).2.auditLogs = db.auditLogs ++ [e] ∧
        e.entityType = .MAP ∧ e.entityId = id ∧ e.action = "MAP_UPDATE") ∧
    (∀ (db : DB) (sess : Option String) (id skillId newId : String),
      (addSkill db sess id skillId newId).2.auditLogs = db.auditLogs) ∧
    (∀ (db : DB) (sess : Option String) (id csid : String),
      (deleteSkill db sess id csid).2.auditLogs = db.auditLogs) := by
  refine ⟨fun db1 db2 h => step_audit_append_only h,
    ?_, ?_, ?_, ?_, ?_, ?_, ?_, ?_, ?_, ?_, ?_, ?_, ?_, ?_, ?_, ?_, ?_, ?_, ?_, ?_, ?_, ?_⟩
  · intro db uid cid m body newId huid hm hrole hval
    exact createCharacter_eval db uid cid m body newId huid hm hrole hval
  · intro db uid id existing m body huid hch hm hrole hval
    exact updateCharacter_eval db uid id existing m body huid hch hm hrole hval
  · intro db uid id ch m body item newId huid hch hm hrole hval hitem hcount
    exact addInventory_eval db uid id ch m body item newId huid hch hm hrole hval
      hitem hcount
  · intro db uid id invId ch m row huid hch hm hrole hrow hrowc
    exact deleteInventory_eval db uid id invId ch m row huid hch hm hrole hrow hrowc
  · intro db uid id invId ch m body row huid hch hm hce hval hrow hrowc
    exact updateInventoryItem_eval db uid id invId ch m body row huid hch hm hce hval
      hrow hrowc
  · intro db uid cid ch m orderedIds huid hch hm hce hval hlen hmemall
    exact reorderInventory_eval db uid cid ch m orderedIds huid hch hm hce hval
      hlen hmemall
  · intro db uid cid ch m invId huid hch hm hce hv hguard
    rw [setEquippedWeapon_eval db uid cid ch m invId huid hch hm hce hv, hguard]
  · intro db uid cid ch m hp huid hch hm hce hhp
    exact updateHp_eval db uid cid ch m hp huid hch hm hce hhp
  · intro db uid cid m body newId huid hm hrole hval hgrid
    exact createMap_eval db uid cid m body newId huid hm hrole hval hgrid
  · intro db uid id mp m body huid hmap hm hrole hval hgrid
    exact updateMap_eval db uid id mp m body huid hmap hm hrole hval hgrid
  · intro db sess cid body newId
    unfold createCharacter
    try dsimp only
    repeat' split
    all_goals intro h
    all_goals first
      | contradiction
      | (rename_i e2 heq; exact absurd h (requireDM_error_ne_ok _ _ _ e2 heq))
      | exact ⟨_, by rw [writeAuditLog_logs, addMissingClassSkills_auditLogs],
          rfl, rfl, rfl, rfl⟩
  · intro db sess id body
    unfold updateCharacter
    cases hfc : findChar db id with
    | none =>
      intro h
      contradiction
    | some existing =>
      dsimp only
      cases hdm : requireDM db sess existing.campaignId with
      | error e =>
        intro h
        exact absurd h (requireDM_error_ne_ok _ _ _ e hdm)
      | ok dm =>
        try dsimp only
        by_cases hv : (!body.valid) = true
        · rw [if_pos hv]
          intro h
          contradiction
        · rw [if_neg hv]
          try dsimp only
          intro h
          have hexid : existing.id = id := by simpa using List.find?_some hfc
          exact ⟨_, by rw [writeAuditLog_logs, addMissingClassSkills_auditLogs], rfl,
            hexid, rfl⟩
  · intro db sess id body newId
    unfold addInventory
    try dsimp only
    repeat' split
    all_goals intro h
    all_goals first
      | contradiction
      | (rename_i e2 heq; exact absurd h (requireDM_error_ne_ok _ _ _ e2 heq))
      | exact ⟨_, rfl, rfl, rfl, rfl⟩
  · intro db sess id invId
    unfold deleteInventory
    try dsimp only
    repeat' split
    all_goals intro h
    all_goals first
      | contradiction
      | (rename_i e2 heq; exact absurd h (requireDM_error_ne_ok _ _ _ e2 heq))
      | exact ⟨_, rfl, rfl, rfl, rfl⟩
  · intro db sess id invId body
    unfold updateInventoryItem
    try dsimp only
    repeat' split
    all_goals intro h
    all_goals first
      | contradiction
      | (rename_i e2 heq; exact absurd h (requireCampaignMember_error_ne_ok _ _ _ e2 heq))
      | exact ⟨_, rfl, rfl, rfl, rfl⟩
  · intro db sess id orderedIds
    unfold reorderInventory
    try dsimp only
    repeat' split
    all_goals intro h
    all_goals first
      | contradiction
      | (rename_i e2 heq; exact absurd h (requireCampaignMember_error_ne_ok _ _ _ e2 heq))
      | exact ⟨_, rfl, rfl, rfl, rfl⟩
  · intro db sess id invId
    unfold setEquippedWeapon
    try dsimp only
    repeat' split
    all_goals intro h
    all_goals first
      | contradiction
      | (rename_i e2 heq; exact absurd h (requireCampaignMember_error_ne_ok _ _ _ e2 heq))
      | (rename_i e2 heq; exact absurd h (equipGuard_error_ne_ok _ _ _ _ _ e2 heq))
      | exact ⟨_, rfl, rfl, rfl, rfl⟩
  · intro db sess id hp
    unfold updateHp
    try dsimp only
    repeat' split
    all_goals intro h
    all_goals first
      | contradiction
      | (rename_i e2 heq; exact absurd h (requireCampaignMember_error_ne_ok _ _ _ e2 heq))
      | exact ⟨_, rfl, rfl, rfl, rfl⟩
  · intro db sess cid body newId
    unfold createMap
    try dsimp only
    repeat' split
    all_goals intro h
    all_goals first
      | contradiction
      | (rename_i e2 heq; exact absurd h (requireDM_error_ne_ok _ _ _ e2 heq))
      | exact ⟨_, rfl, rfl, rfl, rfl, rfl⟩
  · intro db sess id body
    unfold updateMap
    cases hfm : findMap db id with
    | none =>
      intro h
      contradiction
    | some mp =>
      dsimp only
      cases hdm : requireDM db sess mp.campaignId with
      | error e =>
        intro h
        exact absurd h (requireDM_error_ne_ok _ _ _ e hdm)
      | ok dm =>
        try dsimp only
        by_cases hv : (!body.valid) = true
        · rw [if_pos hv]
          intro h
          contradiction
        · rw [if_neg hv]
          try dsimp only
          split
          · intro h
            contradiction
          · intro h
            have hmpid : mp.id = id := by simpa using List.find?_some hfm
            exact ⟨_, rfl, rfl, hmpid, rfl⟩
  · intro db sess id skillId newId
    unfold addSkill
    try dsimp only
    repeat' split
    all_goals rfl
  · intro db sess id csid
    unfold deleteSkill
    try dsimp only
    repeat' split
    all_goals rfl

/-- Witness for the amended C8 at a concrete store: one step keeps the
audit store a prefix; a successful HP update appends exactly the one
HP_UPDATE record carrying entity, action, before/after snapshots, campaign
and acting user; and a successful skill add appends nothing. -/
theorem claim_C8_witness :
    (∃ s, (updateHp dbC8 (some "d") "c1" 5).2.auditLogs = dbC8.auditLogs ++ s) ∧
    updateHp dbC8 (some "d") "c1" 5 =
      (.ok, writeAuditLog
        { dbC8 with characters := dbC8.characters.map (fun c =>
            if c.id == "c1" then { c with currentHp := 5 } else c) }
        { entityType := .CHARACTER, entityId := "c1", action := "HP_UPDATE",
          before := .hp chC8.currentHp, after := .hp 5,
          campaignId := chC8.campaignId, userId := "d" }) ∧
    (addSkill dbC8 (some "d") "c1" "s1" "cs9").2.auditLogs = dbC8.auditLogs := by
  obtain ⟨hstep, hcc, huc, hai, hdi, hui, hro, hew, hhp, hcm, hum,
    gcc, guc, gai, gdi, gui, gro, gew, ghp, gcm, gum, hsk1, hsk2⟩ :=
    claim_C8_audit_coverage
  refine ⟨hstep dbC8 _ (Step.updateHpStep dbC8 (some "d") "c1" 5), ?_,
    hsk1 dbC8 (some "d") "c1" "s1" "cs9"⟩
  exact hhp dbC8 "d" "c1" chC8 ⟨"d", "C", .DM⟩ 5 (by decide) rfl rfl (Or.inl rfl)
    (by decide)
